import Mathlib

/-!
# drugsim: pharmacokinetic model and simulation loop

Shallow embedding of the closed-form pharmacokinetic functions of drugsim
(`src/src/pk_utils.cpp`), of the simulation helpers
(`src/src/simulation_helper.cpp`), of the tick loop (`src/src/simulation.cpp`)
and of the route and delayed-release part of the input handling
(`src/src/input_handler.cpp`).

Conventions of the embedding.

* `double` and `float` values are elements of a linearly ordered field `α`
  (exact arithmetic: rounding, overflow and the `float`/`double` conversions
  of computed values are not modelled).  The `float` constant
  `ABSORBED_THRESHOLD`, against which a `double` is compared, has its exact
  `float` value.  The theorems instantiate `α` with `ℝ`.
* `std::exp` and `std::log` are parameters `exp log : α → α` of the functions
  that call them; the theorems pass `Real.exp` and `Real.log`.
* A C++ division whose divisor is zero yields an infinity or a NaN, never a
  finite number.  Every `/` of the source is therefore a checked division
  `fdiv`, and a function that evaluates such a division returns
  `Except.error Fault.divByZero` in place of a number.  The one place where an
  infinity is turned back into a finite number, `1.0 / (1 + midpoint / dose)`
  at `dose = 0`, is modelled as such in `PK.computeEffectiveness`.  Likewise a thrown
  exception and the access of an empty `std::optional` are faults: `optValue`
  for the throwing `.value()`, `optDeref` for the unchecked `*`.
* A helper that mutates the simulation is a function from the simulation
  before the call to the simulation after it.  It returns a fault when the
  call throws or when a number it computes is not finite: the embedding
  follows a run as long as every computed number is finite.
-/

namespace DrugSim

/-- Ways in which a call fails to produce a finite number. -/
inductive Fault where
  /-- A division with divisor zero was evaluated (the C++ value is inf or NaN). -/
  | divByZero
  /-- The function `std::log` was applied to a non-positive argument. -/
  | logDomain
  /-- An exception `std::invalid_argument` was thrown. -/
  | invalidArgument
  /-- An exception `std::runtime_error` was thrown. -/
  | runtimeError
  /-- An exception `std::logic_error` was thrown. -/
  | logicError
  /-- The member `.value()` of an empty `std::optional` was called, which throws
  `std::bad_optional_access`. -/
  | badOptionalAccess
  /-- An empty `std::optional` was dereferenced with `*`. This is undefined
  behaviour: no exception is thrown and the number read is indeterminate. -/
  | emptyOptionalDeref
  /-- An `assert` failed (in a build that keeps the assertions). -/
  | assertionFailed
  deriving DecidableEq, Repr

/-- The enum `ROA_TYPE` of `common.hpp`. -/
inductive ROA_TYPE where
  | ROA_TYPE_IV
  | ROA_TYPE_ORAL
  | ROA_TYPE_INHALATION
  | ROA_TYPE_INTRANASAL
  | ROA_TYPE_SL
  deriving DecidableEq, Repr

/-- The enum `COMP_MODEL` of `common.hpp`. -/
inductive COMP_MODEL where
  | ONE_COMP_MODEL
  | TWO_COMP_MODEL
  deriving DecidableEq, Repr

/-- The struct `DrugInfo` of `drug_info.hpp`. -/
structure DrugInfo (α : Type) where
  roa : ROA_TYPE
  vd : α
  dose : α
  lagtime : α
  ka : α
  ke : α
  tmax : α
  bioavailability : α
  ed50 : α
  excretionFrac : α
  isProdrug : Bool
  activeKe : Option α
  activeFrac : Option α
  isDr : Bool
  drFrac : Option α
  drLagtime : Option α

/-- The enum `DOSE_UNIT` of `common.hpp`. -/
inductive DOSE_UNIT where
  | DOSE_UNIT_MG
  | DOSE_UNIT_NANOGRAM
  | DOSE_UNIT_NANOMOLAR
  | DOSE_UNIT_MICROGRAM
  | DOSE_UNIT_MICROMOLAR
  | DOSE_UNIT_GRAM
  | DOSE_UNIT_ML
  | DOSE_UNIT_L
  deriving DecidableEq, Repr

/-- The enum `BASE_UNIT` of `common.hpp`. -/
inductive BASE_UNIT where
  | BASE_UNIT_L
  | BASE_UNIT_ML
  | BASE_UNIT_KG
  deriving DecidableEq, Repr

/-- The struct `SimulationInfo::State` of `simulation_info.hpp`. -/
structure State (α : Type) where
  elapsed : α
  prec : Int
  doseUnit : DOSE_UNIT
  baseUnit : BASE_UNIT
  drugContent : α
  doseAsUnit : α
  excreted : α
  effectiveness : α
  activeDrugContent : Option α
  activeDoseAsUnit : Option α
  auc : α
  maxAchieved : α
  fullyAbsorbed : Bool
  hasTmaxed : Bool
  hasDrReleased : Bool
  hasDrTmaxed : Bool
  minDisplayDose : α
  minProdrugDisplayDose : α
  isMultiline : Bool

/-- The struct `SimulationInfo` of `simulation_info.hpp`, without the members
that only serve the display (`msg`, `cache`). The duration `epoch` is its
count of seconds. -/
structure SimulationInfo (α : Type) where
  epoch : α
  precision : Int
  sigfigs : Option Int
  minDoseAllowed : α
  is12HrFormat : Bool
  isAucEnabled : Bool
  doseUnitsEnabled : Bool
  isMaxStatEnabled : Bool
  isDoseUnitVolume : Bool
  baseUnitsEnabled : Bool
  ed50Enabled : Bool
  displayExcreted : Bool
  drugInfo : DrugInfo α
  compModel : COMP_MODEL
  state : State α

section Model

variable {α : Type} [LinearOrderedField α]

/-- The default member initialisers of `struct DrugInfo`. -/
def DrugInfo.init : DrugInfo α where
  roa := ROA_TYPE.ROA_TYPE_IV
  vd := 1
  dose := -1
  lagtime := 0
  ka := -1
  ke := -1
  tmax := 0
  bioavailability := 1
  ed50 := -1
  excretionFrac := 1
  isProdrug := false
  activeKe := none
  activeFrac := none
  isDr := false
  drFrac := none
  drLagtime := none

/-- The default member initialisers of `SimulationInfo::State`. The five
members declared without an initialiser (`drugContent`, `doseAsUnit`,
`excreted`, `effectiveness`, `maxAchieved`) are indeterminate in C++ and are
arguments here. -/
def State.init (drugContent doseAsUnit excreted effectiveness maxAchieved : α) :
    State α where
  elapsed := 0
  prec := 0
  doseUnit := DOSE_UNIT.DOSE_UNIT_MG
  baseUnit := BASE_UNIT.BASE_UNIT_L
  drugContent := drugContent
  doseAsUnit := doseAsUnit
  excreted := excreted
  effectiveness := effectiveness
  activeDrugContent := none
  activeDoseAsUnit := none
  auc := 0
  maxAchieved := maxAchieved
  fullyAbsorbed := true
  hasTmaxed := true
  hasDrReleased := false
  hasDrTmaxed := false
  minDisplayDose := 1 / 2
  minProdrugDisplayDose := -1
  isMultiline := false

/-- The default member initialisers of `struct SimulationInfo`, around a given
initial state. -/
def SimulationInfo.init (state : State α) : SimulationInfo α where
  epoch := 0
  precision := 0
  sigfigs := none
  minDoseAllowed := 0
  is12HrFormat := false
  isAucEnabled := false
  doseUnitsEnabled := false
  isMaxStatEnabled := false
  isDoseUnitVolume := false
  baseUnitsEnabled := false
  ed50Enabled := false
  displayExcreted := false
  drugInfo := DrugInfo.init
  compModel := COMP_MODEL.ONE_COMP_MODEL
  state := state

/-- Checked division: the C++ `a / b`. -/
def fdiv (a b : α) : Except Fault α :=
  if b = 0 then Except.error Fault.divByZero else Except.ok (a / b)

/-- Checked logarithm: the C++ `log(x)`. -/
def flog (log : α → α) (x : α) : Except Fault α :=
  if 0 < x then Except.ok (log x) else Except.error Fault.logDomain

/-- Reading a `std::optional` with `.value()`. -/
def optValue (o : Option α) : Except Fault α :=
  match o with
  | some v => Except.ok v
  | none => Except.error Fault.badOptionalAccess

/-- Reading a `std::optional` with the unchecked `*`. -/
def optDeref (o : Option α) : Except Fault α :=
  match o with
  | some v => Except.ok v
  | none => Except.error Fault.emptyOptionalDeref

/-- Embedding of `PK::OneCompartment::computeDrugContent` (pk_utils.cpp:39). The `dose`
parameter is not read by the body, which uses `drug.dose`. -/
def OneComp.computeDrugContent (exp : α → α) (drug : DrugInfo α) (_dose t : α) :
    Except Fault α := do
  let q ← fdiv drug.dose drug.vd
  pure (q * exp (-drug.ke * t))

/-- Embedding of `PK::TwoCompartment::computeDrugContent` (pk_utils.cpp:106). -/
def TwoComp.computeDrugContent (exp : α → α) (drug : DrugInfo α) (dose t : α) :
    Except Fault α :=
  let ka := drug.ka
  let ke := drug.ke
  let vd := drug.vd
  let bio := drug.bioavailability
  if ka = ke then do
    let q ← fdiv (bio * dose * ke) vd
    pure (q * t * exp (-ke * t))
  else do
    let q ← fdiv (bio * dose * ka) (vd * (ka - ke))
    pure (q * (exp (-ke * t) - exp (-ka * t)))

/-- Embedding of `PK::TwoCompartment::computeDrugContentDr` (pk_utils.cpp:201). -/
def TwoComp.computeDrugContentDr (exp : α → α) (drug : DrugInfo α) (dose t : α) :
    Except Fault α :=
  if !drug.isDr then Except.error Fault.invalidArgument
  else do
    let lag ← optValue drug.drLagtime
    let drFrac ← optValue drug.drFrac
    let delayedDose := drFrac * dose
    let drFrac2 ← optValue drug.drFrac
    let dose := dose * (1 - drFrac2)
    let result ← TwoComp.computeDrugContent exp drug dose t
    if t ≥ lag then do
      let add ← TwoComp.computeDrugContent exp drug delayedDose (t - lag)
      pure (result + add)
    else
      pure result

/-- The global `computeDrugContent` (pk_utils.cpp:19). The trailing `return 0.0`
of the source is reached only for a model outside `enum COMP_MODEL`. -/
def computeDrugContent (exp : α → α) (simInfo : SimulationInfo α) (elapsed : α) :
    Except Fault α :=
  let drug := simInfo.drugInfo
  let dose := drug.dose
  match simInfo.compModel with
  | COMP_MODEL.ONE_COMP_MODEL => OneComp.computeDrugContent exp drug dose elapsed
  | COMP_MODEL.TWO_COMP_MODEL =>
    if drug.isDr then TwoComp.computeDrugContentDr exp drug dose elapsed
    else TwoComp.computeDrugContent exp drug dose elapsed

/-- Embedding of `PK::TwoCompartment::computeExcreted` (pk_utils.cpp:120). -/
def TwoComp.computeExcreted (exp : α → α) (drug : DrugInfo α) (t : α) :
    Except Fault α :=
  let dose := drug.dose
  let frac := drug.excretionFrac
  let bio := drug.bioavailability
  let ke := drug.ke
  let ka := drug.ka
  if drug.isDr then do
    let drFrac ← optDeref drug.drFrac
    let lag ← optDeref drug.drLagtime
    let result ← fdiv (frac * bio * (1 - drFrac) * dose * ka) ((ka - ke) * drug.vd)
    let r ← fdiv ke ka
    let result := result * ((1 - exp (-ke * t)) - r * (1 - exp (-ka * t)))
    if t < lag then pure result
    else do
      let add ← fdiv (frac * bio * (drFrac * dose) * ka) ((ka - ke) * drug.vd)
      let r2 ← fdiv ke ka
      let add := add * ((1 - exp (-ke * (t - lag))) - r2 * (1 - exp (-ka * (t - lag))))
      pure (result + add)
  else do
    let result ← fdiv (frac * bio * dose * ka) ((ka - ke) * drug.vd)
    let r ← fdiv ke ka
    pure (result * ((1 - exp (-ke * t)) - r * (1 - exp (-ka * t))))

/-- Embedding of `PK::TwoCompartment::computeTmax` (pk_utils.cpp:229). -/
def TwoComp.computeTmax (log : α → α) (drug : DrugInfo α) : Except Fault α :=
  let ka := drug.ka
  let ke := drug.ke
  if ka = ke then fdiv 1 ka
  else do
    let q ← fdiv ka ke
    let l ← flog log q
    fdiv l (ka - ke)

/-- Embedding of `PK::OneCompartment::computeAuc` (pk_utils.cpp:242). -/
def OneComp.computeAuc (exp : α → α) (drug : DrugInfo α) (dose t : α) :
    Except Fault α := do
  let ke := drug.ke
  let q ← fdiv (1 - exp (-ke * t)) ke
  fdiv (q * dose) 3600

/-- Embedding of `PK::TwoCompartment::computeAuc` (pk_utils.cpp:254). -/
def TwoComp.computeAuc (exp : α → α) (drug : DrugInfo α) (dose t : α) :
    Except Fault α :=
  let ka := drug.ka
  let ke := drug.ke
  let bio := drug.bioavailability
  if ka = ke then do
    let result ← fdiv (1 - exp (-ke * t) * (ke * t + 1)) (ke * ke)
    let result := result * (dose * bio * ke)
    fdiv result 3600
  else do
    let result ← fdiv (1 - exp (-ke * t)) ke
    let sub ← fdiv (1 - exp (-ka * t)) ka
    let result := result - sub
    let factor ← fdiv (bio * dose * ka) (ka - ke)
    let result := result * factor
    fdiv result 3600

/-- Embedding of `PK::TwoCompartment::computeAucDr` (pk_utils.cpp:279). -/
def TwoComp.computeAucDr (exp : α → α) (drug : DrugInfo α) (dose t : α) :
    Except Fault α :=
  if !drug.isDr then Except.error Fault.runtimeError
  else do
    let lag ← optDeref drug.drLagtime
    if t < lag then TwoComp.computeAuc exp drug dose t
    else do
      let drFrac ← optValue drug.drFrac
      let irDose := dose * (1 - drFrac)
      let lag2 ← optValue drug.drLagtime
      let drT := t - lag2
      let result ← TwoComp.computeAuc exp drug irDose t
      let drFrac2 ← optValue drug.drFrac
      let add ← TwoComp.computeAuc exp drug (dose * drFrac2) drT
      pure (result + add)

/-- Embedding of `PK::convertRateConstant` (pk_utils.cpp:324). -/
def PK.convertRateConstant (log : α → α) (k : α) : Except Fault α := do
  let l ← flog log 2
  fdiv l k

/-- Embedding of `PK::OneCompartment::computeExcreted` (pk_utils.cpp:44). -/
def OneComp.computeExcreted (exp : α → α) (drug : DrugInfo α) (t : α) : Except Fault α := do
  let fe := drug.excretionFrac
  let vd := drug.vd
  let dose := drug.dose
  let ke := drug.ke
  let q ← fdiv (fe * dose) vd
  pure (q * (1 - exp (-ke * t)))

/-- Embedding of `PK::OneCompartment::computeMetaboliteContent` (pk_utils.cpp:55). -/
def OneComp.computeMetaboliteContent (exp : α → α) (drug : DrugInfo α) (t : α) :
    Except Fault α :=
  if drug.activeKe.isNone then Except.error Fault.invalidArgument
  else do
    let ke := drug.ke
    let km ← optDeref drug.activeKe
    let activeFrac ← optDeref drug.activeFrac
    let result := drug.dose * activeFrac
    let q1 ← fdiv (exp (-ke * t)) (km - ke)
    let q2 ← fdiv (exp (-km * t)) (ke - km)
    let result := result * (q1 + q2)
    fdiv result 3600

/-- Embedding of `PK::OneCompartment::computeMetaboliteExcreted` (pk_utils.cpp:69). -/
def OneComp.computeMetaboliteExcreted (exp : α → α) (drug : DrugInfo α) (t : α) :
    Except Fault α := do
  let ke := drug.ke
  let km ← optDeref drug.activeKe
  let fe := drug.excretionFrac
  let r ← fdiv ke km
  let result := 1 - exp (-ke * t) - r * (1 - exp (-km * t))
  let activeFrac ← optDeref drug.activeFrac
  let factor ← fdiv (fe * drug.dose * activeFrac * ke) (km - ke)
  pure (result * factor)

/-- Embedding of `PK::OneCompartment::computeMetaboliteAuc` (pk_utils.cpp:86). The
`assert` of its first line is taken as enabled. -/
def OneComp.computeMetaboliteAuc (exp : α → α) (drug : DrugInfo α) (t : α) :
    Except Fault α :=
  if drug.activeKe.isNone then Except.error Fault.assertionFailed
  else do
    let ke := drug.ke
    let km ← optDeref drug.activeKe
    if ke = km then do
      let result ← fdiv (1 - exp (-ke * t) * (ke * t + 1)) (ke * ke)
      let activeFrac ← optDeref drug.activeFrac
      let result := result * (drug.dose * ke * activeFrac)
      fdiv result 3600
    else do
      let q ← fdiv ke (km - ke)
      let activeFrac ← optDeref drug.activeFrac
      let result := q * drug.dose * activeFrac
      let q1 ← fdiv (1 - exp (-ke * t)) ke
      let q2 ← fdiv (1 - exp (-km * t)) km
      let result := result * (q1 - q2)
      fdiv result 3600

/-- Embedding of `PK::TwoCompartment::computeMetaboliteContent` (pk_utils.cpp:155).
The vector `rates` holds `ka`, `ke`, `km`; the outer loop runs over `i`, the
inner loop multiplies `den` by `rates[j] - rates[i]` for every `j ≠ i`. -/
def TwoComp.computeMetaboliteContent (exp : α → α) (drug : DrugInfo α) (t : α) :
    Except Fault α :=
  if drug.activeKe.isNone || drug.activeFrac.isNone then
    Except.error Fault.invalidArgument
  else do
    let bio := drug.bioavailability
    let activeFrac ← optValue drug.activeFrac
    let km ← optValue drug.activeKe
    let rates : List α := [drug.ka, drug.ke, km]
    let sum ← (List.range rates.length).foldlM
      (fun (sum : α) (i : Nat) => do
        let num := exp (-(rates.getD i 0) * t)
        let den := (List.range rates.length).foldl
          (fun (den : α) (j : Nat) =>
            if j = i then den else den * (rates.getD j 0 - rates.getD i 0))
          1
        let q ← fdiv num den
        pure (sum + q))
      0
    pure ((drug.dose * activeFrac * bio) * (drug.ka * drug.ke) * sum)

/-- Embedding of `PK::TwoCompartment::computeMetaboliteExcreted` (pk_utils.cpp:182). -/
def TwoComp.computeMetaboliteExcreted (exp : α → α) (drug : DrugInfo α) (t : α) :
    Except Fault α := do
  let dose := drug.dose
  let activeFrac ← optDeref drug.activeFrac
  let bio := drug.bioavailability
  let ka := drug.ka
  let ke := drug.ke
  let km ← optDeref drug.activeKe
  let fe := drug.excretionFrac
  let result ← fdiv (1 - exp (-ka * t)) (ka * (ke - ka) * (km - ka))
  let q2 ← fdiv (1 - exp (-ke * t)) (ke * (ka - ke) * (km - ke))
  let result := result + q2
  let q3 ← fdiv (1 - exp (-km * t)) (km * (ka - km) * (ke - km))
  let result := result + q3
  let result := result * (ka * ke * bio * activeFrac * dose)
  pure (result * (fe * km))

/-- The constant `ABSORBED_THRESHOLD` of `common.hpp:11`, declared
`constexpr float ABSORBED_THRESHOLD = 0.98f`. Its value is the `float` nearest
to 0.98, which is `16441672 / 2^24 = 0.980000019073486328125`; the comparison
of `computeIsAbsorbed` converts it to `double` without change. -/
def ABSORBED_THRESHOLD : α := 16441672 / 16777216

/-- Embedding of `PK::TwoCompartment::computeIsAbsorbed` (pk_utils.cpp:221). -/
def TwoComp.computeIsAbsorbed (exp : α → α) (drug : DrugInfo α) (t : α) : Bool :=
  let ka := drug.ka
  decide ((1 - exp (-ka * t)) ≥ ABSORBED_THRESHOLD)

/-- Embedding of `PK::TwoCompartment::computeAucMetabolite` (pk_utils.cpp:303). -/
def TwoComp.computeAucMetabolite (exp : α → α) (drug : DrugInfo α) (t : α) :
    Except Fault α :=
  if !drug.isProdrug then Except.error Fault.runtimeError
  else do
    let ka := drug.ka
    let ke := drug.ke
    let km ← optValue drug.activeKe
    let bio := drug.bioavailability
    let auc ← fdiv (1 - exp (-ka * t)) ((ke - ka) * (km - ka) * ka)
    let q2 ← fdiv (1 - exp (-ke * t)) ((ka - ke) * (km - ke) * ke)
    let auc := auc + q2
    let q3 ← fdiv (1 - exp (-km * t)) ((ka - km) * (ke - km) * km)
    let auc := auc + q3
    let activeFrac ← optValue drug.activeFrac
    let auc := auc * (ka * ke * bio * drug.dose * activeFrac)
    fdiv auc 3600

/-- Embedding of `PK::computeEffectiveness` (pk_utils.cpp:329):
`1.0 / (1 + midpoint / dose)`. At `dose = 0` with `midpoint ≠ 0` the quotient
`midpoint / dose` is an infinity, `1 + midpoint / dose` is the same infinity
and the result is the finite number 0; at `dose = 0 = midpoint` the quotient
is a NaN and so is the result. -/
def PK.computeEffectiveness (midpoint dose : α) : Except Fault α :=
  if dose = 0 then
    if midpoint = 0 then Except.error Fault.divByZero else pure 0
  else do
    let q ← fdiv midpoint dose
    fdiv 1 (1 + q)

/-! ## Simulation helpers (`src/src/simulation_helper.cpp`) -/

/-- The constant `EPSILON_MULT` of `simulation_helper.cpp` (`1.00001`). -/
def EPSILON_MULT : α := 100001 / 100000

/-- Embedding of `UnitConverter::Dose::toDefaultFactor` (convert_utils.cpp:31). -/
def Dose.toDefaultFactor (unit : DOSE_UNIT) : α :=
  match unit with
  | DOSE_UNIT.DOSE_UNIT_NANOGRAM => 1 / 1000000
  | DOSE_UNIT.DOSE_UNIT_MICROGRAM => 1 / 1000
  | DOSE_UNIT.DOSE_UNIT_GRAM => 1000
  | DOSE_UNIT.DOSE_UNIT_L => 1000
  | _ => 1

/-- Embedding of `SimHelper::getMinDisplayDose` (simulation_helper.cpp:97):
`pow(10.0, -prec) * 0.5`. -/
def SimHelper.getMinDisplayDose (prec : Int) : α :=
  (10 : α) ^ (-prec) * (1 / 2)

/-- First block of `SimHelper::validateInit` (simulation_helper.cpp:43-50):
flip absorption/elimination constants if flip-flop effect occurs. -/
def SimHelper.validateInit.flipFlop (sim : SimulationInfo α) : SimulationInfo α :=
  let drug := sim.drugInfo
  if drug.ka > 0 ∧ drug.ka < drug.ke then
    { sim with drugInfo := { drug with ka := drug.ke, ke := drug.ka } }
  else sim

/-- Second block of `SimHelper::validateInit` (simulation_helper.cpp:52-73):
for a prodrug, switch to two output lines and ensure no rate constants are
equal. -/
def SimHelper.validateInit.prodrug (sim : SimulationInfo α) :
    Except Fault (SimulationInfo α) :=
  let drug := sim.drugInfo
  if drug.isProdrug then do
    let state := { sim.state with isMultiline := true }
    let ka := drug.ka
    let ke := drug.ke
    let km ← optValue drug.activeKe
    if ka = ke ∧ ke = km then
      pure { sim with
        drugInfo := { drug with ka := ka * EPSILON_MULT,
                                ke := ke * (EPSILON_MULT * EPSILON_MULT) },
        state := state }
    else
      let ke := if ka = ke then ke * EPSILON_MULT else ke
      let km := if ka = km then km * EPSILON_MULT else km
      let km := if ke = km then km * EPSILON_MULT else km
      pure { sim with drugInfo := { drug with ke := ke, activeKe := some km },
                      state := state }
  else pure sim

/-- Third block of `SimHelper::validateInit` (simulation_helper.cpp:75-80):
do not start as peak if not intravenous. -/
def SimHelper.validateInit.peak (log : α → α) (sim : SimulationInfo α) :
    Except Fault (SimulationInfo α) :=
  let drug := sim.drugInfo
  if drug.roa ≠ ROA_TYPE.ROA_TYPE_IV then do
    let state := { sim.state with hasTmaxed := false, fullyAbsorbed := false }
    let tmax ← TwoComp.computeTmax log drug
    pure { sim with drugInfo := { drug with tmax := tmax }, state := state }
  else pure sim

/-- Fourth block of `SimHelper::validateInit` (simulation_helper.cpp:82-84). -/
def SimHelper.validateInit.minDisplay (sim : SimulationInfo α) : SimulationInfo α :=
  if sim.precision > 0 then
    { sim with state := { sim.state with
        minDisplayDose := SimHelper.getMinDisplayDose sim.precision } }
  else sim

/-- Last block of `SimHelper::validateInit` (simulation_helper.cpp:86-94). The
arguments `now1` and `now2` are the values returned by the first and the
second call of `getEpoch()`. -/
def SimHelper.validateInit.startTime (now1 now2 : α) (sim : SimulationInfo α) :
    SimulationInfo α :=
  if sim.epoch = 0 then { sim with epoch := now1 }
  -- Add lagtime if the specified start time is ahead of current time.
  else if sim.epoch > now1 then
    { sim with epoch := now2,
               drugInfo := { sim.drugInfo with lagtime := sim.epoch - now2 } }
  else sim

/-- Embedding of `SimHelper::validateInit` (simulation_helper.cpp:20), without
the cache strings: its five blocks in source order. -/
def SimHelper.validateInit (log : α → α) (now1 now2 : α) (sim : SimulationInfo α) :
    Except Fault (SimulationInfo α) := do
  let sim := SimHelper.validateInit.flipFlop sim
  let sim ← SimHelper.validateInit.prodrug sim
  let sim ← SimHelper.validateInit.peak log sim
  let sim := SimHelper.validateInit.minDisplay sim
  pure (SimHelper.validateInit.startTime now1 now2 sim)

/-- Embedding of `SimHelper::updateCurrentDoses` (simulation_helper.cpp:106). -/
def SimHelper.updateCurrentDoses (exp : α → α) (sim : SimulationInfo α) :
    Except Fault (SimulationInfo α) := do
  let drug := sim.drugInfo
  let state := sim.state
  let elapsed := state.elapsed
  let defUnitFactor ← fdiv (1 : α) (Dose.toDefaultFactor state.doseUnit)
  let drugContent ← computeDrugContent exp sim elapsed
  let state := { state with drugContent := drugContent,
                            doseAsUnit := drugContent * defUnitFactor }
  let state ←
    (if drug.isProdrug then do
      let active ←
        (match sim.compModel with
        | COMP_MODEL.ONE_COMP_MODEL => OneComp.computeMetaboliteContent exp drug elapsed
        | COMP_MODEL.TWO_COMP_MODEL => TwoComp.computeMetaboliteContent exp drug elapsed)
      pure { state with activeDrugContent := some active,
                        activeDoseAsUnit := some (active * defUnitFactor) }
    else pure state)
  -- Updated effectiveness.
  let state ←
    (if sim.ed50Enabled then do
      let dose ← (if drug.isProdrug then optDeref state.activeDrugContent
                  else pure state.drugContent)
      let eff ← PK.computeEffectiveness drug.ed50 dose
      pure { state with effectiveness := eff }
    else pure state)
  -- Update excreted.
  let state ←
    (if sim.displayExcreted then do
      let excreted ←
        (match sim.compModel with
        | COMP_MODEL.ONE_COMP_MODEL =>
          if drug.isProdrug then OneComp.computeMetaboliteExcreted exp drug elapsed
          else OneComp.computeExcreted exp drug elapsed
        | COMP_MODEL.TWO_COMP_MODEL =>
          if drug.isProdrug then TwoComp.computeMetaboliteExcreted exp drug elapsed
          else TwoComp.computeExcreted exp drug elapsed)
      pure { state with excreted := excreted }
    else pure state)
  -- Nothing more to do if auc is not enabled.
  if !sim.isAucEnabled then pure { sim with state := state }
  else do
    -- Compute area under curve.
    let auc ←
      (match sim.compModel with
      | COMP_MODEL.ONE_COMP_MODEL =>
        if !drug.isProdrug then OneComp.computeAuc exp drug drug.dose elapsed
        else OneComp.computeMetaboliteAuc exp drug elapsed
      | COMP_MODEL.TWO_COMP_MODEL =>
        if drug.isProdrug then TwoComp.computeAucMetabolite exp drug elapsed
        else if drug.isDr then TwoComp.computeAucDr exp drug drug.dose elapsed
        else TwoComp.computeAuc exp drug drug.dose elapsed)
    pure { sim with state := { state with auc := auc } }

/-- Embedding of `SimHelper::checkMaxAchieved` (simulation_helper.cpp:177). -/
def SimHelper.checkMaxAchieved (sim : SimulationInfo α) : Except Fault (SimulationInfo α) :=
  let drug := sim.drugInfo
  let state := sim.state
  let max := state.maxAchieved
  if drug.isProdrug = false ∧ state.drugContent > max then
    pure { sim with state := { state with maxAchieved := state.drugContent } }
  else if drug.isProdrug then do
    let active ← optValue state.activeDrugContent
    if active > max then
      pure { sim with state := { state with maxAchieved := active } }
    else pure sim
  else pure sim

/-- Embedding of `SimHelper::checkTmaxState` (simulation_helper.cpp:191). -/
def SimHelper.checkTmaxState (sim : SimulationInfo α) : Except Fault (SimulationInfo α) := do
  let drug := sim.drugInfo
  let state := sim.state
  let elapsed := sim.state.elapsed
  let state :=
    if state.hasTmaxed = false ∧ elapsed ≥ drug.tmax then { state with hasTmaxed := true }
    else state
  if drug.isDr = true ∧ state.hasDrTmaxed = false then do
    let lag ← optValue drug.drLagtime
    if elapsed ≥ drug.tmax + lag then
      pure { sim with state := { state with hasDrTmaxed := true } }
    else pure { sim with state := state }
  else pure { sim with state := state }

/-- The `switch (unit)` of `SimHelper::useFixedPrecision`
(simulation_helper.cpp:238): the unit one tier below, or `none` for the
`default: return` branch. -/
def SimHelper.useFixedPrecision.nextUnit (unit : DOSE_UNIT) : Option DOSE_UNIT :=
  match unit with
  | DOSE_UNIT.DOSE_UNIT_MICROGRAM => some DOSE_UNIT.DOSE_UNIT_NANOGRAM
  | DOSE_UNIT.DOSE_UNIT_MG => some DOSE_UNIT.DOSE_UNIT_MICROGRAM
  | DOSE_UNIT.DOSE_UNIT_GRAM => some DOSE_UNIT.DOSE_UNIT_MG
  | DOSE_UNIT.DOSE_UNIT_L => some DOSE_UNIT.DOSE_UNIT_ML
  | _ => none

/-- Embedding of `SimHelper::useFixedPrecision` (simulation_helper.cpp:210),
without the cache strings. The reference `doseAsUnit` is
`state.activeDoseAsUnit.value()` for a prodrug and `state.doseAsUnit` otherwise. -/
def SimHelper.useFixedPrecision (sim : SimulationInfo α) : Except Fault (SimulationInfo α) :=
  if sim.doseUnitsEnabled = false ∨ sim.sigfigs.isSome = true then pure sim
  else do
    let drug := sim.drugInfo
    let state := sim.state
    let doseAsUnit ← (if drug.isProdrug then optValue state.activeDoseAsUnit
                      else pure state.doseAsUnit)
    -- Return if prodrug dose is still being displayed.
    if drug.isProdrug = true ∧ state.drugContent ≥ state.minProdrugDisplayDose then pure sim
    else if state.doseUnit = DOSE_UNIT.DOSE_UNIT_NANOGRAM ∧ state.hasTmaxed = true then
      pure sim
    else if state.prec < 3 ∨ doseAsUnit ≥ 1 then pure sim
    else if state.hasTmaxed = false ∧ state.doseUnit ≠ DOSE_UNIT.DOSE_UNIT_GRAM then
      pure sim
    else
      match SimHelper.useFixedPrecision.nextUnit state.doseUnit with
      | none => pure sim
      | some unit =>
        let doseAsUnit := doseAsUnit * 1000
        let statePrec := state.prec - 3
        let state :=
          if drug.isProdrug then { state with activeDoseAsUnit := some doseAsUnit }
          else { state with doseAsUnit := doseAsUnit }
        pure { sim with state := { state with
          doseUnit := unit, prec := statePrec,
          minDisplayDose := SimHelper.getMinDisplayDose statePrec } }

/-- Embedding of `SimHelper::checkFullyAbsorbed` (simulation_helper.cpp:266). -/
def SimHelper.checkFullyAbsorbed (exp : α → α) (sim : SimulationInfo α) : SimulationInfo α :=
  if sim.state.fullyAbsorbed = true ∨ sim.compModel = COMP_MODEL.ONE_COMP_MODEL then sim
  else
    { sim with state := { sim.state with
        fullyAbsorbed := TwoComp.computeIsAbsorbed exp sim.drugInfo sim.state.elapsed } }

/-- Embedding of `SimHelper::isMinDose` (simulation_helper.cpp:277). The lambda
`isMin` is `dose < minAllowed || doseAsUnit < minDisp`. -/
def SimHelper.isMinDose (sim : SimulationInfo α) : Except Fault Bool :=
  let state := sim.state
  let minAllowed := sim.minDoseAllowed
  let minDisp := state.minDisplayDose
  let isMin := fun (dose doseAsUnit : α) =>
    decide (dose < minAllowed) || decide (doseAsUnit < minDisp)
  if !isMin state.drugContent state.doseAsUnit then pure false
  else if sim.drugInfo.isProdrug then do
    let active ← optDeref state.activeDrugContent
    let activeAsUnit ← optDeref state.activeDoseAsUnit
    pure (isMin active activeAsUnit)
  else pure true

/-- The effects of `SimHelper::updateCache` (simulation_helper.cpp:298) on the
simulation state: setting `minProdrugDisplayDose` once and switching
`isMultiline` off. The strings it formats are not modelled. -/
def SimHelper.updateCache (sim : SimulationInfo α) : Except Fault (SimulationInfo α) := do
  let drug := sim.drugInfo
  let state := sim.state
  -- Set minimum dose at which prodrug can be displayed.
  let state :=
    if drug.isProdrug = true ∧ state.minProdrugDisplayDose = -1 then
      { state with minProdrugDisplayDose := SimHelper.getMinDisplayDose sim.precision }
    else state
  if drug.isProdrug then do
    let _ ← optDeref state.activeDoseAsUnit
    if state.fullyAbsorbed = false ∨ state.drugContent ≥ state.minProdrugDisplayDose then
      pure { sim with state := state }
    else if state.isMultiline then
      pure { sim with state := { state with isMultiline := false } }
    else pure { sim with state := state }
  else pure { sim with state := state }

/-! ## Tick loop (`src/src/simulation.cpp`) -/

/-- The block "Has delayed release started?" of the loop of `startSimulation`
(simulation.cpp:48-51); `elapsed` there is a reference to `state.elapsed`. -/
def startSimulation.checkDrReleased (sim : SimulationInfo α) :
    Except Fault (SimulationInfo α) :=
  if sim.drugInfo.isDr = true ∧ sim.state.hasDrReleased = false then do
    let lag ← optValue sim.drugInfo.drLagtime
    if sim.state.elapsed ≥ lag then
      pure { sim with state := { sim.state with hasDrReleased := true } }
    else pure sim
  else pure sim

/-- One iteration of the `while (true)` loop of `startSimulation`
(simulation.cpp:41), for the value `elapsed` returned by `getElapsed()`:
the simulation after the iteration and whether the loop breaks. Printing and
sleeping are not modelled. -/
def startSimulation.tick (exp : α → α) (sim : SimulationInfo α) (elapsed : α) :
    Except Fault (SimulationInfo α × Bool) := do
  let sim := { sim with state := { sim.state with elapsed := elapsed } }
  -- Update doses.
  let sim ← SimHelper.updateCurrentDoses exp sim
  -- Has delayed release started?
  let sim ← startSimulation.checkDrReleased sim
  let sim ← SimHelper.checkMaxAchieved sim
  let sim ← SimHelper.useFixedPrecision sim
  let sim ← SimHelper.updateCache sim
  -- If the drug is not considered absorbed, check again.
  let sim := SimHelper.checkFullyAbsorbed exp sim
  -- Set drug tmax state to true if drug has reached tmax.
  let sim ← SimHelper.checkTmaxState sim
  -- Break the loop if the minimum dose has been reached or all numbers are 0.
  let stop ← (if sim.state.fullyAbsorbed then SimHelper.isMinDose sim else pure false)
  pure (sim, stop)

/-! ## Notions used to state the properties of the helpers -/

/-- The value displayed for the dose: what the reference `doseAsUnit` of
`SimHelper::useFixedPrecision` denotes, `state.activeDoseAsUnit` for a prodrug
and `state.doseAsUnit` otherwise. -/
def SimHelper.displayedValue (sim : SimulationInfo α) : Option α :=
  if sim.drugInfo.isProdrug then sim.state.activeDoseAsUnit else some sim.state.doseAsUnit

/-- The content tracked by `SimHelper::checkMaxAchieved`:
`state.activeDrugContent` for a prodrug and `state.drugContent` otherwise. -/
def SimHelper.trackedContent (sim : SimulationInfo α) : Option α :=
  if sim.drugInfo.isProdrug then sim.state.activeDrugContent else some sim.state.drugContent

/-- The simulation written by the last lines of `SimHelper::useFixedPrecision`
(simulation_helper.cpp:255-263) when the displayed value `v` is shifted down
to `unit`. -/
def SimHelper.useFixedPrecision.shifted (sim : SimulationInfo α) (unit : DOSE_UNIT) (v : α) :
    SimulationInfo α :=
  { sim with state :=
    { (if sim.drugInfo.isProdrug then { sim.state with activeDoseAsUnit := some (v * 1000) }
        else { sim.state with doseAsUnit := v * 1000 }) with
      doseUnit := unit, prec := sim.state.prec - 3,
      minDisplayDose := SimHelper.getMinDisplayDose (sim.state.prec - 3) } }

/-- Number of downshifts still possible from a unit. -/
def SimHelper.useFixedPrecision.tier (unit : DOSE_UNIT) : Nat :=
  match unit with
  | DOSE_UNIT.DOSE_UNIT_GRAM => 3
  | DOSE_UNIT.DOSE_UNIT_MG => 2
  | DOSE_UNIT.DOSE_UNIT_MICROGRAM => 1
  | DOSE_UNIT.DOSE_UNIT_L => 1
  | _ => 0

/-- The unit itself and the units below it in the tier order
gram > mg > microgram > nanogram, liter > milliliter. -/
def SimHelper.useFixedPrecision.tiersFrom (unit : DOSE_UNIT) : List DOSE_UNIT :=
  match unit with
  | DOSE_UNIT.DOSE_UNIT_GRAM =>
    [DOSE_UNIT.DOSE_UNIT_GRAM, DOSE_UNIT.DOSE_UNIT_MG, DOSE_UNIT.DOSE_UNIT_MICROGRAM,
      DOSE_UNIT.DOSE_UNIT_NANOGRAM]
  | DOSE_UNIT.DOSE_UNIT_MG =>
    [DOSE_UNIT.DOSE_UNIT_MG, DOSE_UNIT.DOSE_UNIT_MICROGRAM, DOSE_UNIT.DOSE_UNIT_NANOGRAM]
  | DOSE_UNIT.DOSE_UNIT_MICROGRAM =>
    [DOSE_UNIT.DOSE_UNIT_MICROGRAM, DOSE_UNIT.DOSE_UNIT_NANOGRAM]
  | DOSE_UNIT.DOSE_UNIT_L => [DOSE_UNIT.DOSE_UNIT_L, DOSE_UNIT.DOSE_UNIT_ML]
  | u => [u]

/-- A unit and its successor in a run: unchanged, or one tier down. -/
def UnitDown (u u' : DOSE_UNIT) : Prop :=
  u' = u ∨ SimHelper.useFixedPrecision.nextUnit u = some u'

/-- Number of positions of a list of units at which the unit changes. -/
def unitChanges : List DOSE_UNIT → Nat
  | a :: b :: rest => (if a = b then 0 else 1) + unitChanges (b :: rest)
  | _ => 0

/-- Number of positions of a list of units at which the unit `u` is left. -/
def unitDepartures (u : DOSE_UNIT) : List DOSE_UNIT → Nat
  | a :: b :: rest => (if a = u ∧ b ≠ u then 1 else 0) + unitDepartures u (b :: rest)
  | _ => 0

/-- One step of a run of `useFixedPrecision`: arbitrary updates of the
simulation that keep the unit and the precision, followed by a call of
`SimHelper::useFixedPrecision` that returns. -/
def FixedPrecisionStep (a b : SimulationInfo α) : Prop :=
  ∃ a1 : SimulationInfo α, a1.state.doseUnit = a.state.doseUnit ∧
    a1.state.prec = a.state.prec ∧ SimHelper.useFixedPrecision a1 = Except.ok b

/-- One tick of the loop: `b` is the simulation after an iteration started
from `a`, for some elapsed time. -/
def TickStep (exp : α → α) (a b : SimulationInfo α) : Prop :=
  ∃ (elapsed : α) (stop : Bool), startSimulation.tick exp a elapsed = Except.ok (b, stop)

/-! ## Input handling (`src/src/input_handler.cpp`, `src/src/argparser.cpp`) -/

/-- The struct `ArgParser::Arg` of `argparser.hpp`: the flag of its metadata
and the value given by the user. -/
structure ArgParser.Arg where
  flag : String
  value : Option String

/-- The struct `ArgParser` of `argparser.hpp`. -/
structure ArgParser where
  args : List ArgParser.Arg

/-- Flag of `Args::ROA` (arg_constants.hpp:44). -/
def Args.ROA : String := "--roa"

/-- Flag of `Args::DR` (arg_constants.hpp:50). -/
def Args.DR : String := "--dr"

/-- Flag of `Args::DR_FRAC` (arg_constants.hpp:51). -/
def Args.DR_FRAC : String := "--dr-frac"

/-- Embedding of `ArgParser::isArgUsed` (argparser.cpp:88). -/
def ArgParser.isArgUsed (parser : ArgParser) (arg : String) : Bool :=
  parser.args.any (fun it => it.flag == arg && it.value.isSome)

/-- Embedding of `ArgParser::getArgByFlag` (argparser.cpp:77). -/
def ArgParser.getArgByFlag (parser : ArgParser) (flag : String) :
    Except Fault ArgParser.Arg :=
  match parser.args.find? (fun it => it.flag == flag) with
  | some it => Except.ok it
  | none => Except.error Fault.invalidArgument

/-- The map `roaToStringMap` of `common.hpp`. -/
def roaToStringMap : List (ROA_TYPE × List String) :=
  [(ROA_TYPE.ROA_TYPE_IV, ["iv"]),
   (ROA_TYPE.ROA_TYPE_ORAL, ["oral", "po"]),
   (ROA_TYPE.ROA_TYPE_INHALATION, ["inhalation", "inhale", "inhaled", "smoke", "smoked"]),
   (ROA_TYPE.ROA_TYPE_INTRANASAL, ["intranasal"]),
   (ROA_TYPE.ROA_TYPE_SL, ["sl", "sublingual"])]

/-- The map `roaToCompModelMap` of `common.hpp`. -/
def roaToCompModelMap (roa : ROA_TYPE) : COMP_MODEL :=
  match roa with
  | ROA_TYPE.ROA_TYPE_IV => COMP_MODEL.ONE_COMP_MODEL
  | ROA_TYPE.ROA_TYPE_ORAL => COMP_MODEL.TWO_COMP_MODEL
  | ROA_TYPE.ROA_TYPE_INTRANASAL => COMP_MODEL.TWO_COMP_MODEL
  | ROA_TYPE.ROA_TYPE_INHALATION => COMP_MODEL.TWO_COMP_MODEL
  | ROA_TYPE.ROA_TYPE_SL => COMP_MODEL.TWO_COMP_MODEL

/-- Embedding of `checkBadArgs` (input_handler.cpp:304). -/
def checkBadArgs (parser : ArgParser) (sim : SimulationInfo α) : Except Fault Unit :=
  let drug := sim.drugInfo
  if drug.isDr = true ∧ parser.isArgUsed Args.ROA = false then
    Except.error Fault.logicError
  else pure ()

/-- The comparison `boost::iequals` of two strings: equality of the characters
after `std::toupper` (ASCII letters). -/
def iequals (a b : String) : Bool :=
  a.data.map Char.toUpper == b.data.map Char.toUpper

/-- Embedding of `vectorContains` (common.hpp:60) for strings, which are
compared without regard to case. -/
def vectorContains (v : List String) (value : String) : Bool :=
  v.any (fun s => iequals s value)

/-- The handler of `Args::ROA` in `handleInput` (input_handler.cpp:58-64). No
two names of `roaToStringMap` are equal up to case, so the order in which the
loop visits the map does not matter. -/
def handleInput.roaHandler (val : String) (info : SimulationInfo α) : SimulationInfo α :=
  let roa :=
    match roaToStringMap.find? (fun it => vectorContains it.2 val) with
    | some it => it.1
    | none => info.drugInfo.roa
  { info with drugInfo := { info.drugInfo with roa := roa },
              compModel := roaToCompModelMap roa }

/-- The handler of `Args::DR_FRAC` in `handleInput` (input_handler.cpp:212-218).
The flag `ndebug` tells whether the build defines `NDEBUG`, which removes the
`assert`; `stod` stands for `setFractionsToDecimal` followed by `std::stod`. -/
def handleInput.drFracHandler (ndebug : Bool) (stod : String → α) (val : String)
    (info : SimulationInfo α) : Except Fault (SimulationInfo α) :=
  if ndebug = false ∧ info.compModel ≠ COMP_MODEL.TWO_COMP_MODEL then
    Except.error Fault.assertionFailed
  else if val = "" then
    pure { info with drugInfo := { info.drugInfo with drFrac := some (1 / 2) } }
  else
    pure { info with drugInfo := { info.drugInfo with drFrac := some (stod val) } }

/-- The handler of `Args::DR` in `handleInput` (input_handler.cpp:222-225). -/
def handleInput.drHandler (ndebug : Bool) (timeInputToSeconds : String → α) (val : String)
    (info : SimulationInfo α) : Except Fault (SimulationInfo α) :=
  if ndebug = false ∧ info.compModel ≠ COMP_MODEL.TWO_COMP_MODEL then
    Except.error Fault.assertionFailed
  else
    pure { info with
      drugInfo := { info.drugInfo with drLagtime := some (timeInputToSeconds val) } }

/-- One turn of the loop over the helpers in `handleInput`
(input_handler.cpp:290-301), for a helper without `skipIfOneComp`: the handler
receives the value of the argument when the argument was used, and otherwise,
when the label is not empty, the line read from the standard input. -/
def handleInput.runHelper (parser : ArgParser) (arg : String) (hasLabel : Bool)
    (line : String) (handler : String → SimulationInfo α → Except Fault (SimulationInfo α))
    (info : SimulationInfo α) : Except Fault (SimulationInfo α) :=
  if parser.isArgUsed arg then do
    let it ← parser.getArgByFlag arg
    match it.value with
    | some val => handler val info
    | none => Except.error Fault.badOptionalAccess
  else if hasLabel then handler line info
  else pure info

/-- The part of `handleInput` (input_handler.cpp:35) that decides the route,
the compartment model and the delayed release: the flag `drug.isDr`, the call
of `checkBadArgs`, and the helpers of `Args::ROA`, `Args::DR_FRAC` and
`Args::DR` in their order in the list. The parser is the one left by
`checkConfig`; `drFracLine` and `drLine` are the lines read from the standard
input by the two prompts, whose labels are non-empty exactly when `drug.isDr`.
The other helpers do not read or write the route, the compartment model or the
delayed-release members and are left out. -/
def handleInput (ndebug : Bool) (stod timeInputToSeconds : String → α)
    (drFracLine drLine : String) (parser : ArgParser) (info : SimulationInfo α) :
    Except Fault (SimulationInfo α) := do
  let isDr := parser.isArgUsed Args.DR || parser.isArgUsed Args.DR_FRAC
  let info := { info with drugInfo := { info.drugInfo with isDr := isDr } }
  checkBadArgs parser info
  let info ← handleInput.runHelper parser Args.ROA false ""
    (fun val info => pure (handleInput.roaHandler val info)) info
  let info ← handleInput.runHelper parser Args.DR_FRAC isDr drFracLine
    (handleInput.drFracHandler ndebug stod) info
  handleInput.runHelper parser Args.DR isDr drLine
    (handleInput.drHandler ndebug timeInputToSeconds) info

/-! ## Concrete profiles used to evaluate the model -/

/-- An oral (two-compartment) profile: 50 mg, `Vd = 1`, bioavailability 1. -/
def oralDrug (ka ke : α) : DrugInfo α :=
  { (DrugInfo.init : DrugInfo α) with
    roa := ROA_TYPE.ROA_TYPE_ORAL, dose := 50, ka := ka, ke := ke }

/-- An intravenous (one-compartment) profile: 100 mg, `Vd = 10`. -/
def ivDrug (ke : α) : DrugInfo α :=
  { (DrugInfo.init : DrugInfo α) with dose := 100, vd := 10, ke := ke }

/-- An oral profile with volume of distribution zero. -/
def zeroVolumeDrug : DrugInfo α :=
  { (DrugInfo.init : DrugInfo α) with
    roa := ROA_TYPE.ROA_TYPE_ORAL, vd := 0, dose := 1, ka := 2, ke := 1 }

/-- An intravenous profile with bioavailability one half: 3600 mg, `ke = 1`. -/
def halfBioDrug : DrugInfo α :=
  { (DrugInfo.init : DrugInfo α) with dose := 3600, ke := 1, bioavailability := 1 / 2 }

/-- A delayed-release oral profile: 3600 mg, `ka = ke = 1`, half of the dose
released after 2 seconds. -/
def delayedDrug : DrugInfo α :=
  { (DrugInfo.init : DrugInfo α) with
    roa := ROA_TYPE.ROA_TYPE_ORAL, dose := 3600, ka := 1, ke := 1,
    isDr := true, drFrac := some (1 / 2), drLagtime := some 2 }

/-- A simulation of the given profile under the given compartment model, all
other members at their defaults (indeterminate state members set to zero). -/
def simOf (drug : DrugInfo α) (model : COMP_MODEL) : SimulationInfo α :=
  { (SimulationInfo.init (State.init 0 0 0 0 0) : SimulationInfo α) with
    drugInfo := drug, compModel := model }

/-- An oral prodrug profile: 10 mg, bioavailability one half, half of the dose
converted to the active drug. -/
def prodrugDrug (ka ke km : α) : DrugInfo α :=
  { (DrugInfo.init : DrugInfo α) with
    roa := ROA_TYPE.ROA_TYPE_ORAL, dose := 10, ka := ka, ke := ke,
    bioavailability := 1 / 2, isProdrug := true,
    activeKe := some km, activeFrac := some (1 / 2) }

/-- An intravenous simulation with a minimum allowed dose of 1 mg whose
content, 0.7 mg, is displayed as 0.7 (above the display threshold 0.5). -/
def minDoseSim : SimulationInfo α :=
  { (simOf (ivDrug 1) COMP_MODEL.ONE_COMP_MODEL : SimulationInfo α) with
    minDoseAllowed := 1,
    state := State.init (7 / 10) (7 / 10) 0 0 0 }

/-- An oral simulation displayed in grams with precision 3, before the peak:
500 mg shown as 0.5 g. -/
def gramSim : SimulationInfo α :=
  { (simOf (oralDrug 2 1) COMP_MODEL.TWO_COMP_MODEL : SimulationInfo α) with
    precision := 3, doseUnitsEnabled := true,
    state := { (State.init 500 (1 / 2) 0 0 0 : State α) with
      prec := 3, doseUnit := DOSE_UNIT.DOSE_UNIT_GRAM,
      hasTmaxed := false, fullyAbsorbed := false } }

/-- An oral profile with equal rate constants: 100 mg, `ka = ke = 1/10`. -/
def equalRatesDrug : DrugInfo α :=
  { (DrugInfo.init : DrugInfo α) with
    roa := ROA_TYPE.ROA_TYPE_ORAL, dose := 100, ka := 1 / 10, ke := 1 / 10 }

/-- The parsed command line `--roa iv --dr 3600`. -/
def ivDelayedArgs : ArgParser :=
  { args := [{ flag := "--dr", value := some "3600" },
             { flag := "--dr-frac", value := none },
             { flag := "--roa", value := some "iv" }] }

/-- The parsed command line `--dr 3600`, without a route. -/
def defaultRouteDelayedArgs : ArgParser :=
  { args := [{ flag := "--dr", value := some "3600" },
             { flag := "--dr-frac", value := none },
             { flag := "--roa", value := none }] }

/-- An intravenous profile with a metabolite rate constant but no active
fraction: 100 mg, `Vd = 10`, `ke = 1`, `km = 2`. -/
def noFractionDrug : DrugInfo α :=
  { (ivDrug 1 : DrugInfo α) with activeKe := some 2 }

/-- An intravenous simulation with the effectiveness enabled: 100 mg, `Vd = 10`,
ED50 of 10. -/
def ed50Sim : SimulationInfo α :=
  { (simOf { (ivDrug 1 : DrugInfo α) with ed50 := 10 } COMP_MODEL.ONE_COMP_MODEL :
      SimulationInfo α) with ed50Enabled := true }

/-- An oral simulation displayed in milligrams with precision 3 after the peak,
whose content 0.5 mg is due for a downshift. -/
def milligramSim : SimulationInfo α :=
  { (simOf (oralDrug 2 1) COMP_MODEL.TWO_COMP_MODEL : SimulationInfo α) with
    precision := 3, doseUnitsEnabled := true,
    state := { (State.init (1 / 2) (1 / 2) 0 0 0 : State α) with
      prec := 3, minDisplayDose := 1 / 2 * (10 : α) ^ (-(3 : ℤ)) } }

end Model

/-! ## Evaluation lemmas -/

section Lemmas

variable {α : Type} [LinearOrderedField α]

theorem fdiv_of_ne (a : α) {b : α} (hb : b ≠ 0) : fdiv a b = Except.ok (a / b) := by
  simp [fdiv, hb]

theorem fdiv_zero (a : α) : fdiv a 0 = Except.error Fault.divByZero := by
  simp [fdiv]

theorem flog_of_pos (log : α → α) {x : α} (hx : 0 < x) :
    flog log x = Except.ok (log x) := by
  simp [flog, hx]

theorem except_ok_bind {β γ : Type} (v : β) (f : β → Except Fault γ) :
    (Except.ok v >>= f) = f v := rfl

theorem except_error_bind {β γ : Type} (e : Fault) (f : β → Except Fault γ) :
    ((Except.error e : Except Fault β) >>= f) = Except.error e := rfl

theorem except_pure {β : Type} (v : β) : (pure v : Except Fault β) = Except.ok v := rfl


/-- Value of `OneComp.computeAuc` when `ke` is not zero. -/
theorem oneComp_computeAuc_value (drug : DrugInfo ℝ) (dose t : ℝ) (hke : drug.ke ≠ 0) :
    OneComp.computeAuc Real.exp drug dose t =
      Except.ok ((1 - Real.exp (-drug.ke * t)) / drug.ke * dose / 3600) := by
  have h36 : (3600 : ℝ) ≠ 0 := by norm_num
  simp only [OneComp.computeAuc, fdiv_of_ne _ hke, except_ok_bind, fdiv_of_ne _ h36]

/-- Limit of the one-compartment AUC expression as time grows. -/
theorem oneComp_auc_expr_tendsto (ke dose : ℝ) (hke : 0 < ke) :
    Filter.Tendsto (fun t : ℝ => (1 - Real.exp (-ke * t)) / ke * dose / 3600) Filter.atTop
      (nhds (dose / ke / 3600)) := by
  have h1 : Filter.Tendsto (fun t : ℝ => ke * t) Filter.atTop Filter.atTop :=
    Filter.tendsto_id.const_mul_atTop hke
  have h2 : Filter.Tendsto (fun t : ℝ => Real.exp (-(ke * t))) Filter.atTop (nhds 0) :=
    Real.tendsto_exp_neg_atTop_nhds_zero.comp h1
  have h3 : Filter.Tendsto (fun t : ℝ => (1 - Real.exp (-(ke * t))) / ke * dose / 3600)
      Filter.atTop (nhds ((1 - 0) / ke * dose / 3600)) :=
    (((tendsto_const_nhds.sub h2).div_const ke).mul_const dose).div_const 3600
  have e : (1 - 0) / ke * dose / 3600 = dose / ke / 3600 := by
    field_simp
  rw [e] at h3
  refine h3.congr ?_
  intro t
  simp

/-- Two-compartment content at time zero, for a non-zero volume of distribution. -/
theorem twoComp_content_at_zero (drug : DrugInfo ℝ) (d : ℝ) (hvd : drug.vd ≠ 0) :
    TwoComp.computeDrugContent Real.exp drug d 0 = Except.ok 0 := by
  by_cases h : drug.ka = drug.ke
  · simp [TwoComp.computeDrugContent, h, fdiv_of_ne _ hvd, except_ok_bind]
  · have h2 : drug.vd * (drug.ka - drug.ke) ≠ 0 := mul_ne_zero hvd (sub_ne_zero.mpr h)
    simp [TwoComp.computeDrugContent, h, fdiv_of_ne _ h2, except_ok_bind]

/-- A differentiable real function whose derivative is positive before `m` and
negative after `m` rises strictly up to `m` and falls strictly from `m` on. -/
theorem strictMono_strictAnti_of_deriv_sign (c c' : ℝ → ℝ) (m : ℝ)
    (hd : ∀ t, HasDerivAt c (c' t) t) (hpos : ∀ t, t < m → 0 < c' t)
    (hneg : ∀ t, m < t → c' t < 0) :
    StrictMonoOn c (Set.Iic m) ∧ StrictAntiOn c (Set.Ici m) := by
  have hc : Continuous c := continuous_iff_continuousAt.mpr fun t => (hd t).continuousAt
  constructor
  · apply strictMonoOn_of_deriv_pos (convex_Iic m) hc.continuousOn
    intro t ht
    rw [interior_Iic] at ht
    rw [(hd t).deriv]
    exact hpos t ht
  · apply strictAntiOn_of_deriv_neg (convex_Ici m) hc.continuousOn
    intro t ht
    rw [interior_Ici] at ht
    rw [(hd t).deriv]
    exact hneg t ht

/-- Derivative of `exp (-k s)` in `s`. -/
theorem hasDerivAt_exp_neg_mul (k t : ℝ) :
    HasDerivAt (fun s : ℝ => Real.exp (-k * s)) (-k * Real.exp (-k * t)) t := by
  have h := ((hasDerivAt_id t).const_mul (-k)).exp
  simp only [id, mul_one] at h
  rw [mul_comm] at h
  exact h

/-- Derivative of the degenerate curve `A * t * exp (-k t)`. -/
theorem hasDerivAt_degenerate (A k t : ℝ) :
    HasDerivAt (fun s : ℝ => A * s * Real.exp (-k * s))
      (A * Real.exp (-k * t) * (1 - k * t)) t := by
  have h1 : HasDerivAt (fun s : ℝ => A * s) A t := by
    simpa using (hasDerivAt_id t).const_mul A
  have h := h1.mul (hasDerivAt_exp_neg_mul k t)
  convert h using 1
  ring

/-- Derivative of the Bateman curve `B * (exp (-ke t) - exp (-ka t))`. -/
theorem hasDerivAt_bateman (B ka ke t : ℝ) :
    HasDerivAt (fun s : ℝ => B * (Real.exp (-ke * s) - Real.exp (-ka * s)))
      (B * (ka * Real.exp (-ka * t) - ke * Real.exp (-ke * t))) t := by
  have h := ((hasDerivAt_exp_neg_mul ke t).sub (hasDerivAt_exp_neg_mul ka t)).const_mul B
  convert h using 1
  ring

/-- The two exponential terms of the slope compare as `t` compares with the peak. -/
theorem rate_exp_lt_iff (ka ke t : ℝ) (hka : 0 < ka) (hke : 0 < ke) :
    ke * Real.exp (-ke * t) < ka * Real.exp (-ka * t) ↔
      (ka - ke) * t < Real.log (ka / ke) := by
  have e1 : ke * Real.exp (-ke * t) = Real.exp (Real.log ke - ke * t) := by
    rw [Real.exp_sub, Real.exp_log hke, neg_mul, Real.exp_neg]
    rfl
  have e2 : ka * Real.exp (-ka * t) = Real.exp (Real.log ka - ka * t) := by
    rw [Real.exp_sub, Real.exp_log hka, neg_mul, Real.exp_neg]
    rfl
  rw [e1, e2, Real.exp_lt_exp, Real.log_div hka.ne' hke.ne']
  constructor <;> intro h <;> linarith

/-- Sign of the slope of the Bateman curve on either side of
`log (ka / ke) / (ka - ke)`. -/
theorem bateman_slope_sign (ka ke t : ℝ) (hka : 0 < ka) (hke : 0 < ke) (hne : ka ≠ ke) :
    (t < Real.log (ka / ke) / (ka - ke) →
      0 < (ka * Real.exp (-ka * t) - ke * Real.exp (-ke * t)) / (ka - ke)) ∧
    (Real.log (ka / ke) / (ka - ke) < t →
      (ka * Real.exp (-ka * t) - ke * Real.exp (-ke * t)) / (ka - ke) < 0) := by
  have hlog : Real.log (ke / ka) = -Real.log (ka / ke) := by
    rw [Real.log_div hke.ne' hka.ne', Real.log_div hka.ne' hke.ne']
    ring
  have h1 := rate_exp_lt_iff ka ke t hka hke
  have h2 := rate_exp_lt_iff ke ka t hke hka
  rw [hlog] at h2
  rcases lt_or_gt_of_ne hne with hlt | hgt
  · have hneg : ka - ke < 0 := by linarith
    constructor
    · intro ht
      rw [lt_div_iff_of_neg hneg] at ht
      apply div_pos_of_neg_of_neg _ hneg
      have := h2.mpr (by linarith)
      linarith
    · intro ht
      rw [div_lt_iff_of_neg hneg] at ht
      apply div_neg_of_pos_of_neg _ hneg
      have := h1.mpr (by linarith)
      linarith
  · have hpos : 0 < ka - ke := by linarith
    constructor
    · intro ht
      rw [lt_div_iff₀ hpos] at ht
      apply div_pos _ hpos
      have := h1.mpr (by linarith)
      linarith
    · intro ht
      rw [div_lt_iff₀ hpos] at ht
      apply div_neg_of_neg_of_pos _ hpos
      have := h2.mpr (by linarith)
      linarith

/-- The non-degenerate time-to-peak is positive. -/
theorem bateman_peak_pos (ka ke : ℝ) (hka : 0 < ka) (hke : 0 < ke) (hne : ka ≠ ke) :
    0 < Real.log (ka / ke) / (ka - ke) := by
  rcases lt_or_gt_of_ne hne with hlt | hgt
  · apply div_pos_of_neg_of_neg _ (by linarith)
    apply Real.log_neg (div_pos hka hke)
    rw [div_lt_one hke]
    exact hlt
  · apply div_pos _ (by linarith)
    apply Real.log_pos
    rw [one_lt_div hke]
    exact hgt

/-- A curve rising strictly up to `m > 0` and falling strictly afterwards has
its only maximum over `[0, ∞)` at `m`. -/
theorem single_peak_of_mono_anti (c : ℝ → ℝ) (m : ℝ)
    (hmono : StrictMonoOn c (Set.Iic m)) (hanti : StrictAntiOn c (Set.Ici m)) :
    StrictMonoOn c (Set.Icc 0 m) ∧ StrictAntiOn c (Set.Ici m) ∧
      ∀ t, 0 ≤ t → t ≠ m → c t < c m := by
  refine ⟨hmono.mono Set.Icc_subset_Iic_self, hanti, ?_⟩
  intro t _ htm
  rcases lt_or_gt_of_ne htm with h | h
  · exact hmono (Set.mem_Iic.mpr h.le) (Set.mem_Iic.mpr le_rfl) h
  · exact hanti (Set.mem_Ici.mpr le_rfl) (Set.mem_Ici.mpr (le_of_lt h)) h

end Lemmas

/-! ## Two-compartment content: closed form and peak -/

/-- C1: for a profile with `Vd ≠ 0`, `TwoComp.computeDrugContent` returns the
number `F*d*ka/(Vd*(ka-ke)) * (exp(-ke*t) - exp(-ka*t))` when `ka ≠ ke` and the
limiting form `F*d*ke/Vd * t * exp(-ke*t)` when `ka = ke`; in both cases no
division by zero is evaluated. -/
theorem twoComp_computeDrugContent_closed_form (drug : DrugInfo ℝ) (d t : ℝ)
    (hvd : drug.vd ≠ 0) :
    (drug.ka ≠ drug.ke →
      TwoComp.computeDrugContent Real.exp drug d t =
        Except.ok (drug.bioavailability * d * drug.ka / (drug.vd * (drug.ka - drug.ke)) *
          (Real.exp (-drug.ke * t) - Real.exp (-drug.ka * t)))) ∧
    (drug.ka = drug.ke →
      TwoComp.computeDrugContent Real.exp drug d t =
        Except.ok (drug.bioavailability * d * drug.ke / drug.vd * t *
          Real.exp (-drug.ke * t))) := by
  constructor
  · intro h
    have h2 : drug.vd * (drug.ka - drug.ke) ≠ 0 := mul_ne_zero hvd (sub_ne_zero.mpr h)
    simp [TwoComp.computeDrugContent, h, fdiv_of_ne _ h2, except_ok_bind]
  · intro h
    simp [TwoComp.computeDrugContent, h, fdiv_of_ne _ hvd, except_ok_bind]

/-- C1 at `ka = ke = 0.1` (50 mg, `Vd = 1`, `F = 1`), `t = 3`. -/
theorem twoComp_computeDrugContent_closed_form_witness :
    (oralDrug (1 / 10) (1 / 10) : DrugInfo ℝ).vd ≠ 0 ∧
    TwoComp.computeDrugContent Real.exp (oralDrug (1 / 10) (1 / 10) : DrugInfo ℝ) 50 3 =
      Except.ok (1 * 50 * (1 / 10) / 1 * 3 * Real.exp (-(1 / 10) * 3)) :=
  ⟨by simp [oralDrug, DrugInfo.init],
    (twoComp_computeDrugContent_closed_form (oralDrug (1 / 10) (1 / 10)) 50 3
      (by simp [oralDrug, DrugInfo.init])).2 rfl⟩

/-! ## Content at time zero -/

/-- C2: for a one-compartment simulation with `Vd ≠ 0`, `computeDrugContent sim 0`
is `drug.dose / drug.vd`. -/
theorem computeDrugContent_oneComp_at_zero (sim : SimulationInfo ℝ)
    (hm : sim.compModel = COMP_MODEL.ONE_COMP_MODEL) (hvd : sim.drugInfo.vd ≠ 0) :
    computeDrugContent Real.exp sim 0 =
      Except.ok (sim.drugInfo.dose / sim.drugInfo.vd) := by
  simp [computeDrugContent, hm, OneComp.computeDrugContent, fdiv_of_ne _ hvd, except_ok_bind]

/-- C2 at the intravenous profile of 100 mg with `Vd = 10`. -/
theorem computeDrugContent_oneComp_at_zero_witness :
    computeDrugContent Real.exp
      (simOf (ivDrug 1) COMP_MODEL.ONE_COMP_MODEL : SimulationInfo ℝ) 0
      = Except.ok (100 / 10) :=
  computeDrugContent_oneComp_at_zero
    (simOf (ivDrug 1) COMP_MODEL.ONE_COMP_MODEL) rfl
    (by simp [simOf, ivDrug, DrugInfo.init])

/-- C3 as stated fails: a two-compartment simulation whose volume of
distribution is zero divides by zero at `t = 0`, so the content is not `0`. -/
theorem computeDrugContent_twoComp_at_zero_zero_volume :
    computeDrugContent Real.exp
      (simOf zeroVolumeDrug COMP_MODEL.TWO_COMP_MODEL : SimulationInfo ℝ) 0 =
        Except.error Fault.divByZero ∧
    computeDrugContent Real.exp
      (simOf zeroVolumeDrug COMP_MODEL.TWO_COMP_MODEL : SimulationInfo ℝ) 0 ≠ Except.ok 0 := by
  have h : computeDrugContent Real.exp
      (simOf zeroVolumeDrug COMP_MODEL.TWO_COMP_MODEL : SimulationInfo ℝ) 0 =
        Except.error Fault.divByZero := by
    simp [computeDrugContent, simOf, zeroVolumeDrug, DrugInfo.init, TwoComp.computeDrugContent,
      fdiv, except_error_bind]
  exact ⟨h, by rw [h]; simp⟩

/-- C3 (amended): for a two-compartment simulation with `Vd ≠ 0`, with or
without delayed release (when delayed release is set, `drFrac` and `drLagtime`
hold values and `drLagtime ≥ 0`), with `ka = ke` or `ka ≠ ke`,
`computeDrugContent sim 0` is `0`. -/
theorem computeDrugContent_twoComp_at_zero (sim : SimulationInfo ℝ)
    (hm : sim.compModel = COMP_MODEL.TWO_COMP_MODEL) (hvd : sim.drugInfo.vd ≠ 0)
    (hdr : sim.drugInfo.isDr = true → ∃ f lag, sim.drugInfo.drFrac = some f ∧
      sim.drugInfo.drLagtime = some lag ∧ 0 ≤ lag) :
    computeDrugContent Real.exp sim 0 = Except.ok 0 := by
  by_cases hd : sim.drugInfo.isDr = true
  · obtain ⟨f, lag, hf, hl, hlag⟩ := hdr hd
    rcases hlag.lt_or_eq with hlt | heq
    · simp [computeDrugContent, hm, hd, TwoComp.computeDrugContentDr, hf, hl, optValue,
        except_ok_bind, twoComp_content_at_zero _ _ hvd, not_le.mpr hlt, except_pure]
    · subst heq
      simp [computeDrugContent, hm, hd, TwoComp.computeDrugContentDr, hf, hl, optValue,
        except_ok_bind, twoComp_content_at_zero _ _ hvd]
  · simp [computeDrugContent, hm, hd, twoComp_content_at_zero _ _ hvd]

/-- C3 (amended) at the delayed-release profile (`Vd = 1`, lag 2 s). -/
theorem computeDrugContent_twoComp_at_zero_witness :
    computeDrugContent Real.exp
      (simOf delayedDrug COMP_MODEL.TWO_COMP_MODEL : SimulationInfo ℝ) 0 = Except.ok 0 :=
  computeDrugContent_twoComp_at_zero
    (simOf delayedDrug COMP_MODEL.TWO_COMP_MODEL) rfl
    (by simp [simOf, delayedDrug, DrugInfo.init])
    (fun _ => ⟨1 / 2, 2, rfl, rfl, by norm_num⟩)

/-! ## Half-life -/

/-- C4: for a one-compartment profile with `ke > 0`, the content one half-life
`ln 2 / ke` after `t` is half the content at `t` (an exact number whenever
`Vd ≠ 0`); in particular `convertRateConstant ke` returns a time at which the
content is half the content at `t = 0`. -/
theorem oneComp_content_halves_each_half_life (drug : DrugInfo ℝ) (dose t : ℝ)
    (hke : 0 < drug.ke) :
    OneComp.computeDrugContent Real.exp drug dose (t + Real.log 2 / drug.ke) =
      (OneComp.computeDrugContent Real.exp drug dose t).map (fun c => c / 2) ∧
    (drug.vd ≠ 0 → ∃ c, OneComp.computeDrugContent Real.exp drug dose t = Except.ok c ∧
      OneComp.computeDrugContent Real.exp drug dose (t + Real.log 2 / drug.ke) =
        Except.ok (c / 2)) ∧
    ∃ h, PK.convertRateConstant Real.log drug.ke = Except.ok h ∧
      OneComp.computeDrugContent Real.exp drug dose h =
        (OneComp.computeDrugContent Real.exp drug dose 0).map (fun c => c / 2) := by
  have h2 : (0:ℝ) < 2 := by norm_num
  have hk : drug.ke ≠ 0 := hke.ne'
  have key : ∀ s : ℝ,
      OneComp.computeDrugContent Real.exp drug dose (s + Real.log 2 / drug.ke) =
        (OneComp.computeDrugContent Real.exp drug dose s).map (fun c => c / 2) := by
    intro s
    have he : Real.exp (-drug.ke * (s + Real.log 2 / drug.ke)) =
        Real.exp (-drug.ke * s) / 2 := by
      have : -drug.ke * (s + Real.log 2 / drug.ke) = -drug.ke * s - Real.log 2 := by
        field_simp
        ring
      rw [this, Real.exp_sub, Real.exp_log h2]
    by_cases hvd : drug.vd = 0
    · simp [OneComp.computeDrugContent, hvd, fdiv_zero, except_error_bind, Except.map]
    · simp only [OneComp.computeDrugContent, fdiv_of_ne _ hvd, except_ok_bind, except_pure,
        Except.map, he]
      congr 1
      ring
  refine ⟨key t, ?_, Real.log 2 / drug.ke, ?_, ?_⟩
  · intro hvd
    refine ⟨drug.dose / drug.vd * Real.exp (-drug.ke * t), ?_, ?_⟩
    · simp only [OneComp.computeDrugContent, fdiv_of_ne _ hvd, except_ok_bind, except_pure]
    · rw [key t]
      simp only [OneComp.computeDrugContent, fdiv_of_ne _ hvd, except_ok_bind, except_pure,
        Except.map]
  · simp [PK.convertRateConstant, flog_of_pos _ h2, fdiv_of_ne _ hk, except_ok_bind]
  · have := key 0
    rwa [zero_add] at this

/-- C4 at 100 mg, `Vd = 10`, `ke = ln 2 / 14400`, starting from `t = 0`. -/
theorem oneComp_content_halves_each_half_life_witness :
    0 < (ivDrug (Real.log 2 / 14400) : DrugInfo ℝ).ke ∧
    ∃ h, PK.convertRateConstant Real.log (Real.log 2 / 14400) = Except.ok h ∧
      OneComp.computeDrugContent Real.exp (ivDrug (Real.log 2 / 14400)) 100 h =
        (OneComp.computeDrugContent Real.exp (ivDrug (Real.log 2 / 14400)) 100 0).map
          (fun c => c / 2) :=
  ⟨div_pos (Real.log_pos one_lt_two) (by norm_num),
    (oneComp_content_halves_each_half_life (ivDrug (Real.log 2 / 14400)) 100 0
      (div_pos (Real.log_pos one_lt_two) (by norm_num))).2.2⟩

/-! ## Time to peak -/

/-- C5: for a two-compartment profile with `ka > 0`, `ke > 0`, `F > 0`,
`dose > 0` and `Vd > 0`, `TwoComp.computeTmax` returns
`tmax = (ka = ke ? 1/ka : ln(ka/ke)/(ka-ke))`, which is positive, and
`TwoComp.computeDrugContent` as a function of `t` is strictly increasing on
`[0, tmax]` and strictly decreasing on `[tmax, ∞)`, so `tmax` is its unique
maximiser over `[0, ∞)`. -/
theorem twoComp_content_single_peak_at_tmax (drug : DrugInfo ℝ) (d : ℝ)
    (hka : 0 < drug.ka) (hke : 0 < drug.ke) (hF : 0 < drug.bioavailability)
    (hd : 0 < d) (hvd : 0 < drug.vd) :
    ∃ tmax : ℝ, TwoComp.computeTmax Real.log drug = Except.ok tmax ∧
      tmax = (if drug.ka = drug.ke then 1 / drug.ka
        else Real.log (drug.ka / drug.ke) / (drug.ka - drug.ke)) ∧
      0 < tmax ∧
      ∃ c : ℝ → ℝ,
        (∀ t, TwoComp.computeDrugContent Real.exp drug d t = Except.ok (c t)) ∧
        StrictMonoOn c (Set.Icc 0 tmax) ∧ StrictAntiOn c (Set.Ici tmax) ∧
        ∀ t, 0 ≤ t → t ≠ tmax → c t < c tmax := by
  by_cases h : drug.ka = drug.ke
  · have hm : 0 < 1 / drug.ka := one_div_pos.mpr hka
    have hA : 0 < drug.bioavailability * d * drug.ke / drug.vd :=
      div_pos (mul_pos (mul_pos hF hd) hke) hvd
    refine ⟨1 / drug.ka, ?_, ?_, hm, ?_⟩
    · simp [TwoComp.computeTmax, h, fdiv_of_ne _ hke.ne']
    · simp [h]
    · refine ⟨fun t => drug.bioavailability * d * drug.ke / drug.vd * t *
          Real.exp (-drug.ke * t), ?_, ?_⟩
      · intro t
        simp [TwoComp.computeDrugContent, h, fdiv_of_ne _ hvd.ne', except_ok_bind,
          except_pure]
      · have hs := strictMono_strictAnti_of_deriv_sign _ _ (1 / drug.ka)
          (hasDerivAt_degenerate (drug.bioavailability * d * drug.ke / drug.vd) drug.ke)
          (fun t ht => by
            rw [h, lt_div_iff₀ hke] at ht
            exact mul_pos (mul_pos hA (Real.exp_pos _)) (by linarith))
          (fun t ht => by
            rw [h, div_lt_iff₀ hke] at ht
            exact mul_neg_of_pos_of_neg (mul_pos hA (Real.exp_pos _)) (by linarith))
        exact single_peak_of_mono_anti _ _ hs.1 hs.2
  · have hm := bateman_peak_pos drug.ka drug.ke hka hke h
    have hA : 0 < drug.bioavailability * d * drug.ka / drug.vd :=
      div_pos (mul_pos (mul_pos hF hd) hka) hvd
    have hsub : drug.ka - drug.ke ≠ 0 := sub_ne_zero.mpr h
    have hden : drug.vd * (drug.ka - drug.ke) ≠ 0 := mul_ne_zero hvd.ne' hsub
    have hslope : ∀ t,
        drug.bioavailability * d * drug.ka / (drug.vd * (drug.ka - drug.ke)) *
          (drug.ka * Real.exp (-drug.ka * t) - drug.ke * Real.exp (-drug.ke * t)) =
        drug.bioavailability * d * drug.ka / drug.vd *
          ((drug.ka * Real.exp (-drug.ka * t) - drug.ke * Real.exp (-drug.ke * t)) /
            (drug.ka - drug.ke)) := by
      intro t
      field_simp
    refine ⟨Real.log (drug.ka / drug.ke) / (drug.ka - drug.ke), ?_, ?_, hm, ?_⟩
    · simp [TwoComp.computeTmax, h, fdiv_of_ne _ hke.ne', fdiv_of_ne _ hsub, except_ok_bind,
        flog_of_pos _ (div_pos hka hke)]
    · simp [h]
    · refine ⟨fun t =>
          drug.bioavailability * d * drug.ka / (drug.vd * (drug.ka - drug.ke)) *
            (Real.exp (-drug.ke * t) - Real.exp (-drug.ka * t)), ?_, ?_⟩
      · intro t
        simp [TwoComp.computeDrugContent, h, fdiv_of_ne _ hden, except_ok_bind, except_pure]
      · have hs := strictMono_strictAnti_of_deriv_sign _ _
          (Real.log (drug.ka / drug.ke) / (drug.ka - drug.ke))
          (hasDerivAt_bateman
            (drug.bioavailability * d * drug.ka / (drug.vd * (drug.ka - drug.ke)))
            drug.ka drug.ke)
          (fun t ht => by
            rw [hslope]
            exact mul_pos hA ((bateman_slope_sign drug.ka drug.ke t hka hke h).1 ht))
          (fun t ht => by
            rw [hslope]
            exact mul_neg_of_pos_of_neg hA
              ((bateman_slope_sign drug.ka drug.ke t hka hke h).2 ht))
        exact single_peak_of_mono_anti _ _ hs.1 hs.2

/-- C5 at 50 mg, absorption half-life 0.5 h (`ka = ln 2 / 1800`), elimination
half-life 4 h (`ke = ln 2 / 14400`), `F = 1`, `Vd = 1`. -/
theorem twoComp_content_single_peak_at_tmax_witness :
    (0 < Real.log 2 / 1800 ∧ 0 < Real.log 2 / 14400 ∧ (0 : ℝ) < 1 ∧ (0 : ℝ) < 50) ∧
    ∃ tmax : ℝ,
      TwoComp.computeTmax Real.log
        (oralDrug (Real.log 2 / 1800) (Real.log 2 / 14400) : DrugInfo ℝ) = Except.ok tmax ∧
      tmax = (if Real.log 2 / 1800 = Real.log 2 / 14400 then 1 / (Real.log 2 / 1800)
        else Real.log ((Real.log 2 / 1800) / (Real.log 2 / 14400)) /
          (Real.log 2 / 1800 - Real.log 2 / 14400)) ∧
      0 < tmax ∧
      ∃ c : ℝ → ℝ,
        (∀ t, TwoComp.computeDrugContent Real.exp
          (oralDrug (Real.log 2 / 1800) (Real.log 2 / 14400)) 50 t = Except.ok (c t)) ∧
        StrictMonoOn c (Set.Icc 0 tmax) ∧ StrictAntiOn c (Set.Ici tmax) ∧
        ∀ t, 0 ≤ t → t ≠ tmax → c t < c tmax :=
  ⟨⟨div_pos (Real.log_pos one_lt_two) (by norm_num),
      div_pos (Real.log_pos one_lt_two) (by norm_num), one_pos, by norm_num⟩,
    twoComp_content_single_peak_at_tmax
      (oralDrug (Real.log 2 / 1800) (Real.log 2 / 14400)) 50
      (div_pos (Real.log_pos one_lt_two) (by norm_num))
      (div_pos (Real.log_pos one_lt_two) (by norm_num))
      one_pos (by norm_num) one_pos⟩

/-! ## Rate constants and half-lives -/

/-- C6: for `k ≠ 0`, `convertRateConstant k` is `ln 2 / k`, and applying
`convertRateConstant` to that result gives back `k`. -/
theorem convertRateConstant_self_inverse (k : ℝ) (hk : k ≠ 0) :
    PK.convertRateConstant Real.log k = Except.ok (Real.log 2 / k) ∧
    (PK.convertRateConstant Real.log k >>= PK.convertRateConstant Real.log) =
      Except.ok k := by
  have h2 : (0:ℝ) < 2 := by norm_num
  have hl : Real.log 2 ≠ 0 := (Real.log_pos one_lt_two).ne'
  have hq : Real.log 2 / k ≠ 0 := div_ne_zero hl hk
  have e1 : PK.convertRateConstant Real.log k = Except.ok (Real.log 2 / k) := by
    simp [PK.convertRateConstant, flog_of_pos _ h2, fdiv_of_ne _ hk, except_ok_bind]
  refine ⟨e1, ?_⟩
  rw [e1, except_ok_bind]
  simp [PK.convertRateConstant, flog_of_pos _ h2, fdiv_of_ne _ hq, except_ok_bind]
  field_simp

/-- C6 at a half-life of 14400 seconds. -/
theorem convertRateConstant_self_inverse_witness :
    (14400 : ℝ) ≠ 0 ∧
    (PK.convertRateConstant Real.log 14400 >>= PK.convertRateConstant Real.log) =
      Except.ok (14400 : ℝ) :=
  ⟨by norm_num, (convertRateConstant_self_inverse 14400 (by norm_num)).2⟩

/-! ## Area under the curve -/

/-- C7 as stated fails: with bioavailability one half (3600 mg, `ke = 1`) the
one-compartment AUC does not converge to `dose * bioavailability / ke / 3600`. -/
theorem oneComp_computeAuc_limit_ignores_bioavailability :
    ¬ ∃ g : ℝ → ℝ,
      (∀ t, OneComp.computeAuc Real.exp (halfBioDrug : DrugInfo ℝ) 3600 t =
        Except.ok (g t)) ∧
      Filter.Tendsto g Filter.atTop
        (nhds (3600 * (halfBioDrug : DrugInfo ℝ).bioavailability /
          (halfBioDrug : DrugInfo ℝ).ke / 3600)) := by
  rintro ⟨g, hg, hlim⟩
  have hke : (0:ℝ) < (halfBioDrug : DrugInfo ℝ).ke := by simp [halfBioDrug]
  have hg2 : g = fun t : ℝ =>
      (1 - Real.exp (-(halfBioDrug : DrugInfo ℝ).ke * t)) /
        (halfBioDrug : DrugInfo ℝ).ke * 3600 / 3600 := by
    funext t
    have := hg t
    rw [oneComp_computeAuc_value _ _ _ hke.ne'] at this
    exact (Except.ok.inj this).symm
  have hlim2 := oneComp_auc_expr_tendsto (halfBioDrug : DrugInfo ℝ).ke 3600 hke
  rw [← hg2] at hlim2
  have := tendsto_nhds_unique hlim hlim2
  norm_num [halfBioDrug, DrugInfo.init] at this

/-- C7 (amended): for a one-compartment profile with `ke > 0`,
`OneComp.computeAuc drug dose t` is a number for every `t` and converges, as
`t` tends to infinity, to `dose / ke / 3600` (no bioavailability factor). -/
theorem oneComp_computeAuc_tendsto (drug : DrugInfo ℝ) (dose : ℝ) (hke : 0 < drug.ke) :
    ∃ g : ℝ → ℝ, (∀ t, OneComp.computeAuc Real.exp drug dose t = Except.ok (g t)) ∧
      Filter.Tendsto g Filter.atTop (nhds (dose / drug.ke / 3600)) :=
  ⟨_, fun t => oneComp_computeAuc_value drug dose t hke.ne',
    oneComp_auc_expr_tendsto drug.ke dose hke⟩

/-- C7 (amended) at 3600 mg, `ke = 1`, bioavailability one half. -/
theorem oneComp_computeAuc_tendsto_witness :
    (0 : ℝ) < (halfBioDrug : DrugInfo ℝ).ke ∧
    ∃ g : ℝ → ℝ,
      (∀ t, OneComp.computeAuc Real.exp (halfBioDrug : DrugInfo ℝ) 3600 t =
        Except.ok (g t)) ∧
      Filter.Tendsto g Filter.atTop (nhds (3600 / (halfBioDrug : DrugInfo ℝ).ke / 3600)) :=
  ⟨by simp [halfBioDrug],
    oneComp_computeAuc_tendsto halfBioDrug 3600 (by simp [halfBioDrug])⟩

/-! ## Delayed release -/

/-- C8: for a delayed-release profile (`isDr`, with `drFrac = f` and
`drLagtime = lag` set), `TwoComp.computeDrugContentDr drug d t` equals
`TwoComp.computeDrugContent drug ((1 - f) * d) t` when `t < lag`, and that
value plus `TwoComp.computeDrugContent drug (f * d) (t - lag)` when `t ≥ lag`. -/
theorem twoComp_computeDrugContentDr_superposition (drug : DrugInfo ℝ) (d t f lag : ℝ)
    (hdr : drug.isDr = true) (hf : drug.drFrac = some f)
    (hl : drug.drLagtime = some lag) :
    (t < lag → TwoComp.computeDrugContentDr Real.exp drug d t =
      TwoComp.computeDrugContent Real.exp drug ((1 - f) * d) t) ∧
    (lag ≤ t → TwoComp.computeDrugContentDr Real.exp drug d t =
      (do
        let a ← TwoComp.computeDrugContent Real.exp drug ((1 - f) * d) t
        let b ← TwoComp.computeDrugContent Real.exp drug (f * d) (t - lag)
        pure (a + b))) := by
  constructor
  · intro h
    simp only [TwoComp.computeDrugContentDr, hdr, hf, hl, optValue, except_ok_bind,
      ge_iff_le, not_le.mpr h, mul_comm d (1 - f)]
    simp
  · intro h
    simp only [TwoComp.computeDrugContentDr, hdr, hf, hl, optValue, except_ok_bind,
      ge_iff_le, h, mul_comm d (1 - f)]
    simp

/-- C8 at the delayed-release profile (`drFrac = 1/2`, lag 2 s), dose 3600,
`t = 3`, after the release. -/
theorem twoComp_computeDrugContentDr_superposition_witness :
    ((delayedDrug : DrugInfo ℝ).isDr = true ∧
      (delayedDrug : DrugInfo ℝ).drFrac = some (1 / 2) ∧
      (delayedDrug : DrugInfo ℝ).drLagtime = some 2 ∧ (2 : ℝ) ≤ 3) ∧
    TwoComp.computeDrugContentDr Real.exp (delayedDrug : DrugInfo ℝ) 3600 3 =
      (do
        let a ← TwoComp.computeDrugContent Real.exp delayedDrug ((1 - 1 / 2) * 3600) 3
        let b ← TwoComp.computeDrugContent Real.exp delayedDrug (1 / 2 * 3600) (3 - 2)
        pure (a + b)) :=
  ⟨⟨rfl, rfl, rfl, by norm_num⟩,
    (twoComp_computeDrugContentDr_superposition delayedDrug 3600 3 (1 / 2) 2
      rfl rfl rfl).2 (by norm_num)⟩

/-- C9, the code at a time before the release: for the delayed-release profile
(`ka = ke = 1`, `drFrac = 1/2`, lag 2 s), dose 3600 and `t = 1 < 2`,
`TwoComp.computeAucDr` returns the AUC of the whole dose, `1 - 2 exp(-1)`,
which is not the AUC of the immediate-release part `(1 - drFrac) * dose`,
`(1 - 2 exp(-1)) / 2`. -/
theorem twoComp_computeAucDr_before_release_uses_whole_dose :
    TwoComp.computeAucDr Real.exp (delayedDrug : DrugInfo ℝ) 3600 1 =
      Except.ok (1 - 2 * Real.exp (-1)) ∧
    TwoComp.computeAuc Real.exp (delayedDrug : DrugInfo ℝ) ((1 - 1 / 2) * 3600) 1 =
      Except.ok ((1 - 2 * Real.exp (-1)) / 2) ∧
    TwoComp.computeAucDr Real.exp (delayedDrug : DrugInfo ℝ) 3600 1 ≠
      TwoComp.computeAuc Real.exp (delayedDrug : DrugInfo ℝ) ((1 - 1 / 2) * 3600) 1 := by
  have h36 : (3600 : ℝ) ≠ 0 := by norm_num
  have h1 : (1 : ℝ) * 1 ≠ 0 := by norm_num
  have a : TwoComp.computeAucDr Real.exp (delayedDrug : DrugInfo ℝ) 3600 1 =
      Except.ok (1 - 2 * Real.exp (-1)) := by
    simp only [TwoComp.computeAucDr, delayedDrug, DrugInfo.init, optValue, optDeref, except_ok_bind,
      TwoComp.computeAuc, fdiv_of_ne _ h1, fdiv_of_ne _ h36]
    norm_num
    ring
  have b : TwoComp.computeAuc Real.exp (delayedDrug : DrugInfo ℝ) ((1 - 1 / 2) * 3600) 1 =
      Except.ok ((1 - 2 * Real.exp (-1)) / 2) := by
    simp only [delayedDrug, DrugInfo.init, TwoComp.computeAuc, fdiv_of_ne _ h1,
      fdiv_of_ne _ h36, except_ok_bind]
    norm_num
    ring
  refine ⟨a, b, ?_⟩
  rw [a, b]
  intro h
  have h' := Except.ok.inj h
  have he : Real.exp (-1) < 1 / 2 := by
    rw [Real.exp_neg, inv_eq_one_div]
    have := Real.exp_one_gt_d9
    apply one_div_lt_one_div_of_lt (by norm_num)
    linarith
  linarith

/-! ## Excreted amount -/

/-- C10, the code at equal rate constants: for the non-delayed-release profile
with `ka = ke = 1/10` (100 mg, `Vd = 1`, `fe = F = 1`) and `t = 10`,
`TwoComp.computeExcreted` divides by `(ka - ke) * Vd = 0`; it does not return
the limit `fe*F*dose/Vd * (1 - exp(-k*t) * (1 + k*t))`. -/
theorem twoComp_computeExcreted_equal_rates_divides_by_zero :
    (equalRatesDrug : DrugInfo ℝ).isDr = false ∧
    (equalRatesDrug : DrugInfo ℝ).ka = (equalRatesDrug : DrugInfo ℝ).ke ∧
    TwoComp.computeExcreted Real.exp (equalRatesDrug : DrugInfo ℝ) 10 =
      Except.error Fault.divByZero ∧
    TwoComp.computeExcreted Real.exp (equalRatesDrug : DrugInfo ℝ) 10 ≠
      Except.ok (1 * 1 * 100 / 1 * (1 - Real.exp (-(1 / 10) * 10) * (1 + 1 / 10 * 10))) := by
  have h : TwoComp.computeExcreted Real.exp (equalRatesDrug : DrugInfo ℝ) 10 =
      Except.error Fault.divByZero := by
    simp [TwoComp.computeExcreted, equalRatesDrug, DrugInfo.init, fdiv_zero,
      except_error_bind]
  exact ⟨rfl, rfl, h, by rw [h]; simp⟩

/-! ## Lemmas on the metabolite formulas, the helpers and the tick loop -/

section HelperLemmas

variable {α : Type} [LinearOrderedField α]

/-- A bind returns a value exactly when both of its parts do. -/
theorem except_bind_eq_ok {β γ : Type} (x : Except Fault β) (f : β → Except Fault γ)
    (c : γ) :
    (x >>= f) = Except.ok c ↔ ∃ b, x = Except.ok b ∧ f b = Except.ok c := by
  cases x with
  | error e => simp [except_error_bind]
  | ok b => simp [except_ok_bind]

/-- Two returned values are equal results exactly when they are equal. -/
theorem except_ok_inj {β : Type} {a b : β} :
    (Except.ok a : Except Fault β) = Except.ok b ↔ a = b :=
  ⟨Except.ok.inj, fun h => by rw [h]⟩

/-- The result of `validateInit` in terms of its blocks. -/
theorem validateInit_eq_ok_iff (log : α → α) (now1 now2 : α) (sim sim' : SimulationInfo α) :
    SimHelper.validateInit log now1 now2 sim = Except.ok sim' ↔
      ∃ s2 s3, SimHelper.validateInit.prodrug (SimHelper.validateInit.flipFlop sim) =
          Except.ok s2 ∧
        SimHelper.validateInit.peak log s2 = Except.ok s3 ∧
        sim' = SimHelper.validateInit.startTime now1 now2
          (SimHelper.validateInit.minDisplay s3) := by
  simp only [SimHelper.validateInit, except_bind_eq_ok, except_pure]
  constructor
  · rintro ⟨s2, h2, s3, h3, h⟩
    exact ⟨s2, s3, h2, h3, (Except.ok.inj h).symm⟩
  · rintro ⟨s2, s3, h2, h3, h⟩
    exact ⟨s2, h2, s3, h3, by rw [h]⟩

/-- The start-time block keeps the rate constants. -/
theorem startTime_drugInfo (now1 now2 : α) (sim : SimulationInfo α) :
    (SimHelper.validateInit.startTime now1 now2 sim).drugInfo.ka = sim.drugInfo.ka ∧
    (SimHelper.validateInit.startTime now1 now2 sim).drugInfo.ke = sim.drugInfo.ke ∧
    (SimHelper.validateInit.startTime now1 now2 sim).drugInfo.activeKe =
      sim.drugInfo.activeKe := by
  unfold SimHelper.validateInit.startTime
  split_ifs <;> simp

/-- The minimum-display block keeps the drug profile. -/
theorem minDisplay_drugInfo (sim : SimulationInfo α) :
    (SimHelper.validateInit.minDisplay sim).drugInfo = sim.drugInfo := by
  unfold SimHelper.validateInit.minDisplay
  split_ifs <;> rfl

/-- The peak block keeps the rate constants. -/
theorem peak_rates (log : α → α) (sim s3 : SimulationInfo α)
    (h : SimHelper.validateInit.peak log sim = Except.ok s3) :
    s3.drugInfo.ka = sim.drugInfo.ka ∧ s3.drugInfo.ke = sim.drugInfo.ke ∧
      s3.drugInfo.activeKe = sim.drugInfo.activeKe := by
  unfold SimHelper.validateInit.peak at h
  simp only at h
  split_ifs at h with hr
  · rw [except_bind_eq_ok] at h
    obtain ⟨tm, _, h⟩ := h
    rw [except_pure] at h
    rw [← Except.ok.inj h]
    simp
  · rw [except_pure] at h
    rw [← Except.ok.inj h]
    simp

/-- The peak block returns whenever the time to peak is a number. -/
theorem peak_ok (log : α → α) (sim : SimulationInfo α)
    (h : sim.drugInfo.roa ≠ ROA_TYPE.ROA_TYPE_IV →
      ∃ tm, TwoComp.computeTmax log sim.drugInfo = Except.ok tm) :
    ∃ s3, SimHelper.validateInit.peak log sim = Except.ok s3 := by
  unfold SimHelper.validateInit.peak
  simp only
  split_ifs with hr
  · obtain ⟨tm, htm⟩ := h hr
    rw [htm, except_ok_bind]
    exact ⟨_, rfl⟩
  · exact ⟨_, rfl⟩

/-- The flip-flop block exchanges `ka` and `ke` when `0 < ka < ke`. -/
theorem flipFlop_swap (sim : SimulationInfo α) (h1 : 0 < sim.drugInfo.ka)
    (h2 : sim.drugInfo.ka < sim.drugInfo.ke) :
    SimHelper.validateInit.flipFlop sim =
      { sim with
        drugInfo := { sim.drugInfo with ka := sim.drugInfo.ke, ke := sim.drugInfo.ka } } := by
  simp [SimHelper.validateInit.flipFlop, h1, h2]

/-- The flip-flop block changes nothing unless `0 < ka < ke`. -/
theorem flipFlop_id (sim : SimulationInfo α)
    (h : ¬ (0 < sim.drugInfo.ka ∧ sim.drugInfo.ka < sim.drugInfo.ke)) :
    SimHelper.validateInit.flipFlop sim = sim := by
  simp only [SimHelper.validateInit.flipFlop, gt_iff_lt, h, if_false]

/-- The prodrug block changes nothing for a profile that is not a prodrug. -/
theorem prodrug_id (sim : SimulationInfo α) (h : sim.drugInfo.isProdrug = false) :
    SimHelper.validateInit.prodrug sim = Except.ok sim := by
  simp [SimHelper.validateInit.prodrug, h, except_pure]

/-- When `ka ≠ ke`, the prodrug block leaves `ka` and `ke` alone. -/
theorem prodrug_rates_of_ne (sim : SimulationInfo α) (km : α)
    (hkm : sim.drugInfo.isProdrug = true → sim.drugInfo.activeKe = some km)
    (hne : sim.drugInfo.ka ≠ sim.drugInfo.ke) :
    ∃ s2, SimHelper.validateInit.prodrug sim = Except.ok s2 ∧
      s2.drugInfo.ka = sim.drugInfo.ka ∧ s2.drugInfo.ke = sim.drugInfo.ke ∧
      s2.drugInfo.roa = sim.drugInfo.roa := by
  by_cases hp : sim.drugInfo.isProdrug = true
  · simp [SimHelper.validateInit.prodrug, hp, hkm hp, optValue, except_ok_bind, except_pure, hne]
  · simp [SimHelper.validateInit.prodrug, hp, except_pure]

/-- When only `ke` and `km` coincide, the prodrug block multiplies `km` by `EPSILON_MULT`. -/
theorem prodrug_bump_km (sim : SimulationInfo α) (km : α)
    (hp : sim.drugInfo.isProdrug = true) (hkm : sim.drugInfo.activeKe = some km)
    (h2 : sim.drugInfo.ka ≠ km)
    (h3 : sim.drugInfo.ke = km) :
    SimHelper.validateInit.prodrug sim = Except.ok
      { sim with
        drugInfo := { sim.drugInfo with ke := sim.drugInfo.ke,
                                        activeKe := some (km * EPSILON_MULT) },
        state := { sim.state with isMultiline := true } } := by
  simp [SimHelper.validateInit.prodrug, hp, hkm, optValue, except_ok_bind, except_pure,
    h2, h3]

/-- The result of one tick in terms of the calls it makes, in order. -/
theorem tick_eq_ok_iff (exp : α → α) (sim sim' : SimulationInfo α) (elapsed : α)
    (stop : Bool) :
    startSimulation.tick exp sim elapsed = Except.ok (sim', stop) ↔
      ∃ s1 s2 s3 s4 s5,
        SimHelper.updateCurrentDoses exp
          { sim with state := { sim.state with elapsed := elapsed } } = Except.ok s1 ∧
        startSimulation.checkDrReleased s1 = Except.ok s2 ∧
        SimHelper.checkMaxAchieved s2 = Except.ok s3 ∧
        SimHelper.useFixedPrecision s3 = Except.ok s4 ∧
        SimHelper.updateCache s4 = Except.ok s5 ∧
        SimHelper.checkTmaxState (SimHelper.checkFullyAbsorbed exp s5) = Except.ok sim' ∧
        (if sim'.state.fullyAbsorbed = true then SimHelper.isMinDose sim'
          else Except.ok false) = Except.ok stop := by
  unfold startSimulation.tick
  simp only [except_bind_eq_ok, except_pure, except_ok_inj, Prod.mk.injEq]
  constructor
  · rintro ⟨s1, h1, s2, h2, s3, h3, s4, h4, s5, h5, s6, h6, b, hb, rfl, rfl⟩
    exact ⟨s1, s2, s3, s4, s5, h1, h2, h3, h4, h5, h6, hb⟩
  · rintro ⟨s1, s2, s3, s4, s5, h1, h2, h3, h4, h5, h6, hb⟩
    exact ⟨s1, h1, s2, h2, s3, h3, s4, h4, s5, h5, sim', h6, stop, hb, rfl, rfl⟩

/-- The members of the state that `updateCurrentDoses` does not write. -/
theorem updateCurrentDoses_frame (exp : α → α) (sim sim' : SimulationInfo α)
    (h : SimHelper.updateCurrentDoses exp sim = Except.ok sim') :
    sim'.state.maxAchieved = sim.state.maxAchieved ∧
    sim'.state.fullyAbsorbed = sim.state.fullyAbsorbed := by
  unfold SimHelper.updateCurrentDoses at h
  simp only [except_bind_eq_ok, except_pure] at h
  obtain ⟨f, _, dc, _, st1, h1, st2, h2, st3, h3, h⟩ := h
  have e1 : st1.maxAchieved = sim.state.maxAchieved ∧
      st1.fullyAbsorbed = sim.state.fullyAbsorbed := by
    by_cases hc : sim.drugInfo.isProdrug = true
    · rw [if_pos hc, except_bind_eq_ok] at h1
      obtain ⟨_, _, h1⟩ := h1
      rw [← Except.ok.inj h1]
      exact ⟨rfl, rfl⟩
    · rw [if_neg hc] at h1
      rw [← Except.ok.inj h1]
      exact ⟨rfl, rfl⟩
  have e2 : st2.maxAchieved = st1.maxAchieved ∧ st2.fullyAbsorbed = st1.fullyAbsorbed := by
    by_cases hc : sim.ed50Enabled = true
    · rw [if_pos hc] at h2
      simp only [except_bind_eq_ok] at h2
      obtain ⟨_, _, _, _, h2⟩ := h2
      rw [← Except.ok.inj h2]
      exact ⟨rfl, rfl⟩
    · rw [if_neg hc] at h2
      rw [← Except.ok.inj h2]
      exact ⟨rfl, rfl⟩
  have e3 : st3.maxAchieved = st2.maxAchieved ∧ st3.fullyAbsorbed = st2.fullyAbsorbed := by
    by_cases hc : sim.displayExcreted = true
    · rw [if_pos hc, except_bind_eq_ok] at h3
      obtain ⟨_, _, h3⟩ := h3
      rw [← Except.ok.inj h3]
      exact ⟨rfl, rfl⟩
    · rw [if_neg hc] at h3
      rw [← Except.ok.inj h3]
      exact ⟨rfl, rfl⟩
  have e4 : sim'.state.maxAchieved = st3.maxAchieved ∧
      sim'.state.fullyAbsorbed = st3.fullyAbsorbed := by
    by_cases hc : (!sim.isAucEnabled) = true
    · rw [if_pos hc] at h
      rw [← Except.ok.inj h]
      exact ⟨rfl, rfl⟩
    · rw [if_neg hc, except_bind_eq_ok] at h
      obtain ⟨_, _, h⟩ := h
      rw [← Except.ok.inj h]
      exact ⟨rfl, rfl⟩
  exact ⟨e4.1.trans (e3.1.trans (e2.1.trans e1.1)), e4.2.trans (e3.2.trans (e2.2.trans e1.2))⟩

/-- A call of `useFixedPrecision` either returns the simulation unchanged or, under
all its trigger conditions, the shifted simulation. -/
theorem useFixedPrecision_cases (sim sim' : SimulationInfo α)
    (h : SimHelper.useFixedPrecision sim = Except.ok sim') :
    sim' = sim ∨
    ∃ unit v, SimHelper.useFixedPrecision.nextUnit sim.state.doseUnit = some unit ∧
      SimHelper.displayedValue sim = some v ∧
      sim.doseUnitsEnabled = true ∧ sim.sigfigs = none ∧ 3 ≤ sim.state.prec ∧ v < 1 ∧
      (sim.state.hasTmaxed = true ∨ sim.state.doseUnit = DOSE_UNIT.DOSE_UNIT_GRAM) ∧
      sim' = SimHelper.useFixedPrecision.shifted sim unit v := by
  unfold SimHelper.useFixedPrecision at h
  by_cases c0 : sim.doseUnitsEnabled = false ∨ sim.sigfigs.isSome = true
  · rw [if_pos c0] at h
    exact Or.inl (Except.ok.inj h).symm
  rw [if_neg c0, except_bind_eq_ok] at h
  obtain ⟨v, hv, h⟩ := h
  simp only at h
  by_cases c1 : sim.drugInfo.isProdrug = true ∧
      sim.state.drugContent ≥ sim.state.minProdrugDisplayDose
  · rw [if_pos c1] at h
    exact Or.inl (Except.ok.inj h).symm
  rw [if_neg c1] at h
  by_cases c2 : sim.state.doseUnit = DOSE_UNIT.DOSE_UNIT_NANOGRAM ∧ sim.state.hasTmaxed = true
  · rw [if_pos c2] at h
    exact Or.inl (Except.ok.inj h).symm
  rw [if_neg c2] at h
  by_cases c3 : sim.state.prec < 3 ∨ v ≥ 1
  · rw [if_pos c3] at h
    exact Or.inl (Except.ok.inj h).symm
  rw [if_neg c3] at h
  by_cases c4 : sim.state.hasTmaxed = false ∧ sim.state.doseUnit ≠ DOSE_UNIT.DOSE_UNIT_GRAM
  · rw [if_pos c4] at h
    exact Or.inl (Except.ok.inj h).symm
  rw [if_neg c4] at h
  cases hn : SimHelper.useFixedPrecision.nextUnit sim.state.doseUnit with
  | none =>
    rw [hn] at h
    exact Or.inl (Except.ok.inj h).symm
  | some unit =>
    rw [hn] at h
    refine Or.inr ⟨unit, v, rfl, ?_, ?_, ?_, ?_, ?_, ?_, ?_⟩
    · unfold SimHelper.displayedValue
      by_cases hp : sim.drugInfo.isProdrug = true
      · rw [if_pos hp] at hv ⊢
        cases ha : sim.state.activeDoseAsUnit with
        | none => rw [ha] at hv; simp [optValue] at hv
        | some a =>
          rw [ha] at hv
          simp only [optValue] at hv
          rw [Except.ok.inj hv]
      · rw [if_neg hp] at hv ⊢
        rw [except_pure] at hv
        rw [Except.ok.inj hv]
    · cases hd : sim.doseUnitsEnabled with
      | true => rfl
      | false => exact absurd (Or.inl hd) c0
    · cases hs : sim.sigfigs with
      | none => rfl
      | some s => exact absurd (Or.inr (by rw [hs]; rfl)) c0
    · exact not_lt.mp (fun hlt => c3 (Or.inl hlt))
    · exact not_le.mp (fun hle => c3 (Or.inr hle))
    · cases ht : sim.state.hasTmaxed with
      | true => exact Or.inl rfl
      | false =>
        refine Or.inr ?_
        by_contra hg
        exact c4 ⟨ht, hg⟩
    · exact (Except.ok.inj h).symm

/-- Members of the shifted simulation. -/
theorem shifted_state (sim : SimulationInfo α) (unit : DOSE_UNIT) (v : α) :
    (SimHelper.useFixedPrecision.shifted sim unit v).state.doseUnit = unit ∧
    (SimHelper.useFixedPrecision.shifted sim unit v).state.prec = sim.state.prec - 3 ∧
    (SimHelper.useFixedPrecision.shifted sim unit v).drugInfo = sim.drugInfo ∧
    (SimHelper.useFixedPrecision.shifted sim unit v).state.maxAchieved =
      sim.state.maxAchieved ∧
    (SimHelper.useFixedPrecision.shifted sim unit v).state.fullyAbsorbed =
      sim.state.fullyAbsorbed ∧
    SimHelper.displayedValue (SimHelper.useFixedPrecision.shifted sim unit v) =
      some (v * 1000) := by
  unfold SimHelper.useFixedPrecision.shifted SimHelper.displayedValue
  by_cases hp : sim.drugInfo.isProdrug = true <;> simp [hp]

/-- A call of `useFixedPrecision` returns when the displayed value exists. -/
theorem useFixedPrecision_ok (sim : SimulationInfo α)
    (hp : sim.drugInfo.isProdrug = true → ∃ u, sim.state.activeDoseAsUnit = some u) :
    ∃ sim', SimHelper.useFixedPrecision sim = Except.ok sim' := by
  unfold SimHelper.useFixedPrecision
  by_cases c0 : sim.doseUnitsEnabled = false ∨ sim.sigfigs.isSome = true
  · rw [if_pos c0]; exact ⟨_, rfl⟩
  rw [if_neg c0]
  have hv : ∃ v, (if sim.drugInfo.isProdrug = true then optValue sim.state.activeDoseAsUnit
      else pure sim.state.doseAsUnit) = Except.ok v := by
    by_cases hpd : sim.drugInfo.isProdrug = true
    · obtain ⟨u, hu⟩ := hp hpd
      exact ⟨u, by rw [if_pos hpd, hu]; rfl⟩
    · exact ⟨_, by rw [if_neg hpd]; rfl⟩
  obtain ⟨v, hv⟩ := hv
  dsimp only
  rw [hv, except_ok_bind]
  split_ifs <;>
    first
    | exact ⟨_, rfl⟩
    | (cases SimHelper.useFixedPrecision.nextUnit sim.state.doseUnit <;> exact ⟨_, rfl⟩)

/-- What one step of a run does to the unit and the precision. -/
theorem fixedPrecisionStep_facts (a b : SimulationInfo α) (h : FixedPrecisionStep a b) :
    UnitDown a.state.doseUnit b.state.doseUnit ∧ b.state.prec ≤ a.state.prec ∧
      (0 ≤ a.state.prec → 0 ≤ b.state.prec) := by
  obtain ⟨a1, hu, hp, h⟩ := h
  rcases useFixedPrecision_cases a1 b h with rfl | ⟨unit, v, hn, _, _, _, h3, _, _, rfl⟩
  · rw [hu, hp]
    exact ⟨Or.inl rfl, le_rfl, fun h => h⟩
  · obtain ⟨e1, e2, _⟩ := shifted_state a1 unit v
    rw [e1, e2, ← hu, ← hp]
    exact ⟨Or.inr hn, by omega, fun _ => by omega⟩

/-- Along a run the precision never exceeds the first one and stays non-negative. -/
theorem prec_of_chain (l : List (SimulationInfo α)) :
    ∀ a, List.Chain FixedPrecisionStep a l →
      ∀ s ∈ l, s.state.prec ≤ a.state.prec ∧
        (0 ≤ a.state.prec → 0 ≤ s.state.prec) := by
  induction l with
  | nil => intro a _ s hs; simp at hs
  | cons b rest ih =>
    intro a h s hs
    rw [List.chain_cons] at h
    obtain ⟨_, h1, h2⟩ := fixedPrecisionStep_facts a b h.1
    rcases List.mem_cons.mp hs with rfl | hs
    · exact ⟨h1, h2⟩
    · obtain ⟨h3, h4⟩ := ih b h.2 s hs
      exact ⟨h3.trans h1, fun h0 => h4 (h2 h0)⟩

/-- The units of a run form a descending chain. -/
theorem units_chain (l : List (SimulationInfo α)) :
    ∀ a, List.Chain FixedPrecisionStep a l →
      List.Chain UnitDown a.state.doseUnit (l.map (fun s => s.state.doseUnit)) := by
  induction l with
  | nil => intro a _; exact List.Chain.nil
  | cons b rest ih =>
    intro a h
    rw [List.chain_cons] at h
    exact List.Chain.cons (fixedPrecisionStep_facts a b h.1).1 (ih b h.2)

end HelperLemmas

/-- The four downshifts of the switch, none of which keeps the unit. -/
theorem nextUnit_pairs (u u' : DOSE_UNIT)
    (h : SimHelper.useFixedPrecision.nextUnit u = some u') :
    (u, u') ∈ [(DOSE_UNIT.DOSE_UNIT_GRAM, DOSE_UNIT.DOSE_UNIT_MG),
      (DOSE_UNIT.DOSE_UNIT_MG, DOSE_UNIT.DOSE_UNIT_MICROGRAM),
      (DOSE_UNIT.DOSE_UNIT_MICROGRAM, DOSE_UNIT.DOSE_UNIT_NANOGRAM),
      (DOSE_UNIT.DOSE_UNIT_L, DOSE_UNIT.DOSE_UNIT_ML)] ∧ u' ≠ u := by
  revert h
  cases u <;> cases u' <;> decide

/-- A downshift lowers the tier by one. -/
theorem nextUnit_tier (u u' : DOSE_UNIT)
    (h : SimHelper.useFixedPrecision.nextUnit u = some u') :
    SimHelper.useFixedPrecision.tier u' + 1 = SimHelper.useFixedPrecision.tier u := by
  revert h
  cases u <;> cases u' <;> decide

/-- The tier never grows along a step. -/
theorem unitDown_tier (u u' : DOSE_UNIT) (h : UnitDown u u') :
    SimHelper.useFixedPrecision.tier u' ≤ SimHelper.useFixedPrecision.tier u := by
  rcases h with h | h
  · rw [h]
  · have := nextUnit_tier u u' h
    omega

/-- No unit is more than three tiers above its floor. -/
theorem tier_le_three (u : DOSE_UNIT) : SimHelper.useFixedPrecision.tier u ≤ 3 := by
  cases u <;> decide

/-- Every unit is among the units at or below it. -/
theorem tiersFrom_self (u : DOSE_UNIT) : u ∈ SimHelper.useFixedPrecision.tiersFrom u := by
  cases u <;> decide

/-- Units below a successor are below the unit itself. -/
theorem tiersFrom_trans (a b x : DOSE_UNIT) (h : UnitDown a b)
    (hx : x ∈ SimHelper.useFixedPrecision.tiersFrom b) :
    x ∈ SimHelper.useFixedPrecision.tiersFrom a := by
  unfold UnitDown at h
  revert h hx
  cases a <;> cases b <;> cases x <;> decide

/-- Nanogram and milliliter are kept by every step. -/
theorem unitDown_floor (a b : DOSE_UNIT) (h : UnitDown a b) :
    (a = DOSE_UNIT.DOSE_UNIT_NANOGRAM → b = DOSE_UNIT.DOSE_UNIT_NANOGRAM) ∧
    (a = DOSE_UNIT.DOSE_UNIT_ML → b = DOSE_UNIT.DOSE_UNIT_ML) := by
  unfold UnitDown at h
  revert h
  cases a <;> cases b <;> decide

/-- Along a run the unit changes at most as often as the tier of its first unit. -/
theorem unitChanges_le_tier (l : List DOSE_UNIT) :
    ∀ a, List.Chain UnitDown a l →
      unitChanges (a :: l) ≤ SimHelper.useFixedPrecision.tier a := by
  induction l with
  | nil => intro a _; simp [unitChanges]
  | cons b rest ih =>
    intro a h
    rw [List.chain_cons] at h
    have hb := ih b h.2
    simp only [unitChanges]
    rcases h.1 with e | e
    · subst e
      rw [if_pos rfl]
      omega
    · have := nextUnit_tier a b e
      split_ifs <;> omega

/-- Along a run a unit is left at most once. -/
theorem unitDepartures_le (u : DOSE_UNIT) (l : List DOSE_UNIT) :
    ∀ a, List.Chain UnitDown a l →
      unitDepartures u (a :: l) ≤
        (if SimHelper.useFixedPrecision.tier u ≤ SimHelper.useFixedPrecision.tier a
          then 1 else 0) := by
  induction l with
  | nil => intro a _; simp [unitDepartures]
  | cons b rest ih =>
    intro a h
    rw [List.chain_cons] at h
    have hb := ih b h.2
    have hle := unitDown_tier a b h.1
    simp only [unitDepartures]
    by_cases hd : a = u ∧ b ≠ u
    · rw [if_pos hd]
      obtain ⟨rfl, hne⟩ := hd
      rcases h.1 with e | e
      · exact absurd e hne
      · have := nextUnit_tier a b e
        rw [if_neg (by omega)] at hb
        rw [if_pos le_rfl]
        omega
    · rw [if_neg hd]
      split_ifs at hb ⊢ <;> omega

/-- Along a run every unit is at or below the first one. -/
theorem tiersFrom_of_chain (l : List DOSE_UNIT) :
    ∀ a, List.Chain UnitDown a l →
      ∀ x ∈ l, x ∈ SimHelper.useFixedPrecision.tiersFrom a := by
  induction l with
  | nil => intro a _ x hx; simp at hx
  | cons b rest ih =>
    intro a h x hx
    rw [List.chain_cons] at h
    rcases List.mem_cons.mp hx with rfl | hx
    · exact tiersFrom_trans a x x h.1 (tiersFrom_self x)
    · exact tiersFrom_trans a b x h.1 (ih b h.2 x hx)

/-- The time to peak is a number for positive rate constants. -/
theorem computeTmax_ok_of_pos (drug : DrugInfo ℝ) (hka : 0 < drug.ka) (hke : 0 < drug.ke) :
    ∃ tm, TwoComp.computeTmax Real.log drug = Except.ok tm := by
  by_cases h : drug.ka = drug.ke
  · simp [TwoComp.computeTmax, h, fdiv_of_ne _ hke.ne']
  · simp [TwoComp.computeTmax, h, fdiv_of_ne _ hke.ne', fdiv_of_ne _ (sub_ne_zero.mpr h),
      except_ok_bind, flog_of_pos _ (div_pos hka hke)]

/-- After the prodrug block, `validateInit` returns and keeps the rate constants. -/
theorem validateInit_rates (now1 now2 : ℝ) (sim s2 : SimulationInfo ℝ)
    (h2 : SimHelper.validateInit.prodrug (SimHelper.validateInit.flipFlop sim) = Except.ok s2)
    (hpos : s2.drugInfo.roa ≠ ROA_TYPE.ROA_TYPE_IV →
      0 < s2.drugInfo.ka ∧ 0 < s2.drugInfo.ke) :
    ∃ sim', SimHelper.validateInit Real.log now1 now2 sim = Except.ok sim' ∧
      sim'.drugInfo.ka = s2.drugInfo.ka ∧ sim'.drugInfo.ke = s2.drugInfo.ke ∧
      sim'.drugInfo.activeKe = s2.drugInfo.activeKe := by
  obtain ⟨s3, h3⟩ := peak_ok Real.log s2
    (fun hr => computeTmax_ok_of_pos s2.drugInfo (hpos hr).1 (hpos hr).2)
  refine ⟨_, (validateInit_eq_ok_iff _ _ _ _ _).mpr ⟨s2, s3, h2, h3, rfl⟩, ?_⟩
  have hs := startTime_drugInfo now1 now2 (SimHelper.validateInit.minDisplay s3)
  have hr := peak_rates Real.log s2 s3 h3
  rw [minDisplay_drugInfo] at hs
  exact ⟨hs.1.trans hr.1, hs.2.1.trans hr.2.1, hs.2.2.trans hr.2.2⟩

/-- The value of the loop of `TwoComp.computeMetaboliteContent` for pairwise distinct
rate constants. -/
theorem twoComp_metabolite_value (drug : DrugInfo ℝ) (t km f : ℝ)
    (hkm : drug.activeKe = some km) (hf : drug.activeFrac = some f)
    (h1 : drug.ka ≠ drug.ke) (h2 : drug.ka ≠ km) (h3 : drug.ke ≠ km) :
    TwoComp.computeMetaboliteContent Real.exp drug t =
      Except.ok (drug.dose * f * drug.bioavailability * (drug.ka * drug.ke) *
        (Real.exp (-drug.ka * t) / ((drug.ke - drug.ka) * (km - drug.ka)) +
         Real.exp (-drug.ke * t) / ((drug.ka - drug.ke) * (km - drug.ke)) +
         Real.exp (-km * t) / ((drug.ka - km) * (drug.ke - km)))) := by
  have d1 : (drug.ke - drug.ka) * (km - drug.ka) ≠ 0 :=
    mul_ne_zero (sub_ne_zero.mpr (Ne.symm h1)) (sub_ne_zero.mpr (Ne.symm h2))
  have d2 : (drug.ka - drug.ke) * (km - drug.ke) ≠ 0 :=
    mul_ne_zero (sub_ne_zero.mpr h1) (sub_ne_zero.mpr (Ne.symm h3))
  have d3 : (drug.ka - km) * (drug.ke - km) ≠ 0 :=
    mul_ne_zero (sub_ne_zero.mpr h2) (sub_ne_zero.mpr h3)
  simp [TwoComp.computeMetaboliteContent, hkm, hf, optValue, except_ok_bind, except_pure,
    List.range, List.range.loop, List.foldlM, fdiv_of_ne _ d1, fdiv_of_ne _ d2,
    fdiv_of_ne _ d3]

/-- The Bateman sum for the rates 3, 2, 1 at `t = 1` is positive. -/
theorem bateman_sum_pos :
    0 < Real.exp (-3 * 1) / ((2 - 3) * (1 - 3)) + Real.exp (-2 * 1) / ((3 - 2) * (1 - 2)) +
      Real.exp (-1 * 1) / ((3 - 1) * (2 - 1)) := by
  have e3 : Real.exp (-3 * 1) = Real.exp (-1) ^ 3 := by
    rw [← Real.exp_nat_mul]; norm_num
  have e2 : Real.exp (-2 * 1) = Real.exp (-1) ^ 2 := by
    rw [← Real.exp_nat_mul]; norm_num
  have e1 : Real.exp (-1 * 1) = Real.exp (-1) := by norm_num
  rw [e3, e2, e1]
  have hx : 0 < Real.exp (-1) := Real.exp_pos _
  have hx1 : Real.exp (-1) < 1 := by
    have := Real.exp_lt_exp.mpr (show (-1:ℝ) < 0 by norm_num)
    rwa [Real.exp_zero] at this
  have : Real.exp (-1) ^ 3 / ((2 - 3) * (1 - 3)) + Real.exp (-1) ^ 2 / ((3 - 2) * (1 - 2)) +
      Real.exp (-1) / ((3 - 1) * (2 - 1)) = Real.exp (-1) * (1 - Real.exp (-1)) ^ 2 / 2 := by
    ring
  rw [this]
  have : 0 < 1 - Real.exp (-1) := by linarith
  positivity

section TickLemmas

variable {α : Type} [LinearOrderedField α]

/-- The block on the delayed release writes `hasDrReleased` only. -/
theorem checkDrReleased_frame (sim sim' : SimulationInfo α)
    (h : startSimulation.checkDrReleased sim = Except.ok sim') :
    sim'.state.maxAchieved = sim.state.maxAchieved ∧
    sim'.state.fullyAbsorbed = sim.state.fullyAbsorbed := by
  unfold startSimulation.checkDrReleased at h
  by_cases c : sim.drugInfo.isDr = true ∧ sim.state.hasDrReleased = false
  · rw [if_pos c, except_bind_eq_ok] at h
    obtain ⟨lag, _, h⟩ := h
    split_ifs at h <;>
    · rw [← Except.ok.inj h]
      exact ⟨rfl, rfl⟩
  · rw [if_neg c] at h
    rw [← Except.ok.inj h]
    exact ⟨rfl, rfl⟩

/-- The value written by `checkMaxAchieved`. -/
theorem checkMaxAchieved_value (sim : SimulationInfo α) (c : α)
    (hc : SimHelper.trackedContent sim = some c) :
    SimHelper.checkMaxAchieved sim = Except.ok
      { sim with state := { sim.state with maxAchieved := max sim.state.maxAchieved c } } := by
  unfold SimHelper.trackedContent at hc
  unfold SimHelper.checkMaxAchieved
  dsimp only
  by_cases hp : sim.drugInfo.isProdrug = true
  · rw [if_pos hp] at hc
    have hv : optValue sim.state.activeDrugContent = Except.ok c := by rw [hc]; rfl
    rw [if_neg (fun h => by rw [hp] at h; exact absurd h.1 (by decide)), if_pos hp, hv,
      except_ok_bind]
    by_cases hgt : c > sim.state.maxAchieved
    · rw [if_pos hgt, max_eq_right hgt.le]
      rfl
    · rw [if_neg hgt, max_eq_left (not_lt.mp hgt)]
      rfl
  · rw [if_neg hp] at hc
    have hc' := Option.some.inj hc
    have hp' : sim.drugInfo.isProdrug = false := by
      cases h : sim.drugInfo.isProdrug with
      | true => exact absurd h hp
      | false => rfl
    by_cases hgt : c > sim.state.maxAchieved
    · rw [if_pos ⟨hp', by rw [hc']; exact hgt⟩, max_eq_right hgt.le, hc']
      rfl
    · rw [if_neg (fun h => hgt (by rw [← hc']; exact h.2)), if_neg hp,
        max_eq_left (not_lt.mp hgt)]
      rfl

/-- A call of `checkMaxAchieved` never lowers `maxAchieved`. -/
theorem checkMaxAchieved_frame (sim sim' : SimulationInfo α)
    (h : SimHelper.checkMaxAchieved sim = Except.ok sim') :
    sim.state.maxAchieved ≤ sim'.state.maxAchieved ∧
    sim'.state.fullyAbsorbed = sim.state.fullyAbsorbed := by
  have key : ∀ c, SimHelper.trackedContent sim = some c →
      sim.state.maxAchieved ≤ sim'.state.maxAchieved ∧
      sim'.state.fullyAbsorbed = sim.state.fullyAbsorbed := by
    intro c hc
    rw [checkMaxAchieved_value sim c hc] at h
    rw [← Except.ok.inj h]
    exact ⟨le_max_left _ _, rfl⟩
  cases ht : SimHelper.trackedContent sim with
  | some c => exact key c ht
  | none =>
    unfold SimHelper.trackedContent at ht
    by_cases hp : sim.drugInfo.isProdrug = true
    · rw [if_pos hp] at ht
      unfold SimHelper.checkMaxAchieved at h
      simp [hp, ht, optValue, except_error_bind] at h
    · rw [if_neg hp] at ht
      exact absurd ht (by simp)

/-- A call of `useFixedPrecision` keeps `maxAchieved` and `fullyAbsorbed`. -/
theorem useFixedPrecision_frame (sim sim' : SimulationInfo α)
    (h : SimHelper.useFixedPrecision sim = Except.ok sim') :
    sim'.state.maxAchieved = sim.state.maxAchieved ∧
    sim'.state.fullyAbsorbed = sim.state.fullyAbsorbed := by
  rcases useFixedPrecision_cases sim sim' h with rfl | ⟨unit, v, _, _, _, _, _, _, _, rfl⟩
  · exact ⟨rfl, rfl⟩
  · obtain ⟨_, _, _, e4, e5, _⟩ := shifted_state sim unit v
    exact ⟨e4, e5⟩

/-- The state effects of `updateCache` keep `maxAchieved` and `fullyAbsorbed`. -/
theorem updateCache_frame (sim sim' : SimulationInfo α)
    (h : SimHelper.updateCache sim = Except.ok sim') :
    sim'.state.maxAchieved = sim.state.maxAchieved ∧
    sim'.state.fullyAbsorbed = sim.state.fullyAbsorbed := by
  unfold SimHelper.updateCache at h
  dsimp only at h
  by_cases hp : sim.drugInfo.isProdrug = true
  · rw [if_pos hp, except_bind_eq_ok] at h
    obtain ⟨_, _, h⟩ := h
    split_ifs at h <;>
    · rw [← Except.ok.inj h]
      exact ⟨rfl, rfl⟩
  · rw [if_neg hp] at h
    rw [← Except.ok.inj h]
    split_ifs <;> exact ⟨rfl, rfl⟩

/-- A call of `checkFullyAbsorbed` keeps `maxAchieved` and a true `fullyAbsorbed`. -/
theorem checkFullyAbsorbed_frame (exp : α → α) (sim : SimulationInfo α) :
    (SimHelper.checkFullyAbsorbed exp sim).state.maxAchieved = sim.state.maxAchieved ∧
    (sim.state.fullyAbsorbed = true →
      (SimHelper.checkFullyAbsorbed exp sim).state.fullyAbsorbed = true) := by
  unfold SimHelper.checkFullyAbsorbed
  by_cases c : sim.state.fullyAbsorbed = true ∨ sim.compModel = COMP_MODEL.ONE_COMP_MODEL
  · rw [if_pos c]
    exact ⟨rfl, fun h => h⟩
  · rw [if_neg c]
    exact ⟨rfl, fun h => absurd (Or.inl h) c⟩

/-- A call of `checkTmaxState` writes only `hasTmaxed` and `hasDrTmaxed`, and
only to set them. -/
theorem checkTmaxState_frame (sim sim' : SimulationInfo α)
    (h : SimHelper.checkTmaxState sim = Except.ok sim') :
    sim'.state.maxAchieved = sim.state.maxAchieved ∧
    sim'.state.fullyAbsorbed = sim.state.fullyAbsorbed ∧
    (sim.state.hasTmaxed = true → sim'.state.hasTmaxed = true) ∧
    (sim.state.hasDrTmaxed = true → sim'.state.hasDrTmaxed = true) := by
  unfold SimHelper.checkTmaxState at h
  simp only [except_pure, except_ok_bind] at h
  split_ifs at h <;>
    first
    | (rw [except_bind_eq_ok] at h
       obtain ⟨lag, _, h⟩ := h
       split_ifs at h <;> (cases h; simp))
    | (cases h; simp)

/-- A call of `checkTmaxState` returns when the release lag of a delayed-release
profile is set. -/
theorem checkTmaxState_ok (sim : SimulationInfo α)
    (hl : sim.drugInfo.isDr = true → ∃ lag, sim.drugInfo.drLagtime = some lag) :
    ∃ sim', SimHelper.checkTmaxState sim = Except.ok sim' := by
  unfold SimHelper.checkTmaxState
  simp only [except_pure, except_ok_bind]
  split_ifs with c1 c2 c3 <;>
    first
    | exact ⟨_, rfl⟩
    | (obtain ⟨lag, hlag⟩ := hl (by first | exact c2.1 | exact c3.1)
       rw [hlag]
       simp only [optValue, except_ok_bind]
       split_ifs <;> exact ⟨_, rfl⟩)

/-- One tick never lowers `maxAchieved` and keeps a true `fullyAbsorbed`. -/
theorem tick_frame (exp : α → α) (sim sim' : SimulationInfo α) (elapsed : α) (stop : Bool)
    (h : startSimulation.tick exp sim elapsed = Except.ok (sim', stop)) :
    sim.state.maxAchieved ≤ sim'.state.maxAchieved ∧
    (sim.state.fullyAbsorbed = true → sim'.state.fullyAbsorbed = true) := by
  obtain ⟨s1, s2, s3, s4, s5, h1, h2, h3, h4, h5, h6, _⟩ := (tick_eq_ok_iff _ _ _ _ _).mp h
  have f1 := updateCurrentDoses_frame exp _ s1 h1
  have f2 := checkDrReleased_frame s1 s2 h2
  have f3 := checkMaxAchieved_frame s2 s3 h3
  have f4 := useFixedPrecision_frame s3 s4 h4
  have f5 := updateCache_frame s4 s5 h5
  have f6 := checkFullyAbsorbed_frame exp s5
  have f7 := checkTmaxState_frame _ sim' h6
  simp only at f1
  constructor
  · rw [f7.1, f6.1, f5.1, f4.1]
    rw [← f1.1, ← f2.1]
    exact f3.1
  · intro hfa
    rw [f7.2.1]
    apply f6.2
    rw [f5.2, f4.2, f3.2, f2.2, f1.2]
    exact hfa

end TickLemmas

/-- A tick of the intravenous simulation at elapsed time 0 returns. -/
theorem tick_iv_returns :
    ∃ r, startSimulation.tick Real.exp
      (simOf (ivDrug 1) COMP_MODEL.ONE_COMP_MODEL : SimulationInfo ℝ) 0 = Except.ok r := by
  have h10 : (10 : ℝ) ≠ 0 := by norm_num
  have h1 : (1 : ℝ) ≠ 0 := one_ne_zero
  have hc : (0 : ℝ) ≤ 100 / 10 ∧ (2 : ℝ)⁻¹ ≤ 100 / 10 := by norm_num
  simp [startSimulation.tick, SimHelper.updateCurrentDoses, startSimulation.checkDrReleased,
    SimHelper.checkMaxAchieved, SimHelper.useFixedPrecision, SimHelper.updateCache,
    SimHelper.checkFullyAbsorbed, SimHelper.checkTmaxState, SimHelper.isMinDose,
    computeDrugContent, OneComp.computeDrugContent, Dose.toDefaultFactor,
    simOf, ivDrug, DrugInfo.init, SimulationInfo.init, State.init,
    fdiv_of_ne _ h10, fdiv_of_ne _ h1, except_ok_bind, except_pure, hc]

/-! ## Metabolite content -/

/-- C11 as stated fails: with bioavailability one half (10 mg, `activeFrac = 1/2`,
rates 3, 2, 1, `t = 1`) `TwoComp.computeMetaboliteContent` does not return
`dose * activeFrac * ka * ke * S`. -/
theorem twoComp_computeMetaboliteContent_has_bioavailability_factor :
    TwoComp.computeMetaboliteContent Real.exp (prodrugDrug 3 2 1 : DrugInfo ℝ) 1 ≠
      Except.ok (10 * (1 / 2) * 3 * 2 *
        (Real.exp (-3 * 1) / ((2 - 3) * (1 - 3)) + Real.exp (-2 * 1) / ((3 - 2) * (1 - 2)) +
          Real.exp (-1 * 1) / ((3 - 1) * (2 - 1)))) := by
  rw [twoComp_metabolite_value (prodrugDrug 3 2 1) 1 1 (1 / 2) rfl rfl
    (by norm_num [prodrugDrug]) (by norm_num [prodrugDrug]) (by norm_num [prodrugDrug])]
  intro h
  have h' := Except.ok.inj h
  have hp := bateman_sum_pos
  simp only [prodrugDrug, DrugInfo.init] at h'
  nlinarith

/-- C11 (amended): for a prodrug profile (`activeKe = km`, `activeFrac = f` set)
with pairwise distinct `ka`, `ke`, `km` and every `t`,
`TwoComp.computeMetaboliteContent` returns
`dose * activeFrac * bioavailability * (ka * ke) * S`, where `S` is the sum
over `r` in `ka, ke, km` of `exp(-r*t)` divided by the product of `r' - r` over
the two other rate constants `r'`. -/
theorem twoComp_computeMetaboliteContent_bateman (drug : DrugInfo ℝ) (t km f : ℝ)
    (hkm : drug.activeKe = some km) (hf : drug.activeFrac = some f)
    (h1 : drug.ka ≠ drug.ke) (h2 : drug.ka ≠ km) (h3 : drug.ke ≠ km) :
    TwoComp.computeMetaboliteContent Real.exp drug t =
      Except.ok (drug.dose * f * drug.bioavailability * (drug.ka * drug.ke) *
        (Real.exp (-drug.ka * t) / ((drug.ke - drug.ka) * (km - drug.ka)) +
         Real.exp (-drug.ke * t) / ((drug.ka - drug.ke) * (km - drug.ke)) +
         Real.exp (-km * t) / ((drug.ka - km) * (drug.ke - km)))) :=
  twoComp_metabolite_value drug t km f hkm hf h1 h2 h3

/-- C11 (amended) at the prodrug profile with rates 3, 2, 1 and `t = 1`. -/
theorem twoComp_computeMetaboliteContent_bateman_witness :
    ((3 : ℝ) ≠ 2 ∧ (3 : ℝ) ≠ 1 ∧ (2 : ℝ) ≠ 1) ∧
    TwoComp.computeMetaboliteContent Real.exp (prodrugDrug 3 2 1 : DrugInfo ℝ) 1 =
      Except.ok (10 * (1 / 2) * (1 / 2) * (3 * 2) *
        (Real.exp (-3 * 1) / ((2 - 3) * (1 - 3)) + Real.exp (-2 * 1) / ((3 - 2) * (1 - 2)) +
          Real.exp (-1 * 1) / ((3 - 1) * (2 - 1)))) :=
  ⟨⟨by norm_num, by norm_num, by norm_num⟩,
    twoComp_computeMetaboliteContent_bateman (prodrugDrug 3 2 1) 1 1 (1 / 2) rfl rfl
      (by norm_num [prodrugDrug]) (by norm_num [prodrugDrug]) (by norm_num [prodrugDrug])⟩

/-- C12: for a prodrug profile (`activeKe = km`, `activeFrac = f` set), the
metabolite content at `t = 0` is `0`: for `TwoComp.computeMetaboliteContent`
when `ka`, `ke`, `km` are pairwise distinct, and for
`OneComp.computeMetaboliteContent` when `ke ≠ km`. -/
theorem computeMetaboliteContent_at_zero (drug : DrugInfo ℝ) (km f : ℝ)
    (hkm : drug.activeKe = some km) (hf : drug.activeFrac = some f) :
    (drug.ka ≠ drug.ke → drug.ka ≠ km → drug.ke ≠ km →
      TwoComp.computeMetaboliteContent Real.exp drug 0 = Except.ok 0) ∧
    (drug.ke ≠ km → OneComp.computeMetaboliteContent Real.exp drug 0 = Except.ok 0) := by
  constructor
  · intro h1 h2 h3
    rw [twoComp_metabolite_value drug 0 km f hkm hf h1 h2 h3]
    have d1 : drug.ke - drug.ka ≠ 0 := sub_ne_zero.mpr (Ne.symm h1)
    have d2 : km - drug.ka ≠ 0 := sub_ne_zero.mpr (Ne.symm h2)
    have d3 : drug.ka - drug.ke ≠ 0 := sub_ne_zero.mpr h1
    have d4 : km - drug.ke ≠ 0 := sub_ne_zero.mpr (Ne.symm h3)
    have d5 : drug.ka - km ≠ 0 := sub_ne_zero.mpr h2
    have d6 : drug.ke - km ≠ 0 := sub_ne_zero.mpr h3
    congr 1
    simp only [mul_zero, Real.exp_zero]
    have : 1 / ((drug.ke - drug.ka) * (km - drug.ka)) +
        1 / ((drug.ka - drug.ke) * (km - drug.ke)) +
        1 / ((drug.ka - km) * (drug.ke - km)) = 0 := by
      field_simp
      ring
    rw [this, mul_zero]
  · intro h3
    have d4 : km - drug.ke ≠ 0 := sub_ne_zero.mpr (Ne.symm h3)
    have d6 : drug.ke - km ≠ 0 := sub_ne_zero.mpr h3
    have h36 : (3600 : ℝ) ≠ 0 := by norm_num
    simp only [OneComp.computeMetaboliteContent, hkm, hf, optValue, optDeref, except_ok_bind,
      fdiv_of_ne _ d4, fdiv_of_ne _ d6, fdiv_of_ne _ h36, mul_zero, Real.exp_zero,
      Option.isNone_some, Bool.false_eq_true, if_false]
    congr 1
    have : 1 / (km - drug.ke) + 1 / (drug.ke - km) = 0 := by
      field_simp
    rw [this, mul_zero, zero_div]

/-- C12 at the prodrug profile with rates 3, 2, 1. -/
theorem computeMetaboliteContent_at_zero_witness :
    TwoComp.computeMetaboliteContent Real.exp (prodrugDrug 3 2 1 : DrugInfo ℝ) 0 =
        Except.ok 0 ∧
    OneComp.computeMetaboliteContent Real.exp (prodrugDrug 3 2 1 : DrugInfo ℝ) 0 =
        Except.ok 0 :=
  ⟨(computeMetaboliteContent_at_zero (prodrugDrug 3 2 1) 1 (1 / 2) rfl rfl).1
      (by norm_num [prodrugDrug]) (by norm_num [prodrugDrug]) (by norm_num [prodrugDrug]),
    (computeMetaboliteContent_at_zero (prodrugDrug 3 2 1) 1 (1 / 2) rfl rfl).2
      (by norm_num [prodrugDrug])⟩

/-! ## Set-up of the rate constants -/

/-- C13, the code at a failing input: for the prodrug profile with
`ka = 1.00001`, `ke = 1`, `km = 1` (all positive), `validateInit` returns with
`ke = 1` and `km = ka = 1.00001`: the multiplication of `km` by `EPSILON_MULT`
that separates it from `ke` makes it equal to `ka`. -/
theorem validateInit_leaves_ka_equal_km :
    ∃ sim' : SimulationInfo ℝ,
      SimHelper.validateInit Real.log 0 0
        (simOf (prodrugDrug (100001 / 100000) 1 1) COMP_MODEL.TWO_COMP_MODEL) =
          Except.ok sim' ∧
      sim'.drugInfo.ka = 100001 / 100000 ∧ sim'.drugInfo.ke = 1 ∧
      sim'.drugInfo.activeKe = some sim'.drugInfo.ka := by
  have hff : SimHelper.validateInit.flipFlop
      (simOf (prodrugDrug (100001 / 100000) 1 1) COMP_MODEL.TWO_COMP_MODEL :
        SimulationInfo ℝ) =
      simOf (prodrugDrug (100001 / 100000) 1 1) COMP_MODEL.TWO_COMP_MODEL :=
    flipFlop_id _ (by norm_num [simOf, prodrugDrug])
  have hpd := prodrug_bump_km
    (simOf (prodrugDrug (100001 / 100000) 1 1) COMP_MODEL.TWO_COMP_MODEL : SimulationInfo ℝ) 1
    rfl rfl (by norm_num [simOf, prodrugDrug]) rfl
  obtain ⟨sim', h, hka, hke, hkm⟩ := validateInit_rates 0 0
    (simOf (prodrugDrug (100001 / 100000) 1 1) COMP_MODEL.TWO_COMP_MODEL) _
    (by rw [hff]; exact hpd) (fun _ => by norm_num [simOf, prodrugDrug])
  have eka : sim'.drugInfo.ka = 100001 / 100000 := by
    rw [hka]; simp [simOf, prodrugDrug]
  refine ⟨sim', h, eka, ?_, ?_⟩
  · rw [hke]; simp [simOf, prodrugDrug]
  · rw [hkm, eka]; simp [simOf, prodrugDrug, EPSILON_MULT]

/-- C14: for a profile with `0 < ka < ke` on entry (whose `activeKe` is set if
it is a prodrug), `validateInit` returns with `ka` and `ke` exchanged; for a
non-prodrug profile that does not satisfy `0 < ka < ke`, every simulation
returned by `validateInit` has `ka` and `ke` unchanged, and `validateInit`
returns whenever the route is intravenous or both constants are positive. -/
theorem validateInit_flip_flop (sim : SimulationInfo ℝ) (now1 now2 : ℝ) :
    (0 < sim.drugInfo.ka → sim.drugInfo.ka < sim.drugInfo.ke →
      (sim.drugInfo.isProdrug = true → sim.drugInfo.activeKe ≠ none) →
      ∃ sim', SimHelper.validateInit Real.log now1 now2 sim = Except.ok sim' ∧
        sim'.drugInfo.ka = sim.drugInfo.ke ∧ sim'.drugInfo.ke = sim.drugInfo.ka) ∧
    (sim.drugInfo.isProdrug = false →
      ¬ (0 < sim.drugInfo.ka ∧ sim.drugInfo.ka < sim.drugInfo.ke) →
      (∀ sim', SimHelper.validateInit Real.log now1 now2 sim = Except.ok sim' →
        sim'.drugInfo.ka = sim.drugInfo.ka ∧ sim'.drugInfo.ke = sim.drugInfo.ke) ∧
      (sim.drugInfo.roa = ROA_TYPE.ROA_TYPE_IV ∨
          (0 < sim.drugInfo.ka ∧ 0 < sim.drugInfo.ke) →
        ∃ sim', SimHelper.validateInit Real.log now1 now2 sim = Except.ok sim')) := by
  constructor
  · intro h1 h2 hkm
    have hkm' : ∃ km, (SimHelper.validateInit.flipFlop sim).drugInfo.isProdrug = true →
        (SimHelper.validateInit.flipFlop sim).drugInfo.activeKe = some km := by
      rw [flipFlop_swap sim h1 h2]
      cases hk : sim.drugInfo.activeKe with
      | none =>
        refine ⟨0, fun hp => ?_⟩
        exact absurd hk (hkm hp)
      | some km => exact ⟨km, fun _ => rfl⟩
    obtain ⟨km, hkm'⟩ := hkm'
    obtain ⟨s2, hs2, e1, e2, e3⟩ :=
      prodrug_rates_of_ne (SimHelper.validateInit.flipFlop sim) km hkm'
        (by rw [flipFlop_swap sim h1 h2]; exact h2.ne')
    rw [flipFlop_swap sim h1 h2] at e1 e2 e3
    simp only at e1 e2 e3
    obtain ⟨sim', h, hka, hke, _⟩ := validateInit_rates now1 now2 sim s2 hs2
      (fun _ => by rw [e1, e2]; exact ⟨h1.trans h2, h1⟩)
    exact ⟨sim', h, hka.trans e1, hke.trans e2⟩
  · intro hp hnf
    have hs2 : SimHelper.validateInit.prodrug (SimHelper.validateInit.flipFlop sim) =
        Except.ok sim := by
      rw [flipFlop_id sim hnf, prodrug_id sim hp]
    constructor
    · intro sim' h
      obtain ⟨s2, s3, h2, h3, rfl⟩ := (validateInit_eq_ok_iff _ _ _ _ _).mp h
      rw [hs2] at h2
      have := Except.ok.inj h2
      subst this
      have hs := startTime_drugInfo now1 now2 (SimHelper.validateInit.minDisplay s3)
      have hr := peak_rates Real.log _ s3 h3
      rw [minDisplay_drugInfo] at hs
      exact ⟨hs.1.trans hr.1, hs.2.1.trans hr.2.1⟩
    · intro hroa
      obtain ⟨sim', h, _⟩ := validateInit_rates now1 now2 sim sim hs2
        (fun hr => by
          rcases hroa with h | h
          · exact absurd h hr
          · exact h)
      exact ⟨sim', h⟩

/-- C14 at the oral profile with `ka = 1 < ke = 2`: the constants are exchanged. -/
theorem validateInit_flip_flop_witness :
    ((0 : ℝ) < 1 ∧ (1 : ℝ) < 2) ∧
    ∃ sim' : SimulationInfo ℝ,
      SimHelper.validateInit Real.log 0 0
        (simOf (oralDrug 1 2) COMP_MODEL.TWO_COMP_MODEL) = Except.ok sim' ∧
      sim'.drugInfo.ka = 2 ∧ sim'.drugInfo.ke = 1 :=
  ⟨⟨by norm_num, by norm_num⟩,
    (validateInit_flip_flop (simOf (oralDrug 1 2) COMP_MODEL.TWO_COMP_MODEL) 0 0).1
      (by norm_num [simOf, oralDrug]) (by norm_num [simOf, oralDrug])
      (fun h => by simp [simOf, oralDrug, DrugInfo.init] at h)⟩

/-! ## Termination -/

/-- C15 as stated fails: for the non-prodrug simulation with content 0.7 mg
(displayed 0.7), minimum allowed dose 1 mg and display threshold 0.5,
`isMinDose` returns true although the content is not below both thresholds. -/
theorem isMinDose_true_below_one_threshold :
    SimHelper.isMinDose (minDoseSim : SimulationInfo ℝ) = Except.ok true ∧
    ¬ ((minDoseSim : SimulationInfo ℝ).state.drugContent <
          (minDoseSim : SimulationInfo ℝ).minDoseAllowed ∧
        (minDoseSim : SimulationInfo ℝ).state.doseAsUnit <
          (minDoseSim : SimulationInfo ℝ).state.minDisplayDose) := by
  constructor
  · simp [SimHelper.isMinDose, minDoseSim, simOf, State.init, ivDrug, DrugInfo.init,
      except_pure]
    norm_num
  · simp [minDoseSim, State.init]
    norm_num

/-- C15 (amended): `isMinDose` returns true exactly when the parent drug
satisfies `drugContent < minDoseAllowed` or `doseAsUnit < minDisplayDose` and,
if the profile is a prodrug, the metabolite satisfies
`activeDrugContent < minDoseAllowed` or `activeDoseAsUnit < minDisplayDose`;
a tick breaks the loop exactly when afterwards `fullyAbsorbed` is true and
`isMinDose` is true. -/
theorem isMinDose_iff_and_loop_break (sim : SimulationInfo ℝ)
    (hp : sim.drugInfo.isProdrug = true →
      ∃ a u, sim.state.activeDrugContent = some a ∧ sim.state.activeDoseAsUnit = some u) :
    (∃ b, SimHelper.isMinDose sim = Except.ok b ∧
      (b = true ↔
        (sim.state.drugContent < sim.minDoseAllowed ∨
          sim.state.doseAsUnit < sim.state.minDisplayDose) ∧
        (sim.drugInfo.isProdrug = true →
          ∀ a u, sim.state.activeDrugContent = some a → sim.state.activeDoseAsUnit = some u →
            (a < sim.minDoseAllowed ∨ u < sim.state.minDisplayDose)))) ∧
    ∀ (start : SimulationInfo ℝ) (elapsed : ℝ) (stop : Bool),
      startSimulation.tick Real.exp start elapsed = Except.ok (sim, stop) →
      (stop = true ↔
        sim.state.fullyAbsorbed = true ∧ SimHelper.isMinDose sim = Except.ok true) := by
  constructor
  · by_cases hpar : sim.state.drugContent < sim.minDoseAllowed ∨
        sim.state.doseAsUnit < sim.state.minDisplayDose
    · have hdec : (decide (sim.state.drugContent < sim.minDoseAllowed) ||
          decide (sim.state.doseAsUnit < sim.state.minDisplayDose)) = true := by
        simpa using hpar
      by_cases hpd : sim.drugInfo.isProdrug = true
      · obtain ⟨a, u, ha, hu⟩ := hp hpd
        refine ⟨decide (a < sim.minDoseAllowed) || decide (u < sim.state.minDisplayDose),
          ?_, ?_⟩
        · simp [SimHelper.isMinDose, hdec, hpd, ha, hu, optValue, optDeref,
            except_ok_bind, except_pure]
        · simp [hpar, hpd, ha, hu]
      · refine ⟨true, ?_, ?_⟩
        · simp [SimHelper.isMinDose, hdec, hpd, except_pure]
        · simp [hpar, hpd]
    · refine ⟨false, ?_, ?_⟩
      · have hdec : (decide (sim.state.drugContent < sim.minDoseAllowed) ||
            decide (sim.state.doseAsUnit < sim.state.minDisplayDose)) = false := by
          simpa using hpar
        simp [SimHelper.isMinDose, hdec, except_pure]
      · simp [hpar]
  · intro start elapsed stop h
    obtain ⟨_, _, _, _, _, _, _, _, _, _, _, hb⟩ := (tick_eq_ok_iff _ _ _ _ _).mp h
    by_cases hfa : sim.state.fullyAbsorbed = true
    · rw [if_pos hfa] at hb
      rw [hb]
      simp [hfa]
    · rw [if_neg hfa] at hb
      have := Except.ok.inj hb
      simp [hfa, ← this]

/-- C15 (amended) at the simulation with content 0.7 mg and minimum allowed
dose 1 mg: `isMinDose` is true. -/
theorem isMinDose_iff_and_loop_break_witness :
    ∃ b, SimHelper.isMinDose (minDoseSim : SimulationInfo ℝ) = Except.ok b ∧
      (b = true ↔
        ((minDoseSim : SimulationInfo ℝ).state.drugContent <
            (minDoseSim : SimulationInfo ℝ).minDoseAllowed ∨
          (minDoseSim : SimulationInfo ℝ).state.doseAsUnit <
            (minDoseSim : SimulationInfo ℝ).state.minDisplayDose) ∧
        ((minDoseSim : SimulationInfo ℝ).drugInfo.isProdrug = true →
          ∀ a u, (minDoseSim : SimulationInfo ℝ).state.activeDrugContent = some a →
            (minDoseSim : SimulationInfo ℝ).state.activeDoseAsUnit = some u →
            (a < (minDoseSim : SimulationInfo ℝ).minDoseAllowed ∨
              u < (minDoseSim : SimulationInfo ℝ).state.minDisplayDose))) :=
  (isMinDose_iff_and_loop_break minDoseSim
    (fun h => by simp [minDoseSim, simOf, ivDrug, DrugInfo.init] at h)).1

/-! ## Adaptive unit and precision -/

/-- C16: a call of `useFixedPrecision` (on a simulation whose displayed value
exists) returns; if it changed `state.doseUnit`, the unit moved one tier down
(gram to mg, mg to microgram, microgram to nanogram, liter to milliliter),
`state.prec` decreased by 3 and the displayed value was multiplied by 1000; if
it did not change the unit, `state.prec` and the displayed value are unchanged. -/
theorem useFixedPrecision_downshift (sim : SimulationInfo ℝ)
    (hp : sim.drugInfo.isProdrug = true → ∃ u, sim.state.activeDoseAsUnit = some u) :
    ∃ sim', SimHelper.useFixedPrecision sim = Except.ok sim' ∧
      (sim'.state.doseUnit ≠ sim.state.doseUnit →
        (sim.state.doseUnit, sim'.state.doseUnit) ∈
          [(DOSE_UNIT.DOSE_UNIT_GRAM, DOSE_UNIT.DOSE_UNIT_MG),
            (DOSE_UNIT.DOSE_UNIT_MG, DOSE_UNIT.DOSE_UNIT_MICROGRAM),
            (DOSE_UNIT.DOSE_UNIT_MICROGRAM, DOSE_UNIT.DOSE_UNIT_NANOGRAM),
            (DOSE_UNIT.DOSE_UNIT_L, DOSE_UNIT.DOSE_UNIT_ML)] ∧
        sim'.state.prec = sim.state.prec - 3 ∧
        SimHelper.displayedValue sim' =
          (SimHelper.displayedValue sim).map (fun v => v * 1000)) ∧
      (sim'.state.doseUnit = sim.state.doseUnit →
        sim'.state.prec = sim.state.prec ∧
        SimHelper.displayedValue sim' = SimHelper.displayedValue sim) := by
  obtain ⟨sim', h⟩ := useFixedPrecision_ok sim hp
  refine ⟨sim', h, ?_, ?_⟩
  · intro hne
    rcases useFixedPrecision_cases sim sim' h with rfl | ⟨unit, v, hn, hv, _, _, _, _, _, rfl⟩
    · exact absurd rfl hne
    · obtain ⟨e1, e2, _, _, _, e6⟩ := shifted_state sim unit v
      rw [e1, e2, e6, hv]
      exact ⟨(nextUnit_pairs _ _ hn).1, rfl, rfl⟩
  · intro he
    rcases useFixedPrecision_cases sim sim' h with rfl | ⟨unit, v, hn, hv, _, _, _, _, _, rfl⟩
    · exact ⟨rfl, rfl⟩
    · obtain ⟨e1, _⟩ := shifted_state sim unit v
      rw [e1] at he
      exact absurd he (nextUnit_pairs _ _ hn).2

/-- C16 at the simulation displayed as 0.5 g with precision 3: the unit
becomes mg, the precision 0 and the displayed value 500. -/
theorem useFixedPrecision_downshift_witness :
    ∃ sim' : SimulationInfo ℝ, SimHelper.useFixedPrecision gramSim = Except.ok sim' ∧
      sim'.state.doseUnit = DOSE_UNIT.DOSE_UNIT_MG ∧ sim'.state.prec = 0 ∧
      SimHelper.displayedValue sim' = some 500 := by
  obtain ⟨sim', h, hchg, _⟩ := useFixedPrecision_downshift (gramSim : SimulationInfo ℝ)
    (fun h => by simp [gramSim, simOf, oralDrug, DrugInfo.init] at h)
  have hs : SimHelper.useFixedPrecision (gramSim : SimulationInfo ℝ) =
      Except.ok (SimHelper.useFixedPrecision.shifted gramSim DOSE_UNIT.DOSE_UNIT_MG (1 / 2)) := by
    simp [SimHelper.useFixedPrecision, SimHelper.useFixedPrecision.shifted,
      SimHelper.useFixedPrecision.nextUnit, gramSim, simOf,
      SimulationInfo.init, State.init, oralDrug, DrugInfo.init, except_pure, except_ok_bind]
    norm_num
  have e : sim' = SimHelper.useFixedPrecision.shifted gramSim DOSE_UNIT.DOSE_UNIT_MG (1 / 2) :=
    Except.ok.inj (h.symm.trans hs)
  have hu : sim'.state.doseUnit = DOSE_UNIT.DOSE_UNIT_MG := by rw [e]; rfl
  obtain ⟨_, hprec, hdisp⟩ := hchg (by rw [hu]; simp [gramSim])
  refine ⟨sim', h, hu, ?_, ?_⟩
  · rw [hprec]; simp [gramSim]
  · rw [hdisp]; simp [SimHelper.displayedValue, gramSim, simOf, oralDrug, DrugInfo.init,
      State.init]
    norm_num

/-- C17 as stated fails: for the simulation displayed as 0.5 g with precision 3
and `hasTmaxed = false`, `useFixedPrecision` changes the unit to mg, the
precision to 0 and the displayed value to 500. -/
theorem useFixedPrecision_shifts_gram_before_peak :
    (gramSim : SimulationInfo ℝ).state.hasTmaxed = false ∧
    (gramSim : SimulationInfo ℝ).state.doseUnit = DOSE_UNIT.DOSE_UNIT_GRAM ∧
    (gramSim : SimulationInfo ℝ).state.prec = 3 ∧
    (gramSim : SimulationInfo ℝ).state.doseAsUnit = 1 / 2 ∧
    ∃ sim' : SimulationInfo ℝ, SimHelper.useFixedPrecision gramSim = Except.ok sim' ∧
      sim'.state.doseUnit = DOSE_UNIT.DOSE_UNIT_MG ∧ sim'.state.prec = 0 ∧
      sim'.state.doseAsUnit = 500 := by
  refine ⟨rfl, rfl, rfl, rfl,
    SimHelper.useFixedPrecision.shifted gramSim DOSE_UNIT.DOSE_UNIT_MG (1 / 2), ?_, rfl, ?_, ?_⟩
  · simp [SimHelper.useFixedPrecision, SimHelper.useFixedPrecision.shifted,
      SimHelper.useFixedPrecision.nextUnit, gramSim, simOf,
      SimulationInfo.init, State.init, oralDrug, DrugInfo.init, except_pure, except_ok_bind]
    norm_num
  · simp [SimHelper.useFixedPrecision.shifted, gramSim]
  · simp [SimHelper.useFixedPrecision.shifted, gramSim, simOf, oralDrug, DrugInfo.init]
    norm_num

/-- C17 (amended): a call of `useFixedPrecision` (on a simulation whose
displayed value exists) returns, and it changes the unit or the precision only
if dose units are enabled, no sigfigs override is set, `state.prec ≥ 3`, the
displayed value is below 1, and the drug has reached its peak or the unit is
gram; in particular, for a state with `hasTmaxed = false` whose unit is not
gram the call leaves `doseUnit`, `prec` and the displayed value unchanged. -/
theorem useFixedPrecision_trigger (sim : SimulationInfo ℝ)
    (hp : sim.drugInfo.isProdrug = true → ∃ u, sim.state.activeDoseAsUnit = some u) :
    ∃ sim', SimHelper.useFixedPrecision sim = Except.ok sim' ∧
      ((sim'.state.doseUnit ≠ sim.state.doseUnit ∨ sim'.state.prec ≠ sim.state.prec) →
        sim.doseUnitsEnabled = true ∧ sim.sigfigs = none ∧ 3 ≤ sim.state.prec ∧
        (∃ v, SimHelper.displayedValue sim = some v ∧ v < 1) ∧
        (sim.state.hasTmaxed = true ∨ sim.state.doseUnit = DOSE_UNIT.DOSE_UNIT_GRAM)) ∧
      (sim.state.hasTmaxed = false → sim.state.doseUnit ≠ DOSE_UNIT.DOSE_UNIT_GRAM →
        sim'.state.doseUnit = sim.state.doseUnit ∧ sim'.state.prec = sim.state.prec ∧
        SimHelper.displayedValue sim' = SimHelper.displayedValue sim) := by
  obtain ⟨sim', h⟩ := useFixedPrecision_ok sim hp
  refine ⟨sim', h, ?_, ?_⟩
  · intro hchg
    rcases useFixedPrecision_cases sim sim' h with
      rfl | ⟨unit, v, _, hv, h1, h2, h3, h4, h5, _⟩
    · rcases hchg with hc | hc <;> exact absurd rfl hc
    · exact ⟨h1, h2, h3, ⟨v, hv, h4⟩, h5⟩
  · intro ht hg
    rcases useFixedPrecision_cases sim sim' h with
      rfl | ⟨unit, v, _, _, _, _, _, _, h5, _⟩
    · exact ⟨rfl, rfl, rfl⟩
    · rcases h5 with h5 | h5
      · rw [ht] at h5
        exact absurd h5 (by decide)
      · exact absurd h5 hg

/-- C17 (amended) at the simulation of C17 with the unit mg in place of gram:
before the peak nothing is changed. -/
theorem useFixedPrecision_trigger_witness :
    ∃ sim' : SimulationInfo ℝ,
      SimHelper.useFixedPrecision
        { (gramSim : SimulationInfo ℝ) with
          state := { (gramSim : SimulationInfo ℝ).state with
            doseUnit := DOSE_UNIT.DOSE_UNIT_MG } } = Except.ok sim' ∧
      sim'.state.doseUnit = DOSE_UNIT.DOSE_UNIT_MG ∧ sim'.state.prec = 3 := by
  obtain ⟨sim', h, _, hkeep⟩ := useFixedPrecision_trigger
    { (gramSim : SimulationInfo ℝ) with
      state := { (gramSim : SimulationInfo ℝ).state with
        doseUnit := DOSE_UNIT.DOSE_UNIT_MG } }
    (fun h => by simp [gramSim, simOf, oralDrug, DrugInfo.init] at h)
  obtain ⟨h1, h2, _⟩ := hkeep rfl (by decide)
  exact ⟨sim', h, h1, h2⟩

/-- C18: along any run of `useFixedPrecision` calls started from `s0` (each
step: arbitrary updates that keep unit and precision, then a call), every
later unit is `s0`'s unit or a unit below it in the tier order
gram > mg > microgram > nanogram, liter > milliliter; each step keeps the unit
or moves it one tier down and never increases `state.prec`; nanogram and
milliliter are never left; the unit changes at most 3 times and leaves each
unit at most once; and `state.prec` stays non-negative if it starts so. -/
theorem useFixedPrecision_run_monotone (s0 : SimulationInfo ℝ)
    (run : List (SimulationInfo ℝ)) (h : List.Chain FixedPrecisionStep s0 run) :
    (∀ s ∈ run, s.state.doseUnit ∈ SimHelper.useFixedPrecision.tiersFrom s0.state.doseUnit ∧
      s.state.prec ≤ s0.state.prec ∧ (0 ≤ s0.state.prec → 0 ≤ s.state.prec)) ∧
    List.Chain
      (fun a b : SimulationInfo ℝ =>
        UnitDown a.state.doseUnit b.state.doseUnit ∧ b.state.prec ≤ a.state.prec ∧
        (a.state.doseUnit = DOSE_UNIT.DOSE_UNIT_NANOGRAM →
          b.state.doseUnit = DOSE_UNIT.DOSE_UNIT_NANOGRAM) ∧
        (a.state.doseUnit = DOSE_UNIT.DOSE_UNIT_ML →
          b.state.doseUnit = DOSE_UNIT.DOSE_UNIT_ML)) s0 run ∧
    unitChanges ((s0 :: run).map (fun s => s.state.doseUnit)) ≤ 3 ∧
    ∀ u, unitDepartures u ((s0 :: run).map (fun s => s.state.doseUnit)) ≤ 1 := by
  have hu := units_chain run s0 h
  refine ⟨?_, ?_, ?_, ?_⟩
  · intro s hs
    obtain ⟨h1, h2⟩ := prec_of_chain run s0 h s hs
    exact ⟨tiersFrom_of_chain _ _ hu _ (List.mem_map_of_mem _ hs), h1, h2⟩
  · refine List.Chain.imp ?_ h
    intro a b hab
    obtain ⟨h1, h2, _⟩ := fixedPrecisionStep_facts a b hab
    exact ⟨h1, h2, (unitDown_floor _ _ h1).1, (unitDown_floor _ _ h1).2⟩
  · exact (unitChanges_le_tier _ _ hu).trans (tier_le_three _)
  · intro u
    refine (unitDepartures_le u _ _ hu).trans ?_
    split_ifs <;> omega

/-- C18 at the run of one call from the simulation displayed as 0.5 g: the
unit moves to mg. -/
theorem useFixedPrecision_run_monotone_witness :
    List.Chain FixedPrecisionStep (gramSim : SimulationInfo ℝ)
      [SimHelper.useFixedPrecision.shifted gramSim DOSE_UNIT.DOSE_UNIT_MG (1 / 2)] ∧
    unitChanges ((gramSim :: [SimHelper.useFixedPrecision.shifted (gramSim : SimulationInfo ℝ)
      DOSE_UNIT.DOSE_UNIT_MG (1 / 2)]).map (fun s => s.state.doseUnit)) ≤ 3 := by
  have hstep : List.Chain FixedPrecisionStep (gramSim : SimulationInfo ℝ)
      [SimHelper.useFixedPrecision.shifted gramSim DOSE_UNIT.DOSE_UNIT_MG (1 / 2)] := by
    refine List.Chain.cons ⟨gramSim, rfl, rfl, ?_⟩ List.Chain.nil
    simp [SimHelper.useFixedPrecision, SimHelper.useFixedPrecision.shifted,
      SimHelper.useFixedPrecision.nextUnit, gramSim, simOf,
      SimulationInfo.init, State.init, oralDrug, DrugInfo.init, except_pure, except_ok_bind]
    norm_num
  exact ⟨hstep, (useFixedPrecision_run_monotone gramSim _ hstep).2.2.1⟩

/-! ## Running maximum -/

/-- C19: `checkMaxAchieved` leaves `state.maxAchieved` equal to the maximum of
its previous value and the tracked content (`drugContent`, or
`activeDrugContent` for a prodrug) and changes nothing else; and along any
sequence of ticks started from `s0`, `maxAchieved` never decreases from one
tick to the next nor falls below its value in `s0`. -/
theorem checkMaxAchieved_running_max (sim : SimulationInfo ℝ) (c : ℝ)
    (hc : SimHelper.trackedContent sim = some c) :
    SimHelper.checkMaxAchieved sim = Except.ok
      { sim with state := { sim.state with maxAchieved := max sim.state.maxAchieved c } } ∧
    ∀ (s0 : SimulationInfo ℝ) (run : List (SimulationInfo ℝ)),
      List.Chain (TickStep Real.exp) s0 run →
      List.Chain (fun a b : SimulationInfo ℝ => a.state.maxAchieved ≤ b.state.maxAchieved)
        s0 run ∧
      ∀ s ∈ run, s0.state.maxAchieved ≤ s.state.maxAchieved := by
  refine ⟨checkMaxAchieved_value sim c hc, ?_⟩
  intro s0 run hrun
  have hmono : List.Chain
      (fun a b : SimulationInfo ℝ => a.state.maxAchieved ≤ b.state.maxAchieved) s0 run := by
    refine List.Chain.imp ?_ hrun
    rintro a b ⟨elapsed, stop, h⟩
    exact (tick_frame Real.exp a b elapsed stop h).1
  refine ⟨hmono, ?_⟩
  clear hrun
  induction run generalizing s0 with
  | nil => intro s hs; simp at hs
  | cons b rest ih =>
    intro s hs
    rw [List.chain_cons] at hmono
    rcases List.mem_cons.mp hs with rfl | hs
    · exact hmono.1
    · exact hmono.1.trans (ih b hmono.2 s hs)

/-- C19 at the simulation with content 0.7 mg and `maxAchieved = 0`, and along
the one-tick run of the intravenous simulation. -/
theorem checkMaxAchieved_running_max_witness :
    SimHelper.checkMaxAchieved (minDoseSim : SimulationInfo ℝ) = Except.ok
      { (minDoseSim : SimulationInfo ℝ) with
        state := { (minDoseSim : SimulationInfo ℝ).state with
          maxAchieved := max (minDoseSim : SimulationInfo ℝ).state.maxAchieved (7 / 10) } } ∧
    ∃ s : SimulationInfo ℝ,
      TickStep Real.exp (simOf (ivDrug 1) COMP_MODEL.ONE_COMP_MODEL) s ∧
      (simOf (ivDrug 1) COMP_MODEL.ONE_COMP_MODEL : SimulationInfo ℝ).state.maxAchieved ≤
        s.state.maxAchieved := by
  obtain ⟨r, hr⟩ := tick_iv_returns
  have hstep : TickStep Real.exp
      (simOf (ivDrug 1) COMP_MODEL.ONE_COMP_MODEL : SimulationInfo ℝ) r.1 := ⟨0, r.2, hr⟩
  have h := checkMaxAchieved_running_max (minDoseSim : SimulationInfo ℝ) (7 / 10) rfl
  exact ⟨h.1, r.1, hstep,
    (h.2 _ [r.1] (List.Chain.cons hstep List.Chain.nil)).2 r.1 (List.mem_singleton_self _)⟩

/-! ## One-way flags -/

/-- C20: `fullyAbsorbed` is a one-way latch: if it is true, it is still true
after `checkFullyAbsorbed` and after one full tick, for every elapsed time;
`checkTmaxState` keeps a true `hasTmaxed` and a true `hasDrTmaxed`, and it
returns whenever the release lag of a delayed-release profile is set. -/
theorem fullyAbsorbed_one_way (sim : SimulationInfo ℝ) (elapsed : ℝ) :
    (sim.state.fullyAbsorbed = true →
      (SimHelper.checkFullyAbsorbed Real.exp sim).state.fullyAbsorbed = true ∧
      ∀ sim' stop, startSimulation.tick Real.exp sim elapsed = Except.ok (sim', stop) →
        sim'.state.fullyAbsorbed = true) ∧
    (∀ sim', SimHelper.checkTmaxState sim = Except.ok sim' →
      (sim.state.hasTmaxed = true → sim'.state.hasTmaxed = true) ∧
      (sim.state.hasDrTmaxed = true → sim'.state.hasDrTmaxed = true)) ∧
    ((sim.drugInfo.isDr = true → ∃ lag, sim.drugInfo.drLagtime = some lag) →
      ∃ sim', SimHelper.checkTmaxState sim = Except.ok sim') := by
  refine ⟨fun hfa => ⟨(checkFullyAbsorbed_frame Real.exp sim).2 hfa, ?_⟩, ?_,
    checkTmaxState_ok sim⟩
  · intro sim' stop h
    exact (tick_frame Real.exp sim sim' elapsed stop h).2 hfa
  · intro sim' h
    exact (checkTmaxState_frame sim sim' h).2.2

/-- C20 at the intravenous simulation (100 mg, `Vd = 10`), whose
`fullyAbsorbed` is true: the tick at elapsed time 0 returns and
`fullyAbsorbed` is still true. -/
theorem fullyAbsorbed_one_way_witness :
    ∃ sim' stop,
      startSimulation.tick Real.exp
        (simOf (ivDrug 1) COMP_MODEL.ONE_COMP_MODEL : SimulationInfo ℝ) 0 =
          Except.ok (sim', stop) ∧
      sim'.state.fullyAbsorbed = true := by
  obtain ⟨r, hr⟩ := tick_iv_returns
  exact ⟨r.1, r.2, hr,
    ((fullyAbsorbed_one_way (simOf (ivDrug 1) COMP_MODEL.ONE_COMP_MODEL) 0).1 rfl).2
      r.1 r.2 hr⟩

/-! ## Lemmas on `validateInit`, the display threshold and the time to peak -/

section ValidateInitLemmas

variable {α : Type} [LinearOrderedField α]

/-- The flip-flop block keeps everything but the order of the rate constants,
which stay positive. -/
theorem flipFlop_frame (sim : SimulationInfo α) :
    (SimHelper.validateInit.flipFlop sim).precision = sim.precision ∧
    (SimHelper.validateInit.flipFlop sim).state = sim.state ∧
    (SimHelper.validateInit.flipFlop sim).drugInfo.roa = sim.drugInfo.roa ∧
    (SimHelper.validateInit.flipFlop sim).drugInfo.isProdrug = sim.drugInfo.isProdrug ∧
    (SimHelper.validateInit.flipFlop sim).drugInfo.activeKe = sim.drugInfo.activeKe ∧
    (0 < sim.drugInfo.ka ∧ 0 < sim.drugInfo.ke →
      0 < (SimHelper.validateInit.flipFlop sim).drugInfo.ka ∧
      0 < (SimHelper.validateInit.flipFlop sim).drugInfo.ke) := by
  unfold SimHelper.validateInit.flipFlop
  by_cases hc : sim.drugInfo.ka > 0 ∧ sim.drugInfo.ka < sim.drugInfo.ke
  · rw [if_pos hc]
    exact ⟨rfl, rfl, rfl, rfl, rfl, fun h => ⟨h.2, h.1⟩⟩
  · rw [if_neg hc]
    exact ⟨rfl, rfl, rfl, rfl, rfl, id⟩

/-- The constant `EPSILON_MULT` is positive. -/
theorem epsilon_mult_pos : (0 : α) < EPSILON_MULT := by
  unfold EPSILON_MULT
  positivity

/-- The prodrug block returns when the metabolite rate constant is present; it
keeps the route and the sign of the rate constants. -/
theorem prodrug_ok (sim : SimulationInfo α)
    (hkm : sim.drugInfo.isProdrug = true → ∃ km, sim.drugInfo.activeKe = some km) :
    ∃ s2, SimHelper.validateInit.prodrug sim = Except.ok s2 ∧
      s2.drugInfo.roa = sim.drugInfo.roa ∧
      (0 < sim.drugInfo.ka ∧ 0 < sim.drugInfo.ke →
        0 < s2.drugInfo.ka ∧ 0 < s2.drugInfo.ke) := by
  have hE : (0 : α) < EPSILON_MULT := epsilon_mult_pos
  by_cases hp : sim.drugInfo.isProdrug = true
  · obtain ⟨km, hk⟩ := hkm hp
    unfold SimHelper.validateInit.prodrug
    simp only [hp, if_true, hk, optValue, except_ok_bind, except_pure]
    by_cases hc : sim.drugInfo.ka = sim.drugInfo.ke ∧ sim.drugInfo.ke = km
    · rw [if_pos hc]
      exact ⟨_, rfl, rfl, fun h => ⟨mul_pos h.1 hE, mul_pos h.2 (mul_pos hE hE)⟩⟩
    · rw [if_neg hc]
      refine ⟨_, rfl, rfl, fun h => ⟨h.1, ?_⟩⟩
      dsimp only
      split_ifs
      · exact mul_pos h.2 hE
      · exact h.2
  · refine ⟨sim, ?_, rfl, id⟩
    simp [SimHelper.validateInit.prodrug, hp, except_pure]

/-- The prodrug block keeps the precision and the display threshold. -/
theorem prodrug_display (sim s2 : SimulationInfo α)
    (h : SimHelper.validateInit.prodrug sim = Except.ok s2) :
    s2.precision = sim.precision ∧ s2.state.minDisplayDose = sim.state.minDisplayDose := by
  unfold SimHelper.validateInit.prodrug at h
  by_cases hp : sim.drugInfo.isProdrug = true
  · simp only [hp, if_true, except_bind_eq_ok, except_pure] at h
    obtain ⟨km, _, h⟩ := h
    by_cases hc : sim.drugInfo.ka = sim.drugInfo.ke ∧ sim.drugInfo.ke = km
    · rw [if_pos hc] at h
      rw [← Except.ok.inj h]
      exact ⟨rfl, rfl⟩
    · rw [if_neg hc] at h
      rw [← Except.ok.inj h]
      exact ⟨rfl, rfl⟩
  · simp only [hp, if_false, except_pure] at h
    rw [← Except.ok.inj h]
    exact ⟨rfl, rfl⟩

/-- The peak block keeps the precision and the display threshold. -/
theorem peak_display (log : α → α) (sim s3 : SimulationInfo α)
    (h : SimHelper.validateInit.peak log sim = Except.ok s3) :
    s3.precision = sim.precision ∧ s3.state.minDisplayDose = sim.state.minDisplayDose := by
  unfold SimHelper.validateInit.peak at h
  simp only at h
  split_ifs at h with hr
  · rw [except_bind_eq_ok] at h
    obtain ⟨tm, _, h⟩ := h
    rw [except_pure] at h
    rw [← Except.ok.inj h]
    exact ⟨rfl, rfl⟩
  · rw [except_pure] at h
    rw [← Except.ok.inj h]
    exact ⟨rfl, rfl⟩

/-- The peak block stores the time to peak of the profile it is given. -/
theorem peak_tmax (log : α → α) (sim s3 : SimulationInfo α)
    (h : SimHelper.validateInit.peak log sim = Except.ok s3)
    (hr : sim.drugInfo.roa ≠ ROA_TYPE.ROA_TYPE_IV) :
    TwoComp.computeTmax log sim.drugInfo = Except.ok s3.drugInfo.tmax := by
  unfold SimHelper.validateInit.peak at h
  simp only at h
  rw [if_pos hr, except_bind_eq_ok] at h
  obtain ⟨tm, htm, h⟩ := h
  rw [except_pure] at h
  rw [← Except.ok.inj h]
  exact htm

/-- The start-time block keeps the state. -/
theorem startTime_state (now1 now2 : α) (sim : SimulationInfo α) :
    (SimHelper.validateInit.startTime now1 now2 sim).state = sim.state := by
  unfold SimHelper.validateInit.startTime
  split_ifs <;> rfl

/-- The start-time block keeps the time to peak. -/
theorem startTime_tmax (now1 now2 : α) (sim : SimulationInfo α) :
    (SimHelper.validateInit.startTime now1 now2 sim).drugInfo.tmax = sim.drugInfo.tmax := by
  unfold SimHelper.validateInit.startTime
  split_ifs <;> simp

/-- A downshift divides the factor to the default unit by 1000. -/
theorem nextUnit_factor (u u' : DOSE_UNIT)
    (h : SimHelper.useFixedPrecision.nextUnit u = some u') :
    (1000 : α) * Dose.toDefaultFactor u' = Dose.toDefaultFactor u := by
  revert h
  cases u <;> cases u' <;>
    (simp [SimHelper.useFixedPrecision.nextUnit, Dose.toDefaultFactor]; try norm_num)

/-- The effectiveness written by `updateCurrentDoses` is computed from the
content it has just stored: the metabolite content for a prodrug, the parent
content otherwise. -/
theorem updateCurrentDoses_effectiveness (exp : α → α) (sim sim' : SimulationInfo α)
    (h : SimHelper.updateCurrentDoses exp sim = Except.ok sim')
    (he : sim.ed50Enabled = true) :
    sim'.drugInfo = sim.drugInfo ∧
    ∃ dose, SimHelper.trackedContent sim' = some dose ∧
      PK.computeEffectiveness sim.drugInfo.ed50 dose =
        Except.ok sim'.state.effectiveness := by
  unfold SimHelper.updateCurrentDoses at h
  simp only [except_bind_eq_ok, except_pure] at h
  obtain ⟨f, _, dc, _, st1, h1, st2, h2, st3, h3, h4⟩ := h
  rw [if_pos he] at h2
  simp only [except_bind_eq_ok, except_pure] at h2
  obtain ⟨dose, hd, eff, heff, h2⟩ := h2
  have h2' := Except.ok.inj h2
  -- the excreted block keeps the contents and the effectiveness
  have h3' : st3.drugContent = st2.drugContent ∧
      st3.activeDrugContent = st2.activeDrugContent ∧
      st3.effectiveness = st2.effectiveness := by
    by_cases hx : sim.displayExcreted = true
    · rw [if_pos hx] at h3
      simp only [except_bind_eq_ok, except_pure] at h3
      obtain ⟨x, _, h3⟩ := h3
      rw [← Except.ok.inj h3]
      exact ⟨rfl, rfl, rfl⟩
    · rw [if_neg hx] at h3
      rw [← Except.ok.inj h3]
      exact ⟨rfl, rfl, rfl⟩
  -- so does the area block
  have h4' : sim'.drugInfo = sim.drugInfo ∧ sim'.state.drugContent = st3.drugContent ∧
      sim'.state.activeDrugContent = st3.activeDrugContent ∧
      sim'.state.effectiveness = st3.effectiveness := by
    by_cases ha : (!sim.isAucEnabled) = true
    · rw [if_pos ha] at h4
      rw [← Except.ok.inj h4]
      exact ⟨rfl, rfl, rfl, rfl⟩
    · rw [if_neg ha] at h4
      simp only [except_bind_eq_ok, except_pure] at h4
      obtain ⟨x, _, h4⟩ := h4
      rw [← Except.ok.inj h4]
      exact ⟨rfl, rfl, rfl, rfl⟩
  refine ⟨h4'.1, dose, ?_, ?_⟩
  · unfold SimHelper.trackedContent
    rw [h4'.1, h4'.2.1, h4'.2.2.1, h3'.1, h3'.2.1, ← h2']
    by_cases hp : sim.drugInfo.isProdrug = true
    · rw [if_pos hp] at hd ⊢
      simp only
      cases hs : st1.activeDrugContent with
      | none => rw [hs] at hd; simp [optDeref] at hd
      | some a =>
        rw [hs] at hd
        simp only [optDeref] at hd
        rw [Except.ok.inj hd]
    · rw [if_neg hp] at hd ⊢
      simp only
      rw [Except.ok.inj hd]
  · rw [h4'.2.2.2, h3'.2.2, ← h2']
    exact heff

end ValidateInitLemmas

/-- The time to peak depends on the profile through `ka` and `ke` only. -/
theorem computeTmax_congr (log : ℝ → ℝ) (d1 d2 : DrugInfo ℝ) (h1 : d1.ka = d2.ka)
    (h2 : d1.ke = d2.ke) : TwoComp.computeTmax log d1 = TwoComp.computeTmax log d2 := by
  simp only [TwoComp.computeTmax, h1, h2]

/-- Exchanging the two rate constants keeps the time to peak. -/
theorem computeTmax_swap (drug : DrugInfo ℝ) (hka : 0 < drug.ka) (hke : 0 < drug.ke) :
    TwoComp.computeTmax Real.log { drug with ka := drug.ke, ke := drug.ka } =
      TwoComp.computeTmax Real.log drug := by
  by_cases h : drug.ka = drug.ke
  · simp [TwoComp.computeTmax, h]
  · have h' : ¬ drug.ke = drug.ka := fun e => h e.symm
    simp only [TwoComp.computeTmax, if_neg h, if_neg h', fdiv_of_ne _ hke.ne',
      fdiv_of_ne _ hka.ne', fdiv_of_ne _ (sub_ne_zero.mpr h),
      fdiv_of_ne _ (sub_ne_zero.mpr h'), except_ok_bind,
      flog_of_pos _ (div_pos hka hke), flog_of_pos _ (div_pos hke hka)]
    congr 1
    rw [Real.log_div hke.ne' hka.ne', Real.log_div hka.ne' hke.ne', div_eq_div_iff
      (sub_ne_zero.mpr h') (sub_ne_zero.mpr h)]
    ring

/-- The time to peak of positive rate constants is a positive number. -/
theorem computeTmax_pos (drug : DrugInfo ℝ) (hka : 0 < drug.ka) (hke : 0 < drug.ke) :
    ∃ tm, TwoComp.computeTmax Real.log drug = Except.ok tm ∧ 0 < tm := by
  by_cases h : drug.ka = drug.ke
  · refine ⟨1 / drug.ka, ?_, by positivity⟩
    simp [TwoComp.computeTmax, h, fdiv_of_ne _ hke.ne']
  · refine ⟨Real.log (drug.ka / drug.ke) / (drug.ka - drug.ke), ?_,
      bateman_peak_pos drug.ka drug.ke hka hke h⟩
    simp [TwoComp.computeTmax, h, fdiv_of_ne _ hke.ne', fdiv_of_ne _ (sub_ne_zero.mpr h),
      except_ok_bind, flog_of_pos _ (div_pos hka hke)]

/-- Derivative in `k` of `(1 - exp (-k t)) / k`. -/
theorem hasDerivAt_auc_kernel (t k : ℝ) (hk : k ≠ 0) :
    HasDerivAt (fun x : ℝ => (1 - Real.exp (-x * t)) / x)
      (-(1 - Real.exp (-k * t) * (k * t + 1)) / (k * k)) k := by
  have h1 : HasDerivAt (fun x : ℝ => -x * t) (-t) k := by
    simpa using ((hasDerivAt_id k).neg).mul_const t
  have h2 : HasDerivAt (fun x : ℝ => 1 - Real.exp (-x * t))
      (-(Real.exp (-k * t) * (-t))) k :=
    (h1.exp).const_sub 1
  have h3 := h2.div (hasDerivAt_id k) hk
  convert h3 using 1
  simp only [id]
  field_simp
  ring

/-- The value of the `ke ≠ km` branch of the one-compartment metabolite AUC tends,
as `km` tends to `ke = k`, to the value of the `ke = km` branch. -/
theorem metaboliteAuc_branch_tendsto (dose f k t : ℝ) (hk : k ≠ 0) :
    Filter.Tendsto (fun km : ℝ => k / (km - k) * dose * f *
        ((1 - Real.exp (-k * t)) / k - (1 - Real.exp (-km * t)) / km) / 3600)
      (nhdsWithin k {k}ᶜ)
      (nhds ((1 - Real.exp (-k * t) * (k * t + 1)) / (k * k) * (dose * k * f) / 3600)) := by
  have hs := (hasDerivAt_iff_tendsto_slope.mp (hasDerivAt_auc_kernel t k hk))
  have hc := ((hs.neg).const_mul (k * dose * f / 3600))
  have hfun : (fun km : ℝ => k / (km - k) * dose * f *
        ((1 - Real.exp (-k * t)) / k - (1 - Real.exp (-km * t)) / km) / 3600) =
      fun km => k * dose * f / 3600 *
        -(slope (fun x : ℝ => (1 - Real.exp (-x * t)) / x) k km) := by
    funext km
    rw [slope_def_field]
    ring
  rw [hfun]
  convert hc using 2
  field_simp
  ring

/-- The value of `computeEffectiveness` for a positive midpoint and dose. -/
theorem computeEffectiveness_value (m d : ℝ) (hm : 0 < m) (hd : 0 < d) :
    PK.computeEffectiveness m d = Except.ok (1 / (1 + m / d)) := by
  have h1 : (1 : ℝ) + m / d ≠ 0 := by positivity
  simp only [PK.computeEffectiveness, if_neg hd.ne', fdiv_of_ne _ hd.ne', except_ok_bind,
    fdiv_of_ne _ h1]

/-- At dose 0 and a midpoint other than 0 the effectiveness is the number 0. -/
theorem computeEffectiveness_zero_dose (m : ℝ) (hm : m ≠ 0) :
    PK.computeEffectiveness m 0 = Except.ok 0 := by
  simp [PK.computeEffectiveness, hm, except_pure]

/-- The threshold of `computeIsAbsorbed` as a bound on the time: with the
`float` value `16441672 / 2^24` of the constant, `1 - θ = 41943 / 2097152`. -/
theorem absorbed_iff_time (ka t : ℝ) (hka : 0 < ka) :
    (1 - Real.exp (-ka * t) ≥ 16441672 / 16777216) ↔
      Real.log (2097152 / 41943) / ka ≤ t := by
  have hr : (0 : ℝ) < 41943 / 2097152 := by norm_num
  have hlog : Real.log (41943 / 2097152) = -Real.log (2097152 / 41943) := by
    rw [← Real.log_inv, inv_div]
  rw [div_le_iff₀ hka]
  constructor
  · intro h
    have h1 : Real.exp (-ka * t) ≤ 41943 / 2097152 := by linarith
    have h2 := (Real.le_log_iff_exp_le hr).mpr h1
    rw [hlog] at h2
    linarith
  · intro h
    have h2 : -ka * t ≤ Real.log (41943 / 2097152) := by rw [hlog]; linarith
    have h1 := (Real.le_log_iff_exp_le hr).mp h2
    linarith

/-- At `t = ln 50 / ka` exactly 98 percent are absorbed. -/
theorem absorbed_fraction_at_log_fifty (ka : ℝ) (hka : 0 < ka) :
    1 - Real.exp (-ka * (Real.log 50 / ka)) = 98 / 100 := by
  have h : -ka * (Real.log 50 / ka) = -Real.log 50 := by
    field_simp
    ring
  rw [h, Real.exp_neg, Real.exp_log (by norm_num)]
  norm_num

/-! ## The display threshold set by `validateInit` -/

/-- C21: for a simulation with precision `p ≥ 0` (in particular `p` in `[0, 15]`)
whose state still has the display threshold of a freshly constructed state,
every simulation returned by `validateInit` has
`state.minDisplayDose = 10^(-p) * 0.5`, the value being `0.5` for `p = 0`;
`validateInit` returns when a prodrug has its metabolite rate constant and a
route other than intravenous has positive rate constants; and
`getMinDisplayDose p = 10^(-p) * 0.5`. -/
theorem validateInit_minDisplayDose (sim : SimulationInfo ℝ) (now1 now2 : ℝ)
    (hp : 0 ≤ sim.precision)
    (hfresh : sim.state.minDisplayDose = (State.init 0 0 0 0 0 : State ℝ).minDisplayDose) :
    (∀ sim', SimHelper.validateInit Real.log now1 now2 sim = Except.ok sim' →
      sim'.state.minDisplayDose = (10 : ℝ) ^ (-sim.precision) * (1 / 2) ∧
      (sim.precision = 0 → sim'.state.minDisplayDose = 1 / 2)) ∧
    ((sim.drugInfo.isProdrug = true → ∃ km, sim.drugInfo.activeKe = some km) →
      (sim.drugInfo.roa ≠ ROA_TYPE.ROA_TYPE_IV →
        0 < sim.drugInfo.ka ∧ 0 < sim.drugInfo.ke) →
      ∃ sim', SimHelper.validateInit Real.log now1 now2 sim = Except.ok sim') ∧
    SimHelper.getMinDisplayDose sim.precision = (10 : ℝ) ^ (-sim.precision) * (1 / 2) := by
  have hff := flipFlop_frame sim
  refine ⟨?_, ?_, rfl⟩
  · intro sim' h
    obtain ⟨s2, s3, h2, h3, rfl⟩ := (validateInit_eq_ok_iff _ _ _ _ _).mp h
    have d2 := prodrug_display _ _ h2
    have d3 := peak_display _ _ _ h3
    have hprec : s3.precision = sim.precision := by rw [d3.1, d2.1, hff.1]
    have hmin : s3.state.minDisplayDose = 1 / 2 := by
      rw [d3.2, d2.2, hff.2.1, hfresh]
      rfl
    have hval : (SimHelper.validateInit.startTime now1 now2
        (SimHelper.validateInit.minDisplay s3)).state.minDisplayDose =
        (10 : ℝ) ^ (-sim.precision) * (1 / 2) := by
      rw [startTime_state]
      unfold SimHelper.validateInit.minDisplay
      by_cases hc : s3.precision > 0
      · rw [if_pos hc]
        simp only [SimHelper.getMinDisplayDose, hprec]
      · rw [if_neg hc, hmin]
        have h0 : sim.precision = 0 := by rw [hprec] at hc; omega
        rw [h0]
        norm_num
    refine ⟨hval, fun h0 => ?_⟩
    rw [hval, h0]
    norm_num
  · intro hkm hpos
    obtain ⟨s2, h2, hroa, hp2⟩ := prodrug_ok (SimHelper.validateInit.flipFlop sim)
      (by rw [hff.2.2.2.1, hff.2.2.2.2.1]; exact hkm)
    obtain ⟨sim', h, _⟩ := validateInit_rates now1 now2 sim s2 h2
      (fun hr => hp2 (hff.2.2.2.2.2 (hpos (by rw [hroa, hff.2.2.1] at hr; exact hr))))
    exact ⟨sim', h⟩

/-- C21 at precision 3 for the intravenous profile with a fresh state: the
call returns and the threshold is `10^(-3) * 0.5`. -/
theorem validateInit_minDisplayDose_witness :
    ∃ sim', SimHelper.validateInit Real.log 5 5
        { (simOf (ivDrug 1) COMP_MODEL.ONE_COMP_MODEL : SimulationInfo ℝ) with
          precision := 3 } = Except.ok sim' ∧
      sim'.state.minDisplayDose = (10 : ℝ) ^ (-(3 : ℤ)) * (1 / 2) := by
  have h := validateInit_minDisplayDose
    { (simOf (ivDrug 1) COMP_MODEL.ONE_COMP_MODEL : SimulationInfo ℝ) with precision := 3 }
    5 5 (by decide) rfl
  obtain ⟨sim', hs⟩ := h.2.1 (fun hp => by simp [simOf, ivDrug, DrugInfo.init] at hp)
    (fun hr => absurd rfl hr)
  exact ⟨sim', hs, (h.1 sim' hs).1⟩

/-! ## Metabolite queries on a profile without prodrug data -/

/-- C22 (the code departs from the claim): on the intravenous profile without
prodrug data (`activeKe` and `activeFrac` empty) the functions
`OneComp::computeMetaboliteExcreted` and `TwoComp::computeMetaboliteExcreted`
raise no error: they dereference the empty optional with `*`, unchecked. So do
`OneComp::computeMetaboliteContent` and `OneComp::computeMetaboliteAuc` when
only `activeFrac` is empty. The sibling functions do check:
`TwoComp::computeMetaboliteContent` throws when either member is empty,
`OneComp::computeMetaboliteContent` throws when `activeKe` is empty, and
`TwoComp::computeAucMetabolite` throws on a profile that is not a prodrug. -/
theorem metabolite_excreted_reads_empty_optional_unchecked :
    OneComp.computeMetaboliteExcreted Real.exp (ivDrug 1 : DrugInfo ℝ) 1 =
      Except.error Fault.emptyOptionalDeref ∧
    TwoComp.computeMetaboliteExcreted Real.exp (ivDrug 1 : DrugInfo ℝ) 1 =
      Except.error Fault.emptyOptionalDeref ∧
    OneComp.computeMetaboliteContent Real.exp (noFractionDrug : DrugInfo ℝ) 1 =
      Except.error Fault.emptyOptionalDeref ∧
    OneComp.computeMetaboliteAuc Real.exp (noFractionDrug : DrugInfo ℝ) 1 =
      Except.error Fault.emptyOptionalDeref ∧
    (∀ (drug : DrugInfo ℝ) (t : ℝ), drug.activeKe = none ∨ drug.activeFrac = none →
      TwoComp.computeMetaboliteContent Real.exp drug t =
        Except.error Fault.invalidArgument) ∧
    (∀ (drug : DrugInfo ℝ) (t : ℝ), drug.activeKe = none →
      OneComp.computeMetaboliteContent Real.exp drug t =
        Except.error Fault.invalidArgument) ∧
    (∀ (drug : DrugInfo ℝ) (t : ℝ), drug.isProdrug = false →
      TwoComp.computeAucMetabolite Real.exp drug t = Except.error Fault.runtimeError) := by
  have h1 : (1 : ℝ) ≠ 0 := one_ne_zero
  have h2 : (2 : ℝ) - 1 ≠ 0 := by norm_num
  refine ⟨rfl, rfl, ?_, ?_, ?_, ?_, ?_⟩
  · simp only [OneComp.computeMetaboliteContent, noFractionDrug, ivDrug, DrugInfo.init,
      optDeref, Option.isNone_some, Bool.false_eq_true, if_false, except_ok_bind,
      except_error_bind]
  · have hne : ¬ (1 : ℝ) = 2 := by norm_num
    simp only [OneComp.computeMetaboliteAuc, noFractionDrug, ivDrug, DrugInfo.init,
      optDeref, Option.isNone_some, Bool.false_eq_true, if_false, except_ok_bind,
      if_neg hne, fdiv_of_ne _ h2, except_error_bind]
  · rintro drug t (h | h) <;> simp [TwoComp.computeMetaboliteContent, h]
  · intro drug t h
    simp [OneComp.computeMetaboliteContent, h]
  · intro drug t h
    simp [TwoComp.computeAucMetabolite, h]

/-! ## Delayed release and the route -/

/-- In a build without assertions, input handling of `--roa iv --dr 3600`
returns a delayed-release simulation with the intravenous route. -/
theorem handleInput_ivDelayed_ndebug (stod timeInputToSeconds : String → ℝ)
    (drFracLine drLine : String) :
    handleInput true stod timeInputToSeconds drFracLine drLine ivDelayedArgs
        (SimulationInfo.init (State.init 0 0 0 0 0)) =
      Except.ok { (SimulationInfo.init (State.init 0 0 0 0 0) : SimulationInfo ℝ) with
        drugInfo := { (DrugInfo.init : DrugInfo ℝ) with
          isDr := true,
          drFrac := some (if drFracLine = "" then 1 / 2 else stod drFracLine),
          drLagtime := some (timeInputToSeconds "3600") } } := by
  by_cases hl : drFracLine = "" <;>
  simp [handleInput, handleInput.runHelper, ArgParser.isArgUsed, ArgParser.getArgByFlag,
    ivDelayedArgs, Args.ROA, Args.DR, Args.DR_FRAC, checkBadArgs, handleInput.roaHandler,
    handleInput.drFracHandler, handleInput.drHandler, roaToStringMap, roaToCompModelMap,
    vectorContains, iequals, SimulationInfo.init, DrugInfo.init, except_ok_bind, except_pure,
    hl]

/-- C23 (the code departs from the claim): for the command line
`--roa iv --dr 3600` delayed release is requested and the route maps to the
one-compartment model, yet `checkBadArgs` raises nothing, because it tests
whether `--roa` was used and not which model the route selects. In a build
without assertions `handleInput` returns a delayed-release simulation under
the one-compartment model; in a build with assertions the run stops at the
failed `assert` of the `--dr-frac` handler, not at the configuration error.
Whenever `--roa` is not used and delayed release is requested, the
configuration error is raised. -/
theorem handleInput_explicit_iv_delayed_release_not_rejected
    (stod timeInputToSeconds : String → ℝ) (drFracLine drLine : String) :
    (ivDelayedArgs.isArgUsed Args.DR = true ∧ ivDelayedArgs.isArgUsed Args.ROA = true) ∧
    checkBadArgs ivDelayedArgs
      { (SimulationInfo.init (State.init 0 0 0 0 0) : SimulationInfo ℝ) with
        drugInfo := { (DrugInfo.init : DrugInfo ℝ) with isDr := true } } = Except.ok () ∧
    (∃ sim', handleInput true stod timeInputToSeconds drFracLine drLine ivDelayedArgs
        (SimulationInfo.init (State.init 0 0 0 0 0)) = Except.ok sim' ∧
      sim'.drugInfo.isDr = true ∧ sim'.drugInfo.roa = ROA_TYPE.ROA_TYPE_IV ∧
      sim'.compModel = COMP_MODEL.ONE_COMP_MODEL) ∧
    handleInput false stod timeInputToSeconds drFracLine drLine ivDelayedArgs
      (SimulationInfo.init (State.init 0 0 0 0 0)) = Except.error Fault.assertionFailed ∧
    (∀ (ndebug : Bool) (parser : ArgParser) (info : SimulationInfo ℝ),
      (parser.isArgUsed Args.DR || parser.isArgUsed Args.DR_FRAC) = true →
      parser.isArgUsed Args.ROA = false →
      handleInput ndebug stod timeInputToSeconds drFracLine drLine parser info =
        Except.error Fault.logicError) := by
  have hdr : ivDelayedArgs.isArgUsed Args.DR = true := by decide
  have hroa : ivDelayedArgs.isArgUsed Args.ROA = true := by decide
  refine ⟨⟨hdr, hroa⟩, ?_, ?_, ?_, ?_⟩
  · simp [checkBadArgs, hroa, except_pure]
  · exact ⟨_, handleInput_ivDelayed_ndebug stod timeInputToSeconds drFracLine drLine,
      rfl, rfl, rfl⟩
  · simp [handleInput, handleInput.runHelper, ArgParser.isArgUsed, ArgParser.getArgByFlag,
      ivDelayedArgs, Args.ROA, Args.DR, Args.DR_FRAC, checkBadArgs, handleInput.roaHandler,
      handleInput.drFracHandler, handleInput.drHandler, roaToStringMap, roaToCompModelMap,
      vectorContains, iequals, SimulationInfo.init, DrugInfo.init, except_ok_bind,
      except_pure, except_error_bind]
  · intro ndebug parser info hd hr
    simp [handleInput, hd, hr, checkBadArgs, except_error_bind]

/-! ## The metabolite AUC at equal rate constants -/

/-- C24: for a profile with `ke = km = k > 0` and active fraction `f`, at every
`t`, `OneComp::computeMetaboliteAuc` returns
`dose * f * k * (1 - exp(-k t) (k t + 1)) / k^2 / 3600`; and this number is the
limit, as `km` tends to `k` through values other than `k`, of what the
`ke ≠ km` branch returns for the same profile with metabolite constant `km`. -/
theorem oneComp_computeMetaboliteAuc_equal_rates (drug : DrugInfo ℝ) (k f t : ℝ)
    (hk : 0 < k) (hke : drug.ke = k) (hkm : drug.activeKe = some k)
    (hf : drug.activeFrac = some f) :
    OneComp.computeMetaboliteAuc Real.exp drug t =
      Except.ok (drug.dose * f * k * (1 - Real.exp (-k * t) * (k * t + 1)) / k ^ 2 / 3600) ∧
    ∃ F : ℝ → ℝ,
      (∀ km, km ≠ k → km ≠ 0 →
        OneComp.computeMetaboliteAuc Real.exp { drug with activeKe := some km } t =
          Except.ok (F km)) ∧
      Filter.Tendsto F (nhdsWithin k {k}ᶜ)
        (nhds (drug.dose * f * k * (1 - Real.exp (-k * t) * (k * t + 1)) / k ^ 2 / 3600)) := by
  have hk0 : k ≠ 0 := hk.ne'
  have h36 : (3600 : ℝ) ≠ 0 := by norm_num
  have hval : drug.dose * f * k * (1 - Real.exp (-k * t) * (k * t + 1)) / k ^ 2 / 3600 =
      (1 - Real.exp (-k * t) * (k * t + 1)) / (k * k) * (drug.dose * k * f) / 3600 := by
    field_simp
    ring
  refine ⟨?_, fun km => k / (km - k) * drug.dose * f *
        ((1 - Real.exp (-k * t)) / k - (1 - Real.exp (-km * t)) / km) / 3600, ?_, ?_⟩
  · rw [hval]
    simp only [OneComp.computeMetaboliteAuc, hkm, hf, hke, optDeref, Option.isNone_some,
      Bool.false_eq_true, if_false, except_ok_bind, if_true,
      fdiv_of_ne _ (mul_ne_zero hk0 hk0), fdiv_of_ne _ h36]
  · intro km hne h0
    have hne' : ¬ k = km := fun e => hne e.symm
    simp only [OneComp.computeMetaboliteAuc, hf, hke, optDeref, Option.isNone_some,
      Bool.false_eq_true, if_false, except_ok_bind, if_neg hne',
      fdiv_of_ne _ (sub_ne_zero.mpr hne), fdiv_of_ne _ hk0, fdiv_of_ne _ h0,
      fdiv_of_ne _ h36]
  · rw [hval]
    exact metaboliteAuc_branch_tendsto drug.dose f k t hk0

/-- C24 for the prodrug profile with `ke = km = 1` (10 mg, active fraction one
half) at `t = 3`. -/
theorem oneComp_computeMetaboliteAuc_equal_rates_witness :
    (0 : ℝ) < 1 ∧
    OneComp.computeMetaboliteAuc Real.exp (prodrugDrug 2 1 1 : DrugInfo ℝ) 3 =
      Except.ok ((10 : ℝ) * (1 / 2) * 1 * (1 - Real.exp (-1 * 3) * (1 * 3 + 1)) / 1 ^ 2
        / 3600) :=
  ⟨by norm_num,
    (oneComp_computeMetaboliteAuc_equal_rates (prodrugDrug 2 1 1) 1 (1 / 2) 3 (by norm_num)
      rfl rfl rfl).1⟩

/-! ## Effectiveness -/

/-- C25: for a midpoint (ED50) `m > 0`: for every dose `d > 0`,
`computeEffectiveness m d` returns `1 / (1 + m / d)`, which lies strictly
between 0 and 1; the value is strictly increasing in `d`; it is `1/2` at
`d = m`; and the effectiveness stored by `updateCurrentDoses` (when the ED50
is enabled) is `computeEffectiveness` of the content the same call stored: the
metabolite content for a prodrug, the parent content otherwise. -/
theorem computeEffectiveness_hill (m : ℝ) (hm : 0 < m) :
    (∀ d, 0 < d → PK.computeEffectiveness m d = Except.ok (1 / (1 + m / d)) ∧
      0 < 1 / (1 + m / d) ∧ 1 / (1 + m / d) < 1) ∧
    (∀ d1 d2 e1 e2, 0 < d1 → d1 < d2 → PK.computeEffectiveness m d1 = Except.ok e1 →
      PK.computeEffectiveness m d2 = Except.ok e2 → e1 < e2) ∧
    PK.computeEffectiveness m m = Except.ok (1 / 2) ∧
    (∀ (sim sim' : SimulationInfo ℝ), sim.ed50Enabled = true → sim.drugInfo.ed50 = m →
      SimHelper.updateCurrentDoses Real.exp sim = Except.ok sim' →
      ∃ dose, (if sim.drugInfo.isProdrug = true then sim'.state.activeDrugContent
          else some sim'.state.drugContent) = some dose ∧
        PK.computeEffectiveness m dose = Except.ok sim'.state.effectiveness) := by
  refine ⟨?_, ?_, ?_, ?_⟩
  · intro d hd
    refine ⟨computeEffectiveness_value m d hm hd, by positivity, ?_⟩
    rw [div_lt_one (by positivity)]
    have : 0 < m / d := by positivity
    linarith
  · intro d1 d2 e1 e2 h1 h12 he1 he2
    rw [computeEffectiveness_value m d1 hm h1] at he1
    rw [computeEffectiveness_value m d2 hm (h1.trans h12)] at he2
    rw [← Except.ok.inj he1, ← Except.ok.inj he2]
    have h2 : 0 < d2 := h1.trans h12
    apply one_div_lt_one_div_of_lt (by positivity)
    have : m / d2 < m / d1 := div_lt_div_of_pos_left hm h1 h12
    linarith
  · rw [computeEffectiveness_value m m hm hm, div_self hm.ne']
    norm_num
  · intro sim sim' he hm' h
    obtain ⟨hdi, dose, hd, heff⟩ := updateCurrentDoses_effectiveness Real.exp sim sim' h he
    refine ⟨dose, ?_, by rw [← hm']; exact heff⟩
    unfold SimHelper.trackedContent at hd
    rw [hdi] at hd
    exact hd

/-- C25 at `m = 10`: the dose 10 has effectiveness one half, the dose 30 has
effectiveness `1 / (1 + 10 / 30)`, and `updateCurrentDoses` returns for the
intravenous simulation with this ED50, storing the effectiveness of the
content it stored. -/
theorem computeEffectiveness_hill_witness :
    (0 : ℝ) < 10 ∧ PK.computeEffectiveness (10 : ℝ) 10 = Except.ok (1 / 2) ∧
    PK.computeEffectiveness (10 : ℝ) 30 = Except.ok (1 / (1 + 10 / 30)) ∧
    ∃ sim', SimHelper.updateCurrentDoses Real.exp (ed50Sim : SimulationInfo ℝ) =
        Except.ok sim' ∧
      PK.computeEffectiveness 10 sim'.state.drugContent =
        Except.ok sim'.state.effectiveness := by
  have h := computeEffectiveness_hill 10 (by norm_num)
  refine ⟨by norm_num, h.2.2.1, (h.1 30 (by norm_num)).1, ?_⟩
  have h10 : (10 : ℝ) ≠ 0 := by norm_num
  have h1 : (1 : ℝ) ≠ 0 := one_ne_zero
  have h2 : (1 : ℝ) + 10 / (100 / 10) ≠ 0 := by norm_num
  have h3 : (100 : ℝ) / 10 ≠ 0 := by norm_num
  have hex : ∃ sim', SimHelper.updateCurrentDoses Real.exp (ed50Sim : SimulationInfo ℝ) =
      Except.ok sim' := by
    simp [SimHelper.updateCurrentDoses, computeDrugContent, OneComp.computeDrugContent,
      PK.computeEffectiveness, Dose.toDefaultFactor, ed50Sim, simOf, ivDrug, DrugInfo.init,
      SimulationInfo.init, State.init, fdiv_of_ne _ h10, fdiv_of_ne _ h1, fdiv_of_ne _ h2,
      fdiv_of_ne _ h3, except_ok_bind, except_pure]
  obtain ⟨sim', hs⟩ := hex
  obtain ⟨dose, hd, he⟩ := h.2.2.2 ed50Sim sim' rfl rfl hs
  have hd' : sim'.state.drugContent = dose := by
    have hp : (ed50Sim : SimulationInfo ℝ).drugInfo.isProdrug = false := rfl
    rw [hp] at hd
    exact Option.some.inj hd
  exact ⟨sim', hs, by rw [hd']; exact he⟩

/-! ## The fully-absorbed predicate -/

/-- C26 as stated fails: for the oral profile with `ka = 2`, at `t = ln 50 / 2`
the absorbed fraction `1 - exp(-ka t)` is 0.98, so `1 - exp(-ka t) ≥ 0.98` and
`t ≥ ln 50 / ka` hold, yet `computeIsAbsorbed` is false: the constant
`ABSORBED_THRESHOLD` is the `float` `0.98f`, which is greater than 0.98. -/
theorem computeIsAbsorbed_false_at_98_percent :
    1 - Real.exp (-(oralDrug 2 1 : DrugInfo ℝ).ka * (Real.log 50 / 2)) ≥ 98 / 100 ∧
    Real.log 50 / (oralDrug 2 1 : DrugInfo ℝ).ka ≤ Real.log 50 / 2 ∧
    TwoComp.computeIsAbsorbed Real.exp (oralDrug 2 1 : DrugInfo ℝ) (Real.log 50 / 2) =
      false := by
  have hka : (oralDrug 2 1 : DrugInfo ℝ).ka = 2 := rfl
  have h := absorbed_fraction_at_log_fifty 2 (by norm_num)
  refine ⟨by rw [hka, h], by rw [hka], ?_⟩
  simp only [TwoComp.computeIsAbsorbed, ABSORBED_THRESHOLD, hka, h, decide_eq_false_iff_not]
  norm_num

/-- C26, amended: for a profile with `ka > 0`, `computeIsAbsorbed drug t` is true
exactly when `1 - exp(-ka t)` is at least the `float` constant
`0.98f = 16441672 / 2^24`, that is exactly when `t ≥ ln(2097152 / 41943) / ka`,
a bound greater than `ln 50 / ka`; it is monotone in `t`; whenever it is true,
`1 - exp(-ka t) ≥ 0.98`; and `checkFullyAbsorbed` changes nothing (so not
`fullyAbsorbed`) in a one-compartment simulation. -/
theorem computeIsAbsorbed_threshold (drug : DrugInfo ℝ) (hka : 0 < drug.ka) :
    (∀ t, TwoComp.computeIsAbsorbed Real.exp drug t = true ↔
      1 - Real.exp (-drug.ka * t) ≥ 16441672 / 16777216) ∧
    (∀ t, TwoComp.computeIsAbsorbed Real.exp drug t = true ↔
      Real.log (2097152 / 41943) / drug.ka ≤ t) ∧
    Real.log 50 / drug.ka < Real.log (2097152 / 41943) / drug.ka ∧
    (∀ t t', t ≤ t' → TwoComp.computeIsAbsorbed Real.exp drug t = true →
      TwoComp.computeIsAbsorbed Real.exp drug t' = true) ∧
    (∀ t, TwoComp.computeIsAbsorbed Real.exp drug t = true →
      1 - Real.exp (-drug.ka * t) ≥ 98 / 100) ∧
    (∀ sim : SimulationInfo ℝ, sim.compModel = COMP_MODEL.ONE_COMP_MODEL →
      SimHelper.checkFullyAbsorbed Real.exp sim = sim) := by
  have h1 : ∀ t, TwoComp.computeIsAbsorbed Real.exp drug t = true ↔
      1 - Real.exp (-drug.ka * t) ≥ 16441672 / 16777216 := by
    intro t
    simp only [TwoComp.computeIsAbsorbed, ABSORBED_THRESHOLD, decide_eq_true_eq]
  have h2 : ∀ t, TwoComp.computeIsAbsorbed Real.exp drug t = true ↔
      Real.log (2097152 / 41943) / drug.ka ≤ t :=
    fun t => (h1 t).trans (absorbed_iff_time drug.ka t hka)
  refine ⟨h1, h2, ?_, ?_, ?_, ?_⟩
  · apply div_lt_div_of_pos_right _ hka
    exact Real.log_lt_log (by norm_num) (by norm_num)
  · intro t t' htt h
    exact (h2 t').mpr (((h2 t).mp h).trans htt)
  · intro t h
    have := (h1 t).mp h
    have hc : (98 : ℝ) / 100 ≤ 16441672 / 16777216 := by norm_num
    exact hc.trans this
  · intro sim hm
    simp [SimHelper.checkFullyAbsorbed, hm]

/-- C26, amended, for the oral profile with `ka = 2`: absorbed at
`t = ln(2097152 / 41943) / 2`. -/
theorem computeIsAbsorbed_threshold_witness :
    (0 : ℝ) < (oralDrug 2 1 : DrugInfo ℝ).ka ∧
    TwoComp.computeIsAbsorbed Real.exp (oralDrug 2 1 : DrugInfo ℝ)
      (Real.log (2097152 / 41943) / (oralDrug 2 1 : DrugInfo ℝ).ka) = true :=
  ⟨by simp [oralDrug, DrugInfo.init],
    ((computeIsAbsorbed_threshold (oralDrug 2 1) (by simp [oralDrug, DrugInfo.init])).2.1
      _).mpr le_rfl⟩

/-! ## The dose argument of the one-compartment content -/

/-- C27 (the code departs from the claim): `OneComp::computeDrugContent` does
not read its `dose` argument: any two dose arguments give the same result. For
the intravenous profile of 100 mg with `Vd = 10`, the dose argument 50 and
`t = 0` it returns `100 / 10 = 10`, where `d / Vd * exp(-ke t)` is 5. The
sibling `TwoComp::computeDrugContent` does read its argument. -/
theorem oneComp_computeDrugContent_ignores_dose_argument :
    (∀ (drug : DrugInfo ℝ) (d d' t : ℝ),
      OneComp.computeDrugContent Real.exp drug d t =
        OneComp.computeDrugContent Real.exp drug d' t) ∧
    OneComp.computeDrugContent Real.exp (ivDrug 1 : DrugInfo ℝ) 50 0 = Except.ok 10 ∧
    (50 : ℝ) / (ivDrug 1 : DrugInfo ℝ).vd * Real.exp (-(ivDrug 1 : DrugInfo ℝ).ke * 0) = 5 ∧
    (∀ d : ℝ, TwoComp.computeDrugContent Real.exp (oralDrug 1 1 : DrugInfo ℝ) d 1 =
      Except.ok (d * Real.exp (-1))) := by
  refine ⟨fun drug d d' t => rfl, ?_, ?_, ?_⟩
  · simp only [OneComp.computeDrugContent, ivDrug, DrugInfo.init]
    rw [fdiv_of_ne _ (by norm_num)]
    simp only [except_ok_bind, except_pure]
    norm_num
  · simp only [ivDrug, DrugInfo.init]
    norm_num
  · intro d
    simp [TwoComp.computeDrugContent, oralDrug, DrugInfo.init, fdiv_of_ne, except_ok_bind,
      except_pure]

/-! ## Symmetry of the time to peak -/

/-- C28: for `ka > 0` and `ke > 0`, `computeTmax` returns the same positive number
for the profile and for the profile with the two rate constants exchanged; in
particular the flip-flop block of `validateInit` keeps the time to peak, and
when the swap happens (`ka < ke`, route other than intravenous) `validateInit`
returns and stores the time to peak of the profile as it was entered. -/
theorem computeTmax_symmetric (sim : SimulationInfo ℝ)
    (hka : 0 < sim.drugInfo.ka) (hke : 0 < sim.drugInfo.ke) :
    ∃ tm, TwoComp.computeTmax Real.log sim.drugInfo = Except.ok tm ∧
      TwoComp.computeTmax Real.log
        { sim.drugInfo with ka := sim.drugInfo.ke, ke := sim.drugInfo.ka } = Except.ok tm ∧
      TwoComp.computeTmax Real.log (SimHelper.validateInit.flipFlop sim).drugInfo =
        Except.ok tm ∧
      0 < tm ∧
      (sim.drugInfo.ka < sim.drugInfo.ke → sim.drugInfo.roa ≠ ROA_TYPE.ROA_TYPE_IV →
        (sim.drugInfo.isProdrug = true → ∃ km, sim.drugInfo.activeKe = some km) →
        ∀ now1 now2, ∃ sim', SimHelper.validateInit Real.log now1 now2 sim = Except.ok sim' ∧
          sim'.drugInfo.tmax = tm) := by
  obtain ⟨tm, htm, hpos⟩ := computeTmax_pos sim.drugInfo hka hke
  have hswap := computeTmax_swap sim.drugInfo hka hke
  have hflip : TwoComp.computeTmax Real.log (SimHelper.validateInit.flipFlop sim).drugInfo =
      Except.ok tm := by
    by_cases hc : 0 < sim.drugInfo.ka ∧ sim.drugInfo.ka < sim.drugInfo.ke
    · rw [flipFlop_swap sim hc.1 hc.2]
      exact hswap.trans htm
    · rw [flipFlop_id sim hc]
      exact htm
  refine ⟨tm, htm, hswap.trans htm, hflip, hpos, ?_⟩
  intro hlt hroa hkm now1 now2
  have hff := flipFlop_swap sim hka hlt
  have hkm' : ∃ km, (SimHelper.validateInit.flipFlop sim).drugInfo.isProdrug = true →
        (SimHelper.validateInit.flipFlop sim).drugInfo.activeKe = some km := by
    by_cases hp : sim.drugInfo.isProdrug = true
    · obtain ⟨km, h⟩ := hkm hp
      exact ⟨km, fun _ => by rw [hff]; exact h⟩
    · exact ⟨0, fun h => absurd (by rw [hff] at h; exact h) hp⟩
  obtain ⟨km, hkm'⟩ := hkm'
  obtain ⟨s2, h2, h2ka, h2ke, h2roa⟩ := prodrug_rates_of_ne
    (SimHelper.validateInit.flipFlop sim) km hkm' (by rw [hff]; exact hlt.ne')
  have hroa2 : s2.drugInfo.roa ≠ ROA_TYPE.ROA_TYPE_IV := by
    rw [h2roa, hff]; exact hroa
  have htm2 : TwoComp.computeTmax Real.log s2.drugInfo = Except.ok tm := by
    rw [computeTmax_congr Real.log s2.drugInfo (SimHelper.validateInit.flipFlop sim).drugInfo
      h2ka h2ke]
    exact hflip
  obtain ⟨s3, h3⟩ := peak_ok Real.log s2 (fun _ => ⟨tm, htm2⟩)
  refine ⟨_, (validateInit_eq_ok_iff _ _ _ _ _).mpr ⟨s2, s3, h2, h3, rfl⟩, ?_⟩
  rw [startTime_tmax, minDisplay_drugInfo]
  have := peak_tmax Real.log s2 s3 h3 hroa2
  rw [htm2] at this
  exact (Except.ok.inj this).symm

/-- C28 for the oral profiles with rate constants `(1, 2)` and `(2, 1)`. -/
theorem computeTmax_symmetric_witness :
    (0 : ℝ) <
      (simOf (oralDrug 1 2) COMP_MODEL.TWO_COMP_MODEL : SimulationInfo ℝ).drugInfo.ka ∧
    (0 : ℝ) <
      (simOf (oralDrug 1 2) COMP_MODEL.TWO_COMP_MODEL : SimulationInfo ℝ).drugInfo.ke ∧
    ∃ tm, TwoComp.computeTmax Real.log (oralDrug 1 2 : DrugInfo ℝ) = Except.ok tm ∧
      TwoComp.computeTmax Real.log (oralDrug 2 1 : DrugInfo ℝ) = Except.ok tm ∧ 0 < tm ∧
      ∃ sim', SimHelper.validateInit Real.log 5 5
        (simOf (oralDrug 1 2) COMP_MODEL.TWO_COMP_MODEL) = Except.ok sim' ∧
        sim'.drugInfo.tmax = tm := by
  have ha : (0 : ℝ) <
      (simOf (oralDrug 1 2) COMP_MODEL.TWO_COMP_MODEL : SimulationInfo ℝ).drugInfo.ka := by
    simp [simOf, oralDrug, DrugInfo.init]
  have he : (0 : ℝ) <
      (simOf (oralDrug 1 2) COMP_MODEL.TWO_COMP_MODEL : SimulationInfo ℝ).drugInfo.ke := by
    simp [simOf, oralDrug, DrugInfo.init]
  refine ⟨ha, he, ?_⟩
  obtain ⟨tm, h1, h2, _, h4, h5⟩ := computeTmax_symmetric
    (simOf (oralDrug 1 2) COMP_MODEL.TWO_COMP_MODEL) ha he
  exact ⟨tm, h1, h2, h4, h5 (by simp [simOf, oralDrug, DrugInfo.init])
    (by simp [simOf, oralDrug, DrugInfo.init])
    (by simp [simOf, oralDrug, DrugInfo.init]) 5 5⟩

/-! ## Unit consistency across the downshift -/

/-- C29: for a simulation that is not a prodrug, `useFixedPrecision` returns; the
content is unchanged; if `doseAsUnit * toDefaultFactor(doseUnit) = drugContent`
held before the call it holds afterwards for the unit after the call; and if
`minDisplayDose = 0.5 * 10^(-prec)` held before it holds afterwards. -/
theorem useFixedPrecision_unit_consistency (sim : SimulationInfo ℝ)
    (hp : sim.drugInfo.isProdrug = false) :
    ∃ sim', SimHelper.useFixedPrecision sim = Except.ok sim' ∧
      sim'.state.drugContent = sim.state.drugContent ∧
      (sim.state.doseAsUnit * Dose.toDefaultFactor sim.state.doseUnit = sim.state.drugContent →
        sim'.state.doseAsUnit * Dose.toDefaultFactor sim'.state.doseUnit =
          sim'.state.drugContent) ∧
      (sim.state.minDisplayDose = 1 / 2 * (10 : ℝ) ^ (-sim.state.prec) →
        sim'.state.minDisplayDose = 1 / 2 * (10 : ℝ) ^ (-sim'.state.prec)) := by
  obtain ⟨sim', h⟩ := useFixedPrecision_ok sim (fun hpd => by rw [hp] at hpd; cases hpd)
  refine ⟨sim', h, ?_⟩
  rcases useFixedPrecision_cases sim sim' h with rfl | ⟨unit, v, hu, hv, _, _, _, _, _, rfl⟩
  · exact ⟨rfl, id, id⟩
  · simp only [SimHelper.displayedValue, hp, Bool.false_eq_true, if_false,
      Option.some.injEq] at hv
    simp only [SimHelper.useFixedPrecision.shifted, hp, Bool.false_eq_true, if_false]
    refine ⟨trivial, ?_, ?_⟩
    · intro hc
      rw [← hc, ← hv, ← nextUnit_factor sim.state.doseUnit unit hu]
      ring
    · intro _
      simp only [SimHelper.getMinDisplayDose]
      ring

/-- C29 for the simulation showing 0.5 mg at precision 3 after the peak: the
call shifts to micrograms, and both relations hold for the new unit and
precision. -/
theorem useFixedPrecision_unit_consistency_witness :
    (milligramSim : SimulationInfo ℝ).drugInfo.isProdrug = false ∧
    ∃ sim' : SimulationInfo ℝ, SimHelper.useFixedPrecision milligramSim = Except.ok sim' ∧
      sim'.state.doseUnit = DOSE_UNIT.DOSE_UNIT_MICROGRAM ∧
      sim'.state.doseAsUnit * Dose.toDefaultFactor sim'.state.doseUnit =
        sim'.state.drugContent ∧
      sim'.state.minDisplayDose = 1 / 2 * (10 : ℝ) ^ (-sim'.state.prec) := by
  refine ⟨rfl, ?_⟩
  obtain ⟨sim', h, _, hc, hm⟩ :=
    useFixedPrecision_unit_consistency (milligramSim : SimulationInfo ℝ) rfl
  have hs : SimHelper.useFixedPrecision (milligramSim : SimulationInfo ℝ) =
      Except.ok (SimHelper.useFixedPrecision.shifted milligramSim
        DOSE_UNIT.DOSE_UNIT_MICROGRAM (1 / 2)) := by
    simp [SimHelper.useFixedPrecision, SimHelper.useFixedPrecision.shifted,
      SimHelper.useFixedPrecision.nextUnit, milligramSim, simOf,
      SimulationInfo.init, State.init, oralDrug, DrugInfo.init, except_pure, except_ok_bind]
    norm_num
  have e : sim' = SimHelper.useFixedPrecision.shifted milligramSim
      DOSE_UNIT.DOSE_UNIT_MICROGRAM (1 / 2) := Except.ok.inj (h.symm.trans hs)
  refine ⟨sim', h, by rw [e]; rfl, hc ?_, hm rfl⟩
  simp [milligramSim, State.init, Dose.toDefaultFactor]

/-! ## Excreted amount and AUC -/

end DrugSim
